import Mathlib

/-!
Dolphin CPU core (`Source/Core/Core/PowerPC/PowerPC.cpp`).

A shallow embedding of the architectural state, of the exception pipeline
(`CheckExceptions`, `CheckExternalExceptions`), of the reset procedures
(`ResetRegisters`, `Reset`), of the mode controller (`InitializeCPUCore`,
`GetMode`, `ApplyMode`, `SetMode`, `InjectExternalCPUCore`), of the
performance monitor (`UpdatePerformanceMonitor`), of the breakpoint check
(`CheckBreakPoints`), of start-up (`Init`), of the cross-thread instruction
cache invalidation (`ScheduleInvalidateCacheThreadSafe`) and of the save state
(`DoState`) of the emulated Gekko/Broadway processor, followed by the
properties proved about them.

Conventions.
* A `u32`/`u64` field is a `Nat`; the theorems that need it assume the field
  is below `2 ^ 32`.  The C expression `~m` on a 32-bit operand is `not32 m`.
* A fixed-size register array is a total function of its index.
* The global `ppcState` is passed explicitly: every procedure maps the state
  before the call to the state after it.  Log output and debug assertions do
  not touch the state and are left out.
* `Gekko.h` and `PowerPC.h` are not among the sources.  The numeric values of
  the `EXCEPTION_*` flags and of the `SPR_*` indices are therefore parameters
  (structure `Gekko`), constrained only by what the theorems assume of them.
  The cache models and the backend objects are parameters in the same way
  (structures `CacheModels` and `Backends`).
* The file-static variables of the mode controller form the structure
  `CoreSelection`; a `CPUCoreBase*` is the address of the object, 0 for null.
* The breakpoint set is an address-keyed lookup; what `CheckBreakPoints` asks
  of its surroundings (callback, break, log line) is returned as a list of
  events.
* The save-state archive is a stream of cells, one per scalar object, written
  at the end and read from the front.
-/

namespace PowerPC

/-! ## Data model -/

/-- Parameters standing for the constants of `Gekko.h`: the exception cause
flags and the indices of the special-purpose registers used by `PowerPC.cpp`. -/
structure Gekko where
  EXCEPTION_DECREMENTER : Nat
  EXCEPTION_SYSCALL : Nat
  EXCEPTION_EXTERNAL_INT : Nat
  EXCEPTION_DSI : Nat
  EXCEPTION_ISI : Nat
  EXCEPTION_ALIGNMENT : Nat
  EXCEPTION_FPU_UNAVAILABLE : Nat
  EXCEPTION_PROGRAM : Nat
  EXCEPTION_PERFORMANCE_MONITOR : Nat
  EXCEPTION_FAKE_MEMCHECK_HIT : Nat
  SPR_LR : Nat
  SPR_DEC : Nat
  SPR_SRR0 : Nat
  SPR_SRR1 : Nat
  SPR_TL : Nat
  SPR_TU : Nat
  SPR_PVR : Nat
  SPR_ECID_U : Nat
  SPR_ECID_M : Nat
  SPR_ECID_L : Nat
  SPR_MMCR0 : Nat
  SPR_PMC1 : Nat
  SPR_PMC2 : Nat
  SPR_MMCR1 : Nat
  SPR_PMC3 : Nat
  SPR_PMC4 : Nat
  SPR_HID1 : Nat

/-- One paired-single register: two 64-bit lanes (`ps0`, `ps1`). -/
structure PairedSingle where
  ps0 : Nat
  ps1 : Nat

/-- Modelled from the spec: the bit-field union `UReg_MSR` is declared in
`Gekko.h`, which is not among the sources.  Only its 32-bit word `Hex` is
kept; the positions of the named bits are the ones the specification gives
(LE = 0x1, EE = 0x8000, ILE = 0x10000). -/
structure UReg_MSR where
  Hex : Nat

/-- The floating-point status and control register, as its word `Hex`. -/
structure UReg_FPSCR where
  Hex : Nat

/-- The condition register: eight 64-bit fields. -/
structure ConditionRegister where
  fields : Nat → Nat

/-- Modelled from the spec: the instruction and data cache models are "opaque
to this core"; their classes are declared in `PPCCache.h`, which is not among
the sources.  A cache is kept as an uninterpreted word-indexed content, and
the operations `PowerPC.cpp` calls on it are parameters (`CacheModels`). -/
structure CacheModel where
  content : Nat → Nat

/-- The architectural state `PowerPCState`: the fields `PowerPC.cpp` refers to. -/
structure PowerPCState where
  gpr : Nat → Nat
  pc : Nat
  npc : Nat
  cr : ConditionRegister
  msr : UReg_MSR
  fpscr : UReg_FPSCR
  Exceptions : Nat
  downcount : Int
  xer_ca : Nat
  xer_so_ov : Nat
  xer_stringctrl : Nat
  ps : Nat → PairedSingle
  sr : Nat → Nat
  spr : Nat → Nat
  tlb : Nat → Nat
  pagetable_base : Nat
  pagetable_hashmask : Nat
  reserve : Bool
  reserve_address : Nat
  iCache : CacheModel
  dCache : CacheModel
  m_enable_dcache : Bool

/-- The C complement `~m` of a 32-bit operand. -/
def not32 (m : Nat) : Nat := 0xFFFFFFFF ^^^ m

/-- Bit-field read `msr.LE` (bit 0). -/
def UReg_MSR.LE (m : UReg_MSR) : Bool := m.Hex.testBit 0

/-- Bit-field read `msr.EE` (bit 15, mask 0x8000). -/
def UReg_MSR.EE (m : UReg_MSR) : Bool := m.Hex.testBit 15

/-- Bit-field read `msr.ILE` (bit 16, mask 0x10000). -/
def UReg_MSR.ILE (m : UReg_MSR) : Bool := m.Hex.testBit 16

/-- Bit-field write `msr.LE = b`: bit 0 is replaced, the other bits are kept. -/
def UReg_MSR.setLE (m : UReg_MSR) (b : Bool) : UReg_MSR :=
  ⟨(m.Hex &&& not32 1) ||| b.toNat⟩

/-- The accessor `SRR0(ppc_state)`, that is `ppc_state.spr[SPR_SRR0]`. -/
def SRR0 (g : Gekko) (s : PowerPCState) : Nat := s.spr g.SPR_SRR0

/-- The accessor `SRR1(ppc_state)`, that is `ppc_state.spr[SPR_SRR1]`. -/
def SRR1 (g : Gekko) (s : PowerPCState) : Nat := s.spr g.SPR_SRR1

/-- Assignment `ppc_state.spr[i] = v`. -/
def setSpr (i v : Nat) (s : PowerPCState) : PowerPCState :=
  { s with spr := Function.update s.spr i v }

/-! ## The exception pipeline -/

/-- Procedure `CheckExternalExceptions` (PowerPC.cpp, lines 578-630). -/
def CheckExternalExceptions (g : Gekko) (s : PowerPCState) : PowerPCState :=
  let exceptions := s.Exceptions
  if exceptions ≠ 0 ∧ s.msr.EE = true then
    if exceptions &&& g.EXCEPTION_EXTERNAL_INT ≠ 0 then
      let s := setSpr g.SPR_SRR0 s.npc s
      let s := setSpr g.SPR_SRR1 (s.msr.Hex &&& 0x87C0FFFF) s
      let s := { s with msr := s.msr.setLE s.msr.ILE }
      let s := { s with msr := ⟨s.msr.Hex &&& not32 0x04EF36⟩ }
      let s := { s with npc := 0x00000500 }
      let s := { s with pc := s.npc }
      { s with Exceptions := s.Exceptions &&& not32 g.EXCEPTION_EXTERNAL_INT }
    else if exceptions &&& g.EXCEPTION_PERFORMANCE_MONITOR ≠ 0 then
      let s := setSpr g.SPR_SRR0 s.npc s
      let s := setSpr g.SPR_SRR1 (s.msr.Hex &&& 0x87C0FFFF) s
      let s := { s with msr := s.msr.setLE s.msr.ILE }
      let s := { s with msr := ⟨s.msr.Hex &&& not32 0x04EF36⟩ }
      let s := { s with npc := 0x00000F00 }
      let s := { s with pc := s.npc }
      { s with Exceptions := s.Exceptions &&& not32 g.EXCEPTION_PERFORMANCE_MONITOR }
    else if exceptions &&& g.EXCEPTION_DECREMENTER ≠ 0 then
      let s := setSpr g.SPR_SRR0 s.npc s
      let s := setSpr g.SPR_SRR1 (s.msr.Hex &&& 0x87C0FFFF) s
      let s := { s with msr := s.msr.setLE s.msr.ILE }
      let s := { s with msr := ⟨s.msr.Hex &&& not32 0x04EF36⟩ }
      let s := { s with npc := 0x00000900 }
      let s := { s with pc := s.npc }
      { s with Exceptions := s.Exceptions &&& not32 g.EXCEPTION_DECREMENTER }
    else
      s
  else
    s

/-- Procedure `CheckExceptions` (PowerPC.cpp, lines 469-576). -/
def CheckExceptions (g : Gekko) (s : PowerPCState) : PowerPCState :=
  let exceptions := s.Exceptions
  if exceptions &&& g.EXCEPTION_ISI ≠ 0 then
    let s := setSpr g.SPR_SRR0 s.npc s
    let s := setSpr g.SPR_SRR1 ((s.msr.Hex &&& 0x87C0FFFF) ||| (1 <<< 30)) s
    let s := { s with msr := s.msr.setLE s.msr.ILE }
    let s := { s with msr := ⟨s.msr.Hex &&& not32 0x04EF36⟩ }
    let s := { s with npc := 0x00000400 }
    let s := { s with pc := s.npc }
    { s with Exceptions := s.Exceptions &&& not32 g.EXCEPTION_ISI }
  else if exceptions &&& g.EXCEPTION_PROGRAM ≠ 0 then
    let s := setSpr g.SPR_SRR0 s.pc s
    let s := setSpr g.SPR_SRR1 (SRR1 g s ||| (s.msr.Hex &&& 0x87C0FFFF)) s
    let s := { s with msr := s.msr.setLE s.msr.ILE }
    let s := { s with msr := ⟨s.msr.Hex &&& not32 0x04EF36⟩ }
    let s := { s with npc := 0x00000700 }
    let s := { s with pc := s.npc }
    { s with Exceptions := s.Exceptions &&& not32 g.EXCEPTION_PROGRAM }
  else if exceptions &&& g.EXCEPTION_SYSCALL ≠ 0 then
    let s := setSpr g.SPR_SRR0 s.npc s
    let s := setSpr g.SPR_SRR1 (s.msr.Hex &&& 0x87C0FFFF) s
    let s := { s with msr := s.msr.setLE s.msr.ILE }
    let s := { s with msr := ⟨s.msr.Hex &&& not32 0x04EF36⟩ }
    let s := { s with npc := 0x00000C00 }
    let s := { s with pc := s.npc }
    { s with Exceptions := s.Exceptions &&& not32 g.EXCEPTION_SYSCALL }
  else if exceptions &&& g.EXCEPTION_FPU_UNAVAILABLE ≠ 0 then
    let s := setSpr g.SPR_SRR0 s.pc s
    let s := setSpr g.SPR_SRR1 (s.msr.Hex &&& 0x87C0FFFF) s
    let s := { s with msr := s.msr.setLE s.msr.ILE }
    let s := { s with msr := ⟨s.msr.Hex &&& not32 0x04EF36⟩ }
    let s := { s with npc := 0x00000800 }
    let s := { s with pc := s.npc }
    { s with Exceptions := s.Exceptions &&& not32 g.EXCEPTION_FPU_UNAVAILABLE }
  else if exceptions &&& g.EXCEPTION_FAKE_MEMCHECK_HIT ≠ 0 then
    { s with Exceptions :=
        s.Exceptions &&& (not32 g.EXCEPTION_DSI &&& not32 g.EXCEPTION_FAKE_MEMCHECK_HIT) }
  else if exceptions &&& g.EXCEPTION_DSI ≠ 0 then
    let s := setSpr g.SPR_SRR0 s.pc s
    let s := setSpr g.SPR_SRR1 (s.msr.Hex &&& 0x87C0FFFF) s
    let s := { s with msr := s.msr.setLE s.msr.ILE }
    let s := { s with msr := ⟨s.msr.Hex &&& not32 0x04EF36⟩ }
    let s := { s with npc := 0x00000300 }
    let s := { s with pc := s.npc }
    { s with Exceptions := s.Exceptions &&& not32 g.EXCEPTION_DSI }
  else if exceptions &&& g.EXCEPTION_ALIGNMENT ≠ 0 then
    let s := setSpr g.SPR_SRR0 s.pc s
    let s := setSpr g.SPR_SRR1 (s.msr.Hex &&& 0x87C0FFFF) s
    let s := { s with msr := s.msr.setLE s.msr.ILE }
    let s := { s with msr := ⟨s.msr.Hex &&& not32 0x04EF36⟩ }
    let s := { s with npc := 0x00000600 }
    let s := { s with pc := s.npc }
    { s with Exceptions := s.Exceptions &&& not32 g.EXCEPTION_ALIGNMENT }
  else
    CheckExternalExceptions g s

/-! ## Register reset -/

/-- Modelled from the spec: `PowerPCState::SetXER` is defined in `PowerPC.h`,
which is not among the sources; the spec describes XER as a composite of the
carry, overflow and string-control parts.  `ResetRegisters` calls it with the
all-zero value, which makes each of the three stored parts 0. -/
def SetXERZero (s : PowerPCState) : PowerPCState :=
  { s with xer_stringctrl := 0, xer_ca := 0, xer_so_ov := 0 }

/-- Procedure `ResetRegisters` (PowerPC.cpp, lines 161-218); `bWii` is the
value of `SConfig::GetInstance().bWii`.  The calls `RoundingModeUpdated`,
`DBATUpdated`, `IBATUpdated`, `SystemTimers::TimeBaseSet` and
`SystemTimers::DecrementerSet` act on the host rounding mode, the BAT lookup
tables and the timing subsystem, none of which is a field of the state. -/
def ResetRegisters (g : Gekko) (bWii : Bool) (s : PowerPCState) : PowerPCState :=
  let s := { s with ps := fun _ => { ps0 := 0, ps1 := 0 } }
  let s := { s with sr := fun _ => 0 }
  let s := { s with gpr := fun _ => 0 }
  let s := { s with spr := fun _ => 0 }
  let s := if bWii then setSpr g.SPR_PVR 0x00087102 s else setSpr g.SPR_PVR 0x00083214 s
  let s := setSpr g.SPR_HID1 0x80000000 s
  let s := setSpr g.SPR_ECID_U 0x0d96e200 s
  let s := setSpr g.SPR_ECID_M 0x1840c00d s
  let s := setSpr g.SPR_ECID_L 0x82bb08e8 s
  let s := { s with fpscr := ⟨0⟩ }
  let s := { s with pc := 0 }
  let s := { s with npc := 0 }
  let s := { s with Exceptions := 0 }
  let s := { s with reserve := false }
  let s := { s with reserve_address := 0 }
  let s := { s with cr := ⟨fun _ => 0x8000000000000001⟩ }
  let s := SetXERZero s
  let s := setSpr g.SPR_TL 0 s
  let s := setSpr g.SPR_TU 0 s
  let s := { s with msr := ⟨0⟩ }
  setSpr g.SPR_DEC 0xFFFFFFFF s

/-- Parameters standing for what `Reset` takes from `PowerPC.h` and
`PPCCache.h`, neither of which is among the sources: the value of a
value-initialised translation cache (`ppcState.tlb = {}`) and the effect of
`InstructionCache::Reset` and `Cache::Reset` on a cache model. -/
structure CacheModels where
  emptyTLB : Nat → Nat
  iCacheReset : CacheModel → CacheModel
  dCacheReset : CacheModel → CacheModel

/-- Procedure `Reset` (PowerPC.cpp, lines 289-298). -/
def Reset (g : Gekko) (k : CacheModels) (bWii : Bool) (s : PowerPCState) : PowerPCState :=
  let s := { s with pagetable_base := 0 }
  let s := { s with pagetable_hashmask := 0 }
  let s := { s with tlb := k.emptyTLB }
  let s := ResetRegisters g bWii s
  let s := { s with iCache := k.iCacheReset s.iCache }
  { s with dCache := k.dCacheReset s.dCache }

/-! ## Execution backends and the mode controller -/

/-- The enumeration `CPUCore`: the four cores `PowerPC.cpp` names, and any
other underlying value (`operator>>` casts whatever integer it reads). -/
inductive CPUCore where
  | Interpreter
  | JIT64
  | JITARM64
  | CachedInterpreter
  | Other (value : Nat)
deriving DecidableEq, Repr

/-- The enumeration `CoreMode`. -/
inductive CoreMode where
  | Interpreter
  | JIT
deriving DecidableEq, Repr

/-- The build target tested by the preprocessor in `AvailableCPUCores` and
`DefaultCPUCore`: `_M_X86_64`, `_M_ARM_64`, or neither. -/
inductive Architecture where
  | X86_64
  | ARM_64
  | Generic
deriving DecidableEq, Repr

/-- A `CPUCoreBase*` is the address of a backend object; `nullptr` is 0. -/
def nullptr : Nat := 0

/-- Parameters standing for the backend objects, which live in files that are
not among the sources: the address of the interpreter singleton
(`Interpreter::getInstance()`), the pointers `JitInterface::InitJitCore` and
`JitInterface::GetCore` return, the name `GetName()` of the object at an
address, and the build target. -/
structure Backends where
  s_interpreter : Nat
  InitJitCore : CPUCore → Nat
  GetCore : Nat
  GetName : Nat → String
  arch : Architecture

/-- The file-static variables of the mode controller.  Their static
initialisers are `nullptr`, `false` and `CoreMode::Interpreter`. -/
structure CoreSelection where
  s_cpu_core_base : Nat
  s_cpu_core_base_is_injected : Bool
  s_mode : CoreMode
deriving DecidableEq, Repr

/-- Function `AvailableCPUCores` (PowerPC.cpp, lines 246-259). -/
def AvailableCPUCores : Architecture → List CPUCore
  | .X86_64 => [.JIT64, .CachedInterpreter, .Interpreter]
  | .ARM_64 => [.JITARM64, .CachedInterpreter, .Interpreter]
  | .Generic => [.CachedInterpreter, .Interpreter]

/-- Function `DefaultCPUCore` (PowerPC.cpp, lines 261-270). -/
def DefaultCPUCore : Architecture → CPUCore
  | .X86_64 => .JIT64
  | .ARM_64 => .JITARM64
  | .Generic => .CachedInterpreter

/-- Procedure `InitializeCPUCore` (PowerPC.cpp, lines 220-244).  The call
`s_interpreter->Init()` and the warning act on the interpreter object and the
log only. -/
def InitializeCPUCore (k : Backends) (cpu_core : CPUCore) (m : CoreSelection) :
    CoreSelection :=
  let m :=
    match cpu_core with
    | .Interpreter => { m with s_cpu_core_base := k.s_interpreter }
    | _ =>
      let m := { m with s_cpu_core_base := k.InitJitCore cpu_core }
      if m.s_cpu_core_base = nullptr then
        { m with s_cpu_core_base := k.InitJitCore (DefaultCPUCore k.arch) }
      else
        m
  { m with s_mode := if m.s_cpu_core_base = k.s_interpreter then .Interpreter else .JIT }

/-- Function `GetMode` (PowerPC.cpp, lines 321-324). -/
def GetMode (m : CoreSelection) : CoreMode :=
  if !m.s_cpu_core_base_is_injected then m.s_mode else .Interpreter

/-- Procedure `ApplyMode` (PowerPC.cpp, lines 326-341). -/
def ApplyMode (k : Backends) (m : CoreSelection) : CoreSelection :=
  match m.s_mode with
  | .Interpreter => { m with s_cpu_core_base := k.s_interpreter }
  | .JIT =>
    let m := { m with s_cpu_core_base := k.GetCore }
    if m.s_cpu_core_base = nullptr then
      { m with s_cpu_core_base := k.s_interpreter }
    else
      m

/-- Procedure `SetMode` (PowerPC.cpp, lines 343-355). -/
def SetMode (k : Backends) (new_mode : CoreMode) (m : CoreSelection) : CoreSelection :=
  if new_mode = m.s_mode then
    m
  else
    let m := { m with s_mode := new_mode }
    if m.s_cpu_core_base_is_injected then
      m
    else
      ApplyMode k m

/-- Function `GetCPUName` (PowerPC.cpp, lines 357-360): the name of the
active backend; there is none to ask when the pointer is null. -/
def GetCPUName (k : Backends) (m : CoreSelection) : Option String :=
  if m.s_cpu_core_base = nullptr then none else some (k.GetName m.s_cpu_core_base)

/-- Procedure `InjectExternalCPUCore` (PowerPC.cpp, lines 362-382).  The calls
`s_cpu_core_base->Shutdown()` and `new_cpu->Init()` act on the backend objects
only. -/
def InjectExternalCPUCore (k : Backends) (new_cpu : Nat) (m : CoreSelection) :
    CoreSelection :=
  if new_cpu = nullptr then
    if m.s_cpu_core_base_is_injected then
      let m := { m with s_cpu_core_base_is_injected := false }
      ApplyMode k m
    else
      m
  else
    let m := { m with s_cpu_core_base := new_cpu }
    { m with s_cpu_core_base_is_injected := true }

/-! ## Performance monitor -/

/-- Parameters standing for the bit-field readers of `UReg_MMCR0` and
`UReg_MMCR1`, declared in `Gekko.h`, which is not among the sources: each maps
the 32-bit word of the register to the value of the named field. -/
structure MonitorControl where
  PMC1SELECT : Nat → Nat
  PMC2SELECT : Nat → Nat
  PMCINTCONTROL : Nat → Bool
  PMC1INTCONTROL : Nat → Bool
  PMC3SELECT : Nat → Nat
  PMC4SELECT : Nat → Nat

/-- Procedure `UpdatePerformanceMonitor` (PowerPC.cpp, lines 407-467).  The
accessors `MMCR0(ppc_state)` and `MMCR1(ppc_state)` are the words
`spr[SPR_MMCR0]` and `spr[SPR_MMCR1]`; `+=` on a `u32` wraps at `2 ^ 32`. -/
def UpdatePerformanceMonitor (g : Gekko) (f : MonitorControl)
    (cycles num_load_stores num_fp_inst : Nat) (s : PowerPCState) : PowerPCState :=
  let s :=
    match f.PMC1SELECT (s.spr g.SPR_MMCR0) with
    | 0 => s
    | 1 => setSpr g.SPR_PMC1 ((s.spr g.SPR_PMC1 + cycles) % 2 ^ 32) s
    | _ => s
  let s :=
    match f.PMC2SELECT (s.spr g.SPR_MMCR0) with
    | 0 => s
    | 1 => setSpr g.SPR_PMC2 ((s.spr g.SPR_PMC2 + cycles) % 2 ^ 32) s
    | 11 => setSpr g.SPR_PMC2 ((s.spr g.SPR_PMC2 + num_load_stores) % 2 ^ 32) s
    | _ => s
  let s :=
    match f.PMC3SELECT (s.spr g.SPR_MMCR1) with
    | 0 => s
    | 1 => setSpr g.SPR_PMC3 ((s.spr g.SPR_PMC3 + cycles) % 2 ^ 32) s
    | 11 => setSpr g.SPR_PMC3 ((s.spr g.SPR_PMC3 + num_fp_inst) % 2 ^ 32) s
    | _ => s
  let s :=
    match f.PMC4SELECT (s.spr g.SPR_MMCR1) with
    | 0 => s
    | 1 => setSpr g.SPR_PMC4 ((s.spr g.SPR_PMC4 + cycles) % 2 ^ 32) s
    | _ => s
  if (f.PMC1INTCONTROL (s.spr g.SPR_MMCR0) = true ∧ s.spr g.SPR_PMC1 &&& 0x80000000 ≠ 0) ∨
      (f.PMCINTCONTROL (s.spr g.SPR_MMCR0) = true ∧ s.spr g.SPR_PMC2 &&& 0x80000000 ≠ 0) ∨
      (f.PMCINTCONTROL (s.spr g.SPR_MMCR0) = true ∧ s.spr g.SPR_PMC3 &&& 0x80000000 ≠ 0) ∨
      (f.PMCINTCONTROL (s.spr g.SPR_MMCR0) = true ∧ s.spr g.SPR_PMC4 &&& 0x80000000 ≠ 0) then
    { s with Exceptions := s.Exceptions ||| g.EXCEPTION_PERFORMANCE_MONITOR }
  else
    s

/-- The first switch of `UpdatePerformanceMonitor` (lines 410-419). -/
def updatePMC1 (g : Gekko) (f : MonitorControl) (cycles : Nat) (s : PowerPCState) :
    PowerPCState :=
  match f.PMC1SELECT (s.spr g.SPR_MMCR0) with
  | 0 => s
  | 1 => setSpr g.SPR_PMC1 ((s.spr g.SPR_PMC1 + cycles) % 2 ^ 32) s
  | _ => s

/-- The second switch of `UpdatePerformanceMonitor` (lines 421-433). -/
def updatePMC2 (g : Gekko) (f : MonitorControl) (cycles num_load_stores : Nat)
    (s : PowerPCState) : PowerPCState :=
  match f.PMC2SELECT (s.spr g.SPR_MMCR0) with
  | 0 => s
  | 1 => setSpr g.SPR_PMC2 ((s.spr g.SPR_PMC2 + cycles) % 2 ^ 32) s
  | 11 => setSpr g.SPR_PMC2 ((s.spr g.SPR_PMC2 + num_load_stores) % 2 ^ 32) s
  | _ => s

/-- The third switch of `UpdatePerformanceMonitor` (lines 435-447). -/
def updatePMC3 (g : Gekko) (f : MonitorControl) (cycles num_fp_inst : Nat)
    (s : PowerPCState) : PowerPCState :=
  match f.PMC3SELECT (s.spr g.SPR_MMCR1) with
  | 0 => s
  | 1 => setSpr g.SPR_PMC3 ((s.spr g.SPR_PMC3 + cycles) % 2 ^ 32) s
  | 11 => setSpr g.SPR_PMC3 ((s.spr g.SPR_PMC3 + num_fp_inst) % 2 ^ 32) s
  | _ => s

/-- The fourth switch of `UpdatePerformanceMonitor` (lines 449-458). -/
def updatePMC4 (g : Gekko) (f : MonitorControl) (cycles : Nat) (s : PowerPCState) :
    PowerPCState :=
  match f.PMC4SELECT (s.spr g.SPR_MMCR1) with
  | 0 => s
  | 1 => setSpr g.SPR_PMC4 ((s.spr g.SPR_PMC4 + cycles) % 2 ^ 32) s
  | _ => s

/-- The four switches of `UpdatePerformanceMonitor` in sequence. -/
def updateCounters (g : Gekko) (f : MonitorControl)
    (cycles num_load_stores num_fp_inst : Nat) (s : PowerPCState) : PowerPCState :=
  updatePMC4 g f cycles (updatePMC3 g f cycles num_fp_inst
    (updatePMC2 g f cycles num_load_stores (updatePMC1 g f cycles s)))

/-- The final test of `UpdatePerformanceMonitor` (lines 460-466). -/
def raiseMonitorInterrupt (g : Gekko) (f : MonitorControl) (s : PowerPCState) :
    PowerPCState :=
  if (f.PMC1INTCONTROL (s.spr g.SPR_MMCR0) = true ∧ s.spr g.SPR_PMC1 &&& 0x80000000 ≠ 0) ∨
      (f.PMCINTCONTROL (s.spr g.SPR_MMCR0) = true ∧ s.spr g.SPR_PMC2 &&& 0x80000000 ≠ 0) ∨
      (f.PMCINTCONTROL (s.spr g.SPR_MMCR0) = true ∧ s.spr g.SPR_PMC3 &&& 0x80000000 ≠ 0) ∨
      (f.PMCINTCONTROL (s.spr g.SPR_MMCR0) = true ∧ s.spr g.SPR_PMC4 &&& 0x80000000 ≠ 0) then
    { s with Exceptions := s.Exceptions ||| g.EXCEPTION_PERFORMANCE_MONITOR }
  else
    s

/-! ## Breakpoints -/

/-- Modelled from the spec: the "optional condition expression" of a
breakpoint.  The expression class is declared in `Expression.h`, which is not
among the sources; an expression is kept by identity and its truth is given
by an evaluator parameter. -/
structure Expression where
  id : Nat
deriving DecidableEq, Repr

/-- Modelled from the spec: a "BreakPoint entry: address, enabled flag,
optional condition expression, break-on-hit flag, log-on-hit flag, temporary
flag".  The type `TBreakPoint` is declared in `BreakPoints.h`, which is not
among the sources; the field names are the ones `PowerPC.cpp` uses. -/
structure TBreakPoint where
  address : Nat
  is_enabled : Bool
  log_on_hit : Bool
  break_on_hit : Bool
  is_temporary : Bool
  condition : Option Expression
deriving DecidableEq, Repr

/-- Modelled from the spec: the breakpoint set is "an address-keyed
structure", so it holds at most one breakpoint per address.  The class
`BreakPoints` is declared in `BreakPoints.h`, which is not among the sources. -/
structure BreakPoints where
  lookup : Nat → Option TBreakPoint

/-- Modelled from the spec: `BreakPoints::GetBreakpoint` "looks up the current
pc in an address-keyed structure"; null when there is no breakpoint there. -/
def BreakPoints.GetBreakpoint (b : BreakPoints) (address : Nat) : Option TBreakPoint :=
  b.lookup address

/-- Modelled from the spec: `BreakPoints::IsTempBreakPoint`, whether the
breakpoint at the address is flagged "temporary". -/
def BreakPoints.IsTempBreakPoint (b : BreakPoints) (address : Nat) : Bool :=
  match b.lookup address with
  | some bp => bp.is_temporary
  | none => false

/-- Modelled from the spec: `BreakPoints::Remove`, breakpoint removal "keyed by
address". -/
def BreakPoints.Remove (b : BreakPoints) (address : Nat) : BreakPoints :=
  { lookup := Function.update b.lookup address none }

/-- Modelled from the spec: `BreakPoints::ClearAllTemporary`
("clear-all-temporary"): every breakpoint flagged temporary is removed, the
others stay. -/
def BreakPoints.ClearAllTemporary (b : BreakPoints) : BreakPoints :=
  { lookup := fun a =>
      match b.lookup a with
      | some bp => if bp.is_temporary then none else some bp
      | none => none }

/-- Modelled from the spec: `EvaluateCondition` on "the optional condition":
a breakpoint without a condition counts as satisfied, otherwise the evaluator
decides. -/
def EvaluateCondition (evaluate : Expression → Bool) (condition : Option Expression) : Bool :=
  match condition with
  | none => true
  | some e => evaluate e

/-- What `CheckBreakPoints` does outside the breakpoint set, in the order of
the calls: the instruction-hit callbacks, `CPU::Break()`,
`GDBStub::TakeControl()`, and the log line with its register dump. -/
inductive DebugEvent where
  | InstructionHitCallbacks (pc : Nat)
  | Break
  | GDBTakeControl
  | LogLine (pc : Nat) (registers : List Nat) (lr : Nat)
deriving DecidableEq, Repr

/-- Procedure `CheckBreakPoints` (PowerPC.cpp, lines 632-660): the events it
causes and the breakpoint set it leaves.  `evaluate` evaluates a condition in
the current state and `gdbActive` is the value of `GDBStub::IsActive()`. -/
def CheckBreakPoints (g : Gekko) (evaluate : Expression → Bool) (gdbActive : Bool)
    (s : PowerPCState) (b : BreakPoints) : List DebugEvent × BreakPoints :=
  match b.GetBreakpoint s.pc with
  | none => ([], b)
  | some bp =>
    if !bp.is_enabled || !EvaluateCondition evaluate bp.condition then
      ([], b)
    else
      let events := [DebugEvent.InstructionHitCallbacks s.pc]
      let events :=
        if bp.break_on_hit then
          let events := events ++ [DebugEvent.Break]
          if gdbActive then events ++ [DebugEvent.GDBTakeControl] else events
        else events
      let events :=
        if bp.log_on_hit then
          events ++ [DebugEvent.LogLine s.pc
            [s.gpr 3, s.gpr 4, s.gpr 5, s.gpr 6, s.gpr 7, s.gpr 8, s.gpr 9, s.gpr 10,
              s.gpr 11, s.gpr 12] (s.spr g.SPR_LR)]
        else events
      let b := if b.IsTempBreakPoint s.pc then b.Remove s.pc else b
      (events, b)

/-! ## Start-up -/

/-- The two settings `Init` reads with `Config::Get`. -/
structure Settings where
  MAIN_ACCURATE_CPU_CACHE : Bool
  MAIN_ENABLE_DEBUGGING : Bool
deriving DecidableEq, Repr

/-- Parameters standing for `InstructionCache::Init` and `Cache::Init`
(`PPCCache.h`, not among the sources). -/
structure CacheSetup where
  iCacheInit : CacheModel → CacheModel
  dCacheInit : CacheModel → CacheModel

/-- The globals of `PowerPC.cpp` that `Init` acts on. -/
structure Machine where
  ppcState : PowerPCState
  selection : CoreSelection
  breakpoints : BreakPoints

/-- Procedure `Init` (PowerPC.cpp, lines 272-287).  The registration of the
`invalidateEmulatedCache` event acts on the timing subsystem only. -/
def Init (g : Gekko) (k : CacheModels) (c : CacheSetup) (bk : Backends) (cfg : Settings)
    (bWii : Bool) (cpu_core : CPUCore) (m : Machine) : Machine :=
  let m := { m with ppcState := Reset g k bWii m.ppcState }
  let m := { m with selection := InitializeCPUCore bk cpu_core m.selection }
  let m := { m with ppcState := { m.ppcState with iCache := c.iCacheInit m.ppcState.iCache } }
  let m := { m with ppcState := { m.ppcState with dCache := c.dCacheInit m.ppcState.dCache } }
  let m := { m with
    ppcState := { m.ppcState with m_enable_dcache := cfg.MAIN_ACCURATE_CPU_CACHE } }
  if cfg.MAIN_ENABLE_DEBUGGING then
    { m with breakpoints := m.breakpoints.ClearAllTemporary }
  else
    m

/-! ## Instruction cache invalidation across threads -/

/-- An event on the scheduler queue of the timing subsystem: the arguments of
`ScheduleEvent` for the `invalidateEmulatedCache` event type. -/
structure TimingEvent where
  cycles_into_future : Nat
  userdata : Nat
  from_non_cpu_thread : Bool
deriving DecidableEq, Repr

/-- Callback `InvalidateCacheThreadSafe` (PowerPC.cpp, lines 73-76);
`invalidate` stands for `InstructionCache::Invalidate`. -/
def InvalidateCacheThreadSafe (invalidate : Nat → CacheModel → CacheModel) (userdata : Nat)
    (s : PowerPCState) : PowerPCState :=
  { s with iCache := invalidate (userdata % 2 ^ 32) s.iCache }

/-- Procedure `ScheduleInvalidateCacheThreadSafe` (PowerPC.cpp, lines 300-311).
`running` is the value of `CPU::GetState() == CPU::State::Running` and
`isCPUThread` the value of `Core::IsCPUThread()`; the result is the processor
state and the scheduler queue after the call. -/
def ScheduleInvalidateCacheThreadSafe (invalidate : Nat → CacheModel → CacheModel)
    (running isCPUThread : Bool) (address : Nat) (s : PowerPCState)
    (queue : List TimingEvent) : PowerPCState × List TimingEvent :=
  if running && !isCPUThread then
    (s, queue ++ [{ cycles_into_future := 0, userdata := address,
                    from_non_cpu_thread := true }])
  else
    ({ s with iCache := invalidate (address % 2 ^ 32) s.iCache }, queue)

/-! ## Save states -/

/-- The two directions of an archive the save-state code distinguishes with
`IsReadMode`. -/
inductive Mode where
  | Read
  | Write
deriving DecidableEq, Repr

/-- Modelled from the spec: the archive `PointerWrap` is declared in
`Common/ChunkFile.h`, which is not among the sources.  The spec describes the
serialization stream as "an ordered sequence of fixed-size primitive and array
writes/reads (no framing, no versioning)".  The stream is a list of cells, one
cell per scalar object; in write mode it holds the cells written so far, in
read mode the cells still to be read. -/
structure PointerWrap where
  mode : Mode
  stream : List Int

/-- Modelled from the spec: how an object of a fixed-size type is laid out in
the stream: the number of cells it takes, the cells of a value, and the value
of a run of cells. -/
structure Primitive (α : Type) where
  size : Nat
  put : α → List Int
  get : List Int → α

/-- An unsigned integer (`u8`, `u16`, `u32`, `u64`): one cell. -/
def Primitive.unsigned : Primitive Nat :=
  { size := 1
    put := fun x => [(x : Int)]
    get := fun l => (l.headD 0).toNat }

/-- A signed integer (`int`): one cell. -/
def Primitive.signed : Primitive Int :=
  { size := 1
    put := fun x => [x]
    get := fun l => l.headD 0 }

/-- A `bool`: one cell, 1 for true and 0 for false. -/
def Primitive.bool : Primitive Bool :=
  { size := 1
    put := fun b => [if b then 1 else 0]
    get := fun l => decide (l.headD 0 ≠ 0) }

/-- The machine state register, stored as its word. -/
def Primitive.msr : Primitive UReg_MSR :=
  { size := 1
    put := fun m => [(m.Hex : Int)]
    get := fun l => ⟨(l.headD 0).toNat⟩ }

/-- The floating-point status and control register, stored as its word. -/
def Primitive.fpscr : Primitive UReg_FPSCR :=
  { size := 1
    put := fun m => [(m.Hex : Int)]
    get := fun l => ⟨(l.headD 0).toNat⟩ }

/-- A paired single: its two lanes, `ps0` first. -/
def Primitive.pairedSingle : Primitive PairedSingle :=
  { size := 2
    put := fun x => [(x.ps0 : Int), (x.ps1 : Int)]
    get := fun l => { ps0 := (l.headD 0).toNat, ps1 := (l.tail.headD 0).toNat } }

/-- Query `PointerWrap::IsReadMode`. -/
def PointerWrap.IsReadMode (p : PointerWrap) : Bool :=
  match p.mode with
  | .Read => true
  | .Write => false

/-- Modelled from the spec: `PointerWrap::Do` on one object.  A write appends
the cells of the object and leaves it alone; a read takes the next cells off
the stream and stores their value in the object. -/
def PointerWrap.Do {α : Type} (p : PointerWrap) (P : Primitive α) (x : α) : PointerWrap × α :=
  match p.mode with
  | .Write => ({ p with stream := p.stream ++ P.put x }, x)
  | .Read => ({ p with stream := p.stream.drop P.size }, P.get (p.stream.take P.size))

/-- Modelled from the spec: `PointerWrap::DoArray` on a fixed-size array of
`n` objects: the elements in index order, each as `Do` treats it. -/
def PointerWrap.DoArray {α : Type} (p : PointerWrap) (P : Primitive α) (n : Nat)
    (a : Nat → α) : PointerWrap × (Nat → α) :=
  match p.mode with
  | .Write => ({ p with stream := p.stream ++ (List.range n).flatMap (fun i => P.put (a i)) }, a)
  | .Read =>
    ({ p with stream := p.stream.drop (n * P.size) },
     fun i => if i < n then P.get ((p.stream.drop (i * P.size)).take P.size) else a i)

/-- Parameters standing for the array extents of `PowerPCState`, which
`PowerPC.h` (not among the sources) declares: the number of elements of
`gpr`, `cr.fields`, `ps`, `sr`, `spr` and `tlb`. -/
structure Extents where
  gpr : Nat
  cr_fields : Nat
  ps : Nat
  sr : Nat
  spr : Nat
  tlb : Nat
deriving DecidableEq, Repr

/-- Parameters standing for the save-state code of the cache models
(`PPCCache.h`) and of the backends (`JitInterface`), neither of which is among
the sources: `InstructionCache::DoState`, `Cache::DoState`, `Cache::FlushAll`
and `JitInterface::DoState`. -/
structure Serializers where
  iCacheDoState : PointerWrap → CacheModel → PointerWrap × CacheModel
  dCacheDoState : PointerWrap → CacheModel → PointerWrap × CacheModel
  dCacheFlushAll : CacheModel → CacheModel
  JitDoState : PointerWrap → PointerWrap

/-- One line `p.Do(ppcState.f)` of `DoState`: the archive visits the field
read with `get` and stored with `set`. -/
def DoOn {α : Type} (P : Primitive α) (get : PowerPCState → α)
    (set : α → PowerPCState → PowerPCState) (a : PointerWrap × PowerPCState) :
    PointerWrap × PowerPCState :=
  ((a.1.Do P (get a.2)).1, set (a.1.Do P (get a.2)).2 a.2)

/-- One line `p.DoArray(ppcState.f)` of `DoState`, for an array field of `n`
elements. -/
def DoArrayOn {α : Type} (P : Primitive α) (n : Nat) (get : PowerPCState → Nat → α)
    (set : (Nat → α) → PowerPCState → PowerPCState) (a : PointerWrap × PowerPCState) :
    PointerWrap × PowerPCState :=
  ((a.1.DoArray P n (get a.2)).1, set (a.1.DoArray P n (get a.2)).2 a.2)

/-- Procedure `DoState` (PowerPC.cpp, lines 102-159): the archive and the
processor state after the call, `a` being the pair of the two.  The calls
`RoundingModeUpdated`, `IBATUpdated` and `DBATUpdated` act on the host rounding
mode and the BAT lookup tables, none of which is a field of the state. -/
def DoState (e : Extents) (k : CacheModels) (c : Serializers) (p : PointerWrap)
    (s : PowerPCState) : PointerWrap × PowerPCState :=
  let a := (p, s)
  let a := DoArrayOn Primitive.unsigned e.gpr (fun s => s.gpr) (fun v s => { s with gpr := v }) a
  let a := DoOn Primitive.unsigned (fun s => s.pc) (fun v s => { s with pc := v }) a
  let a := DoOn Primitive.unsigned (fun s => s.npc) (fun v s => { s with npc := v }) a
  let a := DoArrayOn Primitive.unsigned e.cr_fields (fun s => s.cr.fields) (fun v s => { s with cr := ⟨v⟩ }) a
  let a := DoOn Primitive.msr (fun s => s.msr) (fun v s => { s with msr := v }) a
  let a := DoOn Primitive.fpscr (fun s => s.fpscr) (fun v s => { s with fpscr := v }) a
  let a := DoOn Primitive.unsigned (fun s => s.Exceptions) (fun v s => { s with Exceptions := v }) a
  let a := DoOn Primitive.signed (fun s => s.downcount) (fun v s => { s with downcount := v }) a
  let a := DoOn Primitive.unsigned (fun s => s.xer_ca) (fun v s => { s with xer_ca := v }) a
  let a := DoOn Primitive.unsigned (fun s => s.xer_so_ov) (fun v s => { s with xer_so_ov := v }) a
  let a := DoOn Primitive.unsigned (fun s => s.xer_stringctrl) (fun v s => { s with xer_stringctrl := v }) a
  let a := DoArrayOn Primitive.pairedSingle e.ps (fun s => s.ps) (fun v s => { s with ps := v }) a
  let a := DoArrayOn Primitive.unsigned e.sr (fun s => s.sr) (fun v s => { s with sr := v }) a
  let a := DoArrayOn Primitive.unsigned e.spr (fun s => s.spr) (fun v s => { s with spr := v }) a
  let a := DoArrayOn Primitive.unsigned e.tlb (fun s => s.tlb) (fun v s => { s with tlb := v }) a
  let a := DoOn Primitive.unsigned (fun s => s.pagetable_base) (fun v s => { s with pagetable_base := v }) a
  let a := DoOn Primitive.unsigned (fun s => s.pagetable_hashmask) (fun v s => { s with pagetable_hashmask := v }) a
  let a := DoOn Primitive.bool (fun s => s.reserve) (fun v s => { s with reserve := v }) a
  let a := DoOn Primitive.unsigned (fun s => s.reserve_address) (fun v s => { s with reserve_address := v }) a
  let a := ((c.iCacheDoState a.1 a.2.iCache).1,
    { a.2 with iCache := (c.iCacheDoState a.1 a.2.iCache).2 })
  let a := ((c.dCacheDoState a.1 a.2.dCache).1,
    { a.2 with dCache := (c.dCacheDoState a.1 a.2.dCache).2 })
  let a :=
    if a.1.IsReadMode then
      if !a.2.m_enable_dcache then
        (a.1, { a.2 with dCache := c.dCacheFlushAll a.2.dCache })
      else
        (a.1, { a.2 with dCache := k.dCacheReset a.2.dCache })
    else
      a
  (c.JitDoState a.1, a.2)

/-- The register file part of `DoState` (lines 113-132) on its own; `DoState`
is this followed by `DoCaches`. -/
def DoRegisters (e : Extents) (a : PointerWrap × PowerPCState) : PointerWrap × PowerPCState :=
  let a := DoArrayOn Primitive.unsigned e.gpr (fun s => s.gpr) (fun v s => { s with gpr := v }) a
  let a := DoOn Primitive.unsigned (fun s => s.pc) (fun v s => { s with pc := v }) a
  let a := DoOn Primitive.unsigned (fun s => s.npc) (fun v s => { s with npc := v }) a
  let a := DoArrayOn Primitive.unsigned e.cr_fields (fun s => s.cr.fields) (fun v s => { s with cr := ⟨v⟩ }) a
  let a := DoOn Primitive.msr (fun s => s.msr) (fun v s => { s with msr := v }) a
  let a := DoOn Primitive.fpscr (fun s => s.fpscr) (fun v s => { s with fpscr := v }) a
  let a := DoOn Primitive.unsigned (fun s => s.Exceptions) (fun v s => { s with Exceptions := v }) a
  let a := DoOn Primitive.signed (fun s => s.downcount) (fun v s => { s with downcount := v }) a
  let a := DoOn Primitive.unsigned (fun s => s.xer_ca) (fun v s => { s with xer_ca := v }) a
  let a := DoOn Primitive.unsigned (fun s => s.xer_so_ov) (fun v s => { s with xer_so_ov := v }) a
  let a := DoOn Primitive.unsigned (fun s => s.xer_stringctrl) (fun v s => { s with xer_stringctrl := v }) a
  let a := DoArrayOn Primitive.pairedSingle e.ps (fun s => s.ps) (fun v s => { s with ps := v }) a
  let a := DoArrayOn Primitive.unsigned e.sr (fun s => s.sr) (fun v s => { s with sr := v }) a
  let a := DoArrayOn Primitive.unsigned e.spr (fun s => s.spr) (fun v s => { s with spr := v }) a
  let a := DoArrayOn Primitive.unsigned e.tlb (fun s => s.tlb) (fun v s => { s with tlb := v }) a
  let a := DoOn Primitive.unsigned (fun s => s.pagetable_base) (fun v s => { s with pagetable_base := v }) a
  let a := DoOn Primitive.unsigned (fun s => s.pagetable_hashmask) (fun v s => { s with pagetable_hashmask := v }) a
  let a := DoOn Primitive.bool (fun s => s.reserve) (fun v s => { s with reserve := v }) a
  let a := DoOn Primitive.unsigned (fun s => s.reserve_address) (fun v s => { s with reserve_address := v }) a
  a

/-- The part of `DoState` after the register file (lines 134-158) on its own:
the cache models, the fix-up after a read, and the backend. -/
def DoCaches (k : CacheModels) (c : Serializers) (a : PointerWrap × PowerPCState) :
    PointerWrap × PowerPCState :=
  let a := ((c.iCacheDoState a.1 a.2.iCache).1,
    { a.2 with iCache := (c.iCacheDoState a.1 a.2.iCache).2 })
  let a := ((c.dCacheDoState a.1 a.2.dCache).1,
    { a.2 with dCache := (c.dCacheDoState a.1 a.2.dCache).2 })
  let a :=
    if a.1.IsReadMode then
      if !a.2.m_enable_dcache then
        (a.1, { a.2 with dCache := c.dCacheFlushAll a.2.dCache })
      else
        (a.1, { a.2 with dCache := k.dCacheReset a.2.dCache })
    else
      a
  (c.JitDoState a.1, a.2)

/-! ## Vocabulary of the specification -/

/-- The ten exception causes of the cause mask `Exceptions`. -/
inductive ExceptionClass where
  | ISI
  | PROGRAM
  | SYSCALL
  | FPU_UNAVAILABLE
  | FAKE_MEMCHECK_HIT
  | DSI
  | ALIGNMENT
  | EXTERNAL_INT
  | PERFORMANCE_MONITOR
  | DECREMENTER
deriving DecidableEq, Repr

/-- The cause flag of a class. -/
def Gekko.flag (g : Gekko) : ExceptionClass → Nat
  | .ISI => g.EXCEPTION_ISI
  | .PROGRAM => g.EXCEPTION_PROGRAM
  | .SYSCALL => g.EXCEPTION_SYSCALL
  | .FPU_UNAVAILABLE => g.EXCEPTION_FPU_UNAVAILABLE
  | .FAKE_MEMCHECK_HIT => g.EXCEPTION_FAKE_MEMCHECK_HIT
  | .DSI => g.EXCEPTION_DSI
  | .ALIGNMENT => g.EXCEPTION_ALIGNMENT
  | .EXTERNAL_INT => g.EXCEPTION_EXTERNAL_INT
  | .PERFORMANCE_MONITOR => g.EXCEPTION_PERFORMANCE_MONITOR
  | .DECREMENTER => g.EXCEPTION_DECREMENTER

/-- The ten cause flags are distinct single bits of a 32-bit word. -/
def Gekko.DistinctCauseBits (g : Gekko) : Prop :=
  (∀ c, ∃ k, k < 32 ∧ g.flag c = 2 ^ k) ∧ ∀ c d, c ≠ d → g.flag c ≠ g.flag d

/-- The registers written by `ResetRegisters` have pairwise distinct indices. -/
def Gekko.DistinctResetIndices (g : Gekko) : Prop :=
  [g.SPR_PVR, g.SPR_HID1, g.SPR_ECID_U, g.SPR_ECID_M, g.SPR_ECID_L,
    g.SPR_TL, g.SPR_TU, g.SPR_DEC].Nodup

/-- Class `c` is pending in `s`: its flag is set in the cause mask. -/
def pending (g : Gekko) (s : PowerPCState) (c : ExceptionClass) : Bool :=
  s.Exceptions &&& g.flag c != 0

/-- The priority order of the seven synchronous classes (spec, section 4.3). -/
def synchronousOrder : List ExceptionClass :=
  [.ISI, .PROGRAM, .SYSCALL, .FPU_UNAVAILABLE, .FAKE_MEMCHECK_HIT, .DSI, .ALIGNMENT]

/-- The priority order of the three external classes (spec, section 4.3). -/
def externalOrder : List ExceptionClass :=
  [.EXTERNAL_INT, .PERFORMANCE_MONITOR, .DECREMENTER]

/-- The decision list of the specification: the first pending synchronous
class; when there is none and `MSR.EE` is set, the first pending external
class; otherwise nothing. -/
def firstPending (g : Gekko) (s : PowerPCState) : Option ExceptionClass :=
  match synchronousOrder.find? (pending g s) with
  | some c => some c
  | none => if s.msr.EE then externalOrder.find? (pending g s) else none

/-- The fixed vector address of each vectoring class; the synthetic
`FAKE_MEMCHECK_HIT` marker has none. -/
def vector : ExceptionClass → Option Nat
  | .ISI => some 0x400
  | .PROGRAM => some 0x700
  | .SYSCALL => some 0xC00
  | .FPU_UNAVAILABLE => some 0x800
  | .FAKE_MEMCHECK_HIT => none
  | .DSI => some 0x300
  | .ALIGNMENT => some 0x600
  | .EXTERNAL_INT => some 0x500
  | .PERFORMANCE_MONITOR => some 0xF00
  | .DECREMENTER => some 0x900

/-- The return address saved in SRR0: the current `pc` for the faults that
re-execute the instruction, `npc` for the classes that resume after it. -/
def returnAddress (c : ExceptionClass) (s : PowerPCState) : Nat :=
  match c with
  | .PROGRAM | .FPU_UNAVAILABLE | .DSI | .ALIGNMENT => s.pc
  | _ => s.npc

/-- The value saved in SRR1: the machine state masked with 0x87C0FFFF; the
ISI entry also sets bit 30 (page fault) and the PROGRAM entry ORs the masked
machine state into what SRR1 already holds. -/
def savedMachineState (g : Gekko) (c : ExceptionClass) (s : PowerPCState) : Nat :=
  match c with
  | .ISI => (s.msr.Hex &&& 0x87C0FFFF) ||| 0x40000000
  | .PROGRAM => SRR1 g s ||| (s.msr.Hex &&& 0x87C0FFFF)
  | _ => s.msr.Hex &&& 0x87C0FFFF

/-- The state after entering the handler of class `c` at vector `v`: the
four-step recipe of the specification (save return address, save machine
state, adjust MSR, redirect and clear the cause bit). -/
def enterVector (g : Gekko) (c : ExceptionClass) (v : Nat) (s : PowerPCState) :
    PowerPCState :=
  { s with
    spr := Function.update (Function.update s.spr g.SPR_SRR0 (returnAddress c s))
      g.SPR_SRR1 (savedMachineState g c (setSpr g.SPR_SRR0 (returnAddress c s) s))
    msr := ⟨((s.msr.Hex &&& not32 1) ||| (s.msr.Hex.testBit 16).toNat) &&& not32 0x04EF36⟩
    pc := v
    npc := v
    Exceptions := s.Exceptions &&& not32 (g.flag c) }

/-- The state the decision list prescribes for the selected class: nothing
changes when no class is selected, the `FAKE_MEMCHECK_HIT` marker clears itself
and the DSI flag, and every other class enters its vector. -/
def drainEffect (g : Gekko) (s : PowerPCState) : Option ExceptionClass → PowerPCState
  | none => s
  | some .FAKE_MEMCHECK_HIT =>
      { s with Exceptions :=
          s.Exceptions &&& (not32 g.EXCEPTION_DSI &&& not32 g.EXCEPTION_FAKE_MEMCHECK_HIT) }
  | some c => enterVector g c ((vector c).getD 0) s

/-- The rank of a class in the priority order of the specification: the
seven synchronous classes first, then the three external ones. -/
def priorityRank (c : ExceptionClass) : Nat :=
  (synchronousOrder ++ externalOrder).indexOf c

/-- The state of the mode controller before any call: the static
initialisers of `s_cpu_core_base`, `s_cpu_core_base_is_injected`, `s_mode`. -/
def staticSelection : CoreSelection :=
  { s_cpu_core_base := nullptr, s_cpu_core_base_is_injected := false,
    s_mode := .Interpreter }

/-- A call that acts on the mode controller: `Init` (through
`InitializeCPUCore`), `SetMode` or `InjectExternalCPUCore`. -/
inductive ControlCall where
  | Init (cpu_core : CPUCore)
  | SetMode (new_mode : CoreMode)
  | InjectExternalCPUCore (new_cpu : Nat)
deriving DecidableEq, Repr

/-- The effect of one call on the mode controller. -/
def ControlCall.run (k : Backends) (m : CoreSelection) : ControlCall → CoreSelection
  | .Init c => InitializeCPUCore k c m
  | .SetMode md => PowerPC.SetMode k md m
  | .InjectExternalCPUCore p => PowerPC.InjectExternalCPUCore k p m

/-- The state reached from `m` by a sequence of calls, oldest first. -/
def runCalls (k : Backends) (calls : List ControlCall) (m : CoreSelection) : CoreSelection :=
  calls.foldl (ControlCall.run k) m

/-- The requested mode after a sequence of calls, in the words of the
specification: `Init` establishes Interpreter when called with the Interpreter
core and JIT otherwise, `SetMode` establishes its argument, an injection leaves
the request as it is; `start` is the request before the calls. -/
def requestedMode (start : CoreMode) (calls : List ControlCall) : CoreMode :=
  calls.foldl
    (fun r call =>
      match call with
      | .Init c => if c = .Interpreter then .Interpreter else .JIT
      | .SetMode md => md
      | .InjectExternalCPUCore _ => r)
    start

/-- Whether an external core is injected after a sequence of calls: the most
recent `InjectExternalCPUCore` had a non-null argument; `start` is the
situation before the calls. -/
def externalInjected (start : Bool) (calls : List ControlCall) : Bool :=
  calls.foldl
    (fun o call =>
      match call with
      | .InjectExternalCPUCore p => decide (p ≠ nullptr)
      | _ => o)
    start

/-- The backend a recorded mode dictates: the interpreter for Interpreter; the
JIT backend, or the interpreter if there is none, for JIT. -/
def dictatedBackend (k : Backends) : CoreMode → Nat
  | .Interpreter => k.s_interpreter
  | .JIT => if k.GetCore = nullptr then k.s_interpreter else k.GetCore

/-- The four counter registers and the two control registers of the
performance monitor have pairwise distinct indices. -/
def Gekko.DistinctMonitorIndices (g : Gekko) : Prop :=
  [g.SPR_PMC1, g.SPR_PMC2, g.SPR_PMC3, g.SPR_PMC4, g.SPR_MMCR0, g.SPR_MMCR1].Nodup

/-- The four performance counters. -/
inductive Counter where
  | PMC1
  | PMC2
  | PMC3
  | PMC4
deriving DecidableEq, Repr

/-- The register index of a counter. -/
def Gekko.counterIndex (g : Gekko) : Counter → Nat
  | .PMC1 => g.SPR_PMC1
  | .PMC2 => g.SPR_PMC2
  | .PMC3 => g.SPR_PMC3
  | .PMC4 => g.SPR_PMC4

/-- The selector configured for a counter in state `s`. -/
def counterSelect (g : Gekko) (f : MonitorControl) (s : PowerPCState) : Counter → Nat
  | .PMC1 => f.PMC1SELECT (s.spr g.SPR_MMCR0)
  | .PMC2 => f.PMC2SELECT (s.spr g.SPR_MMCR0)
  | .PMC3 => f.PMC3SELECT (s.spr g.SPR_MMCR1)
  | .PMC4 => f.PMC4SELECT (s.spr g.SPR_MMCR1)

/-- The interrupt enable that gates a counter in state `s`: PMC1 has its own
bit, PMC2, PMC3 and PMC4 share one. -/
def counterInterruptEnabled (g : Gekko) (f : MonitorControl) (s : PowerPCState) :
    Counter → Bool
  | .PMC1 => f.PMC1INTCONTROL (s.spr g.SPR_MMCR0)
  | _ => f.PMCINTCONTROL (s.spr g.SPR_MMCR0)

/-- The condition under which the performance-monitor cause is raised, read
on a state whose counters have been updated: PMC1 is gated by
`PMC1INTCONTROL`, the other three counters by `PMCINTCONTROL`. -/
def monitorInterruptDue (g : Gekko) (f : MonitorControl) (s : PowerPCState) : Bool :=
  (f.PMC1INTCONTROL (s.spr g.SPR_MMCR0) && (s.spr g.SPR_PMC1).testBit 31) ||
  (f.PMCINTCONTROL (s.spr g.SPR_MMCR0) &&
    ((s.spr g.SPR_PMC2).testBit 31 || (s.spr g.SPR_PMC3).testBit 31 ||
      (s.spr g.SPR_PMC4).testBit 31))

/-- The value a counter holds after one call: what the selector of the spec
prescribes, with 32-bit wrap-around. -/
def counterAfter (g : Gekko) (f : MonitorControl) (cycles num_load_stores num_fp_inst : Nat)
    (s : PowerPCState) : Counter → Nat
  | .PMC1 =>
    if f.PMC1SELECT (s.spr g.SPR_MMCR0) = 1 then (s.spr g.SPR_PMC1 + cycles) % 2 ^ 32
    else s.spr g.SPR_PMC1
  | .PMC2 =>
    if f.PMC2SELECT (s.spr g.SPR_MMCR0) = 1 then (s.spr g.SPR_PMC2 + cycles) % 2 ^ 32
    else if f.PMC2SELECT (s.spr g.SPR_MMCR0) = 11 then
      (s.spr g.SPR_PMC2 + num_load_stores) % 2 ^ 32
    else s.spr g.SPR_PMC2
  | .PMC3 =>
    if f.PMC3SELECT (s.spr g.SPR_MMCR1) = 1 then (s.spr g.SPR_PMC3 + cycles) % 2 ^ 32
    else if f.PMC3SELECT (s.spr g.SPR_MMCR1) = 11 then
      (s.spr g.SPR_PMC3 + num_fp_inst) % 2 ^ 32
    else s.spr g.SPR_PMC3
  | .PMC4 =>
    if f.PMC4SELECT (s.spr g.SPR_MMCR1) = 1 then (s.spr g.SPR_PMC4 + cycles) % 2 ^ 32
    else s.spr g.SPR_PMC4

/-- One call of `UpdatePerformanceMonitor`: its three arguments. -/
structure MonitorCall where
  cycles : Nat
  num_load_stores : Nat
  num_fp_inst : Nat

/-- The state after a sequence of `UpdatePerformanceMonitor` calls, oldest
first. -/
def runMonitor (g : Gekko) (f : MonitorControl) (calls : List MonitorCall)
    (s : PowerPCState) : PowerPCState :=
  calls.foldl
    (fun st c => UpdatePerformanceMonitor g f c.cycles c.num_load_stores c.num_fp_inst st) s

/-- The cycles added by a sequence of calls. -/
def totalCycles (calls : List MonitorCall) : Nat :=
  (calls.map MonitorCall.cycles).sum

/-- The number of synchronous classes pending in `s`. -/
def pendingSynchronous (g : Gekko) (s : PowerPCState) : Nat :=
  (synchronousOrder.map (fun c => (pending g s c).toNat)).sum

/-- A layout is lawful when every value takes exactly `size` cells and is read
back from its own cells. -/
def Primitive.Lawful {α : Type} (P : Primitive α) : Prop :=
  ∀ x, (P.put x).length = P.size ∧ P.get (P.put x) = x

/-- The cells of an array of `n` elements: the elements in index order. -/
def arrayCells {α : Type} (P : Primitive α) (n : Nat) (a : Nat → α) : List Int :=
  (List.range n).flatMap (fun i => P.put (a i))

/-- The register file as the specification orders it in the stream: `gpr`,
`pc`, `npc`, the `cr` fields, `msr`, `fpscr`, `Exceptions`, `downcount`,
`xer_ca`, `xer_so_ov`, `xer_stringctrl`, `ps`, `sr`, `spr`, `tlb`,
`pagetable_base`, `pagetable_hashmask`, `reserve`, `reserve_address`. -/
def registerCells (e : Extents) (s : PowerPCState) : List Int :=
  arrayCells Primitive.unsigned e.gpr s.gpr ++
  (Primitive.unsigned.put s.pc ++
  (Primitive.unsigned.put s.npc ++
  (arrayCells Primitive.unsigned e.cr_fields s.cr.fields ++
  (Primitive.msr.put s.msr ++
  (Primitive.fpscr.put s.fpscr ++
  (Primitive.unsigned.put s.Exceptions ++
  (Primitive.signed.put s.downcount ++
  (Primitive.unsigned.put s.xer_ca ++
  (Primitive.unsigned.put s.xer_so_ov ++
  (Primitive.unsigned.put s.xer_stringctrl ++
  (arrayCells Primitive.pairedSingle e.ps s.ps ++
  (arrayCells Primitive.unsigned e.sr s.sr ++
  (arrayCells Primitive.unsigned e.spr s.spr ++
  (arrayCells Primitive.unsigned e.tlb s.tlb ++
  (Primitive.unsigned.put s.pagetable_base ++
  (Primitive.unsigned.put s.pagetable_hashmask ++
  (Primitive.bool.put s.reserve ++
  Primitive.unsigned.put s.reserve_address)))))))))))))))))

/-- The state `t` with the register file of `s` loaded over it: the scalar
fields are those of `s`, and so is every array element inside its extent. -/
def loadRegisters (e : Extents) (s t : PowerPCState) : PowerPCState :=
  { t with
    gpr := fun i => if i < e.gpr then s.gpr i else t.gpr i
    pc := s.pc
    npc := s.npc
    cr := ⟨fun i => if i < e.cr_fields then s.cr.fields i else t.cr.fields i⟩
    msr := s.msr
    fpscr := s.fpscr
    Exceptions := s.Exceptions
    downcount := s.downcount
    xer_ca := s.xer_ca
    xer_so_ov := s.xer_so_ov
    xer_stringctrl := s.xer_stringctrl
    ps := fun i => if i < e.ps then s.ps i else t.ps i
    sr := fun i => if i < e.sr then s.sr i else t.sr i
    spr := fun i => if i < e.spr then s.spr i else t.spr i
    tlb := fun i => if i < e.tlb then s.tlb i else t.tlb i
    pagetable_base := s.pagetable_base
    pagetable_hashmask := s.pagetable_hashmask
    reserve := s.reserve
    reserve_address := s.reserve_address }

/-- The cache and backend serializers write by appending: in write mode each
of them leaves the archive as it was but for cells added at the end. -/
def Serializers.AppendOnly (c : Serializers) : Prop :=
  (∀ p cache, p.mode = Mode.Write →
    ∃ x, (c.iCacheDoState p cache).1 = { p with stream := p.stream ++ x }) ∧
  (∀ p cache, p.mode = Mode.Write →
    ∃ x, (c.dCacheDoState p cache).1 = { p with stream := p.stream ++ x }) ∧
  (∀ p, p.mode = Mode.Write → ∃ x, c.JitDoState p = { p with stream := p.stream ++ x })

/-- The register file of `r` is that of `s`: the fields the save state lists,
the arrays compared inside their extents. -/
def SameRegisters (e : Extents) (r s : PowerPCState) : Prop :=
  (∀ i, i < e.gpr → r.gpr i = s.gpr i) ∧
  r.pc = s.pc ∧
  r.npc = s.npc ∧
  (∀ i, i < e.cr_fields → r.cr.fields i = s.cr.fields i) ∧
  r.msr = s.msr ∧
  r.fpscr = s.fpscr ∧
  r.Exceptions = s.Exceptions ∧
  r.downcount = s.downcount ∧
  r.xer_ca = s.xer_ca ∧
  r.xer_so_ov = s.xer_so_ov ∧
  r.xer_stringctrl = s.xer_stringctrl ∧
  (∀ i, i < e.ps → r.ps i = s.ps i) ∧
  (∀ i, i < e.sr → r.sr i = s.sr i) ∧
  (∀ i, i < e.spr → r.spr i = s.spr i) ∧
  (∀ i, i < e.tlb → r.tlb i = s.tlb i) ∧
  r.pagetable_base = s.pagetable_base ∧
  r.pagetable_hashmask = s.pagetable_hashmask ∧
  r.reserve = s.reserve ∧
  r.reserve_address = s.reserve_address

/-! ## Concrete instances -/

/-- The values the constants have in Dolphin's `Gekko.h`; one instance of the
parameters, used to evaluate the procedures on concrete inputs. -/
def gekko : Gekko where
  EXCEPTION_DECREMENTER := 0x00000001
  EXCEPTION_SYSCALL := 0x00000002
  EXCEPTION_EXTERNAL_INT := 0x00000004
  EXCEPTION_DSI := 0x00000008
  EXCEPTION_ISI := 0x00000010
  EXCEPTION_ALIGNMENT := 0x00000020
  EXCEPTION_FPU_UNAVAILABLE := 0x00000040
  EXCEPTION_PROGRAM := 0x00000080
  EXCEPTION_PERFORMANCE_MONITOR := 0x00000100
  EXCEPTION_FAKE_MEMCHECK_HIT := 0x00000200
  SPR_LR := 8
  SPR_DEC := 22
  SPR_SRR0 := 26
  SPR_SRR1 := 27
  SPR_TL := 268
  SPR_TU := 269
  SPR_PVR := 287
  SPR_ECID_U := 924
  SPR_ECID_M := 925
  SPR_ECID_L := 926
  SPR_MMCR0 := 952
  SPR_PMC1 := 953
  SPR_PMC2 := 954
  SPR_MMCR1 := 956
  SPR_PMC3 := 957
  SPR_PMC4 := 958
  SPR_HID1 := 1009

/-- A state with every register and flag zero. -/
def zeroState : PowerPCState where
  gpr := fun _ => 0
  pc := 0
  npc := 0
  cr := ⟨fun _ => 0⟩
  msr := ⟨0⟩
  fpscr := ⟨0⟩
  Exceptions := 0
  downcount := 0
  xer_ca := 0
  xer_so_ov := 0
  xer_stringctrl := 0
  ps := fun _ => { ps0 := 0, ps1 := 0 }
  sr := fun _ => 0
  spr := fun _ => 0
  tlb := fun _ => 0
  pagetable_base := 0
  pagetable_hashmask := 0
  reserve := false
  reserve_address := 0
  iCache := ⟨fun _ => 0⟩
  dCache := ⟨fun _ => 0⟩
  m_enable_dcache := false

/-- A running state: `pc = 0x80003100`, `npc = 0x80003104`, the given cause
mask and machine state, SRR1 holding `srr1`, and a reservation at 0x1000. -/
def sampleState (exceptions msr srr1 : Nat) : PowerPCState :=
  { zeroState with
    pc := 0x80003100
    npc := 0x80003104
    Exceptions := exceptions
    msr := ⟨msr⟩
    spr := Function.update (fun _ => 0) gekko.SPR_SRR1 srr1
    reserve := true
    reserve_address := 0x1000 }

/-- Cache models whose reset clears the whole content, and an all-zero
value-initialised translation cache; one instance of the parameters. -/
def clearingCaches : CacheModels :=
  { emptyTLB := fun _ => 0
    iCacheReset := fun _ => ⟨fun _ => 0⟩
    dCacheReset := fun _ => ⟨fun _ => 0⟩ }

/-- A host on x86-64 with the interpreter at address 0x1000 and a JIT64 and a
cached-interpreter backend at 0x2000 and 0x3000; `GetCore` hands out the JIT64
backend. -/
def desktopBackends : Backends :=
  { s_interpreter := 0x1000
    InitJitCore := fun c =>
      match c with
      | .JIT64 => 0x2000
      | .CachedInterpreter => 0x3000
      | _ => 0
    GetCore := 0x2000
    GetName := fun p => if p = 0x1000 then "Interpreter" else "JIT64"
    arch := .X86_64 }

/-- The same host with no JIT backend installed: `GetCore` returns null. -/
def interpreterOnlyBackends : Backends :=
  { desktopBackends with GetCore := 0 }

/-- The field positions `UReg_MMCR0` and `UReg_MMCR1` have in Dolphin's
`Gekko.h`; one instance of the parameters. -/
def gekkoMonitor : MonitorControl :=
  { PMC1SELECT := fun w => (w >>> 6) % 128
    PMC2SELECT := fun w => w % 64
    PMCINTCONTROL := fun w => w.testBit 14
    PMC1INTCONTROL := fun w => w.testBit 15
    PMC3SELECT := fun w => (w >>> 27) % 32
    PMC4SELECT := fun w => (w >>> 22) % 32 }

/-- A state whose monitor control words are `mmcr0` and `mmcr1` and whose
counter PMC1 holds `pmc1`; everything else is zero. -/
def monitorState (mmcr0 mmcr1 pmc1 : Nat) : PowerPCState :=
  { zeroState with
    spr := Function.update (Function.update (Function.update (fun _ => 0)
      gekko.SPR_MMCR0 mmcr0) gekko.SPR_MMCR1 mmcr1) gekko.SPR_PMC1 pmc1 }

/-- A breakpoint at `address` with the given flags and no condition. -/
def breakpointAt (address : Nat) (enabled temporary : Bool) : TBreakPoint :=
  { address := address, is_enabled := enabled, log_on_hit := false, break_on_hit := true,
    is_temporary := temporary, condition := none }

/-- A breakpoint set holding exactly the given breakpoint at its address. -/
def singleBreakpoint (bp : TBreakPoint) : BreakPoints :=
  { lookup := fun a => if a = bp.address then some bp else none }

/-- A breakpoint set with a temporary breakpoint at 0x80003100 and a
permanent one at 0x80004000. -/
def twoBreakpoints : BreakPoints :=
  { lookup := fun a =>
      if a = 0x80003100 then some (breakpointAt 0x80003100 true true)
      else if a = 0x80004000 then some (breakpointAt 0x80004000 true false)
      else none }

/-- Cache initialisation that leaves the cache model as it is; one instance of
the parameters. -/
def plainCacheSetup : CacheSetup :=
  { iCacheInit := fun c => c, dCacheInit := fun c => c }

/-- A machine in its static initial mode-controller state with the given
breakpoints. -/
def machineWith (b : BreakPoints) : Machine :=
  { ppcState := zeroState, selection := staticSelection, breakpoints := b }

/-- An invalidation that marks the invalidated address in the cache model; one
instance of the parameter. -/
def markInvalidated (address : Nat) (c : CacheModel) : CacheModel :=
  { content := Function.update c.content address 1 }

/-- Array extents of a Gekko register file: 32 general-purpose registers,
8 condition fields, 32 paired singles, 16 segment registers, 1024
special-purpose registers and 896 words of translation cache; one instance of
the parameters. -/
def gekkoExtents : Extents :=
  { gpr := 32, cr_fields := 8, ps := 32, sr := 16, spr := 1024, tlb := 896 }

/-- Serializers that store the first four words of each cache and nothing for
the backend, and whose flush leaves the cache alone; one instance of the
parameters. -/
def plainSerializers : Serializers :=
  { iCacheDoState := fun p cache =>
      ((p.DoArray Primitive.unsigned 4 cache.content).1,
       ⟨(p.DoArray Primitive.unsigned 4 cache.content).2⟩)
    dCacheDoState := fun p cache =>
      ((p.DoArray Primitive.unsigned 4 cache.content).1,
       ⟨(p.DoArray Primitive.unsigned 4 cache.content).2⟩)
    dCacheFlushAll := fun cache => cache
    JitDoState := fun p => p }

/-! ## Bit-level lemmas -/

theorem testBit_and_not32 (x m j : Nat) (hx : x < 2 ^ 32) :
    (x &&& not32 m).testBit j = (x.testBit j && !m.testBit j) := by
  have h32 : (0xFFFFFFFF : Nat) = 2 ^ 32 - 1 := by norm_num
  unfold not32
  rw [Nat.testBit_and, Nat.testBit_xor, h32, Nat.testBit_two_pow_sub_one]
  by_cases hj : j < 32
  · simp [hj]
  · have hxj : x.testBit j = false := by
      apply Nat.testBit_lt_two_pow
      exact lt_of_lt_of_le hx (Nat.pow_le_pow_right (by norm_num) (by omega))
    simp [hxj]

theorem and_ne_zero_left {e f : Nat} (h : e &&& f ≠ 0) : e ≠ 0 := by
  rintro rfl
  simp at h

theorem and_two_pow_ne_zero (e k : Nat) : e &&& 2 ^ k ≠ 0 ↔ e.testBit k = true := by
  rw [Nat.and_two_pow]
  cases h : e.testBit k <;> simp

/-! ## The drain follows the decision list -/

theorem firstPending_eq_chain (g : Gekko) (s : PowerPCState) :
    firstPending g s =
      if pending g s .ISI then some .ISI
      else if pending g s .PROGRAM then some .PROGRAM
      else if pending g s .SYSCALL then some .SYSCALL
      else if pending g s .FPU_UNAVAILABLE then some .FPU_UNAVAILABLE
      else if pending g s .FAKE_MEMCHECK_HIT then some .FAKE_MEMCHECK_HIT
      else if pending g s .DSI then some .DSI
      else if pending g s .ALIGNMENT then some .ALIGNMENT
      else if s.msr.EE then
        if pending g s .EXTERNAL_INT then some .EXTERNAL_INT
        else if pending g s .PERFORMANCE_MONITOR then some .PERFORMANCE_MONITOR
        else if pending g s .DECREMENTER then some .DECREMENTER
        else none
      else none := by
  simp only [firstPending, synchronousOrder, externalOrder, List.find?]
  cases pending g s .ISI <;> cases pending g s .PROGRAM <;> cases pending g s .SYSCALL <;>
    cases pending g s .FPU_UNAVAILABLE <;> cases pending g s .FAKE_MEMCHECK_HIT <;>
    cases pending g s .DSI <;> cases pending g s .ALIGNMENT <;> simp
  cases pending g s .EXTERNAL_INT <;> cases pending g s .PERFORMANCE_MONITOR <;>
    cases pending g s .DECREMENTER <;> simp

theorem CheckExceptions_eq_chain (g : Gekko) (s : PowerPCState) :
    CheckExceptions g s = drainEffect g s
      (if pending g s .ISI then some .ISI
      else if pending g s .PROGRAM then some .PROGRAM
      else if pending g s .SYSCALL then some .SYSCALL
      else if pending g s .FPU_UNAVAILABLE then some .FPU_UNAVAILABLE
      else if pending g s .FAKE_MEMCHECK_HIT then some .FAKE_MEMCHECK_HIT
      else if pending g s .DSI then some .DSI
      else if pending g s .ALIGNMENT then some .ALIGNMENT
      else if s.msr.EE then
        if pending g s .EXTERNAL_INT then some .EXTERNAL_INT
        else if pending g s .PERFORMANCE_MONITOR then some .PERFORMANCE_MONITOR
        else if pending g s .DECREMENTER then some .DECREMENTER
        else none
      else none) := by
  unfold CheckExceptions
  simp only [pending, Gekko.flag, bne_iff_ne]
  by_cases h1 : s.Exceptions &&& g.EXCEPTION_ISI ≠ 0
  · rw [if_pos h1, if_pos h1]; rfl
  rw [if_neg h1, if_neg h1]
  by_cases h2 : s.Exceptions &&& g.EXCEPTION_PROGRAM ≠ 0
  · rw [if_pos h2, if_pos h2]; rfl
  rw [if_neg h2, if_neg h2]
  by_cases h3 : s.Exceptions &&& g.EXCEPTION_SYSCALL ≠ 0
  · rw [if_pos h3, if_pos h3]; rfl
  rw [if_neg h3, if_neg h3]
  by_cases h4 : s.Exceptions &&& g.EXCEPTION_FPU_UNAVAILABLE ≠ 0
  · rw [if_pos h4, if_pos h4]; rfl
  rw [if_neg h4, if_neg h4]
  by_cases h5 : s.Exceptions &&& g.EXCEPTION_FAKE_MEMCHECK_HIT ≠ 0
  · rw [if_pos h5, if_pos h5]; rfl
  rw [if_neg h5, if_neg h5]
  by_cases h6 : s.Exceptions &&& g.EXCEPTION_DSI ≠ 0
  · rw [if_pos h6, if_pos h6]; rfl
  rw [if_neg h6, if_neg h6]
  by_cases h7 : s.Exceptions &&& g.EXCEPTION_ALIGNMENT ≠ 0
  · rw [if_pos h7, if_pos h7]; rfl
  rw [if_neg h7, if_neg h7]
  unfold CheckExternalExceptions
  by_cases hee : s.msr.EE = true
  · rw [if_pos hee]
    by_cases h8 : s.Exceptions &&& g.EXCEPTION_EXTERNAL_INT ≠ 0
    · rw [if_pos ⟨and_ne_zero_left h8, hee⟩, if_pos h8, if_pos h8]; rfl
    by_cases h9 : s.Exceptions &&& g.EXCEPTION_PERFORMANCE_MONITOR ≠ 0
    · rw [if_pos ⟨and_ne_zero_left h9, hee⟩, if_neg h8, if_neg h8, if_pos h9, if_pos h9]; rfl
    by_cases h10 : s.Exceptions &&& g.EXCEPTION_DECREMENTER ≠ 0
    · rw [if_pos ⟨and_ne_zero_left h10, hee⟩, if_neg h8, if_neg h8, if_neg h9, if_neg h9,
        if_pos h10, if_pos h10]; rfl
    rw [if_neg h8, if_neg h9, if_neg h10]
    show (if s.Exceptions ≠ 0 ∧ s.msr.EE = true then _ else _) = _
    rw [if_neg h8, if_neg h9, if_neg h10, ite_self]
    rfl
  · rw [if_neg hee, if_neg (fun h => hee h.2)]; rfl

theorem CheckExceptions_eq_drainEffect (g : Gekko) (s : PowerPCState) :
    CheckExceptions g s = drainEffect g s (firstPending g s) := by
  rw [firstPending_eq_chain]
  exact CheckExceptions_eq_chain g s

theorem CheckExceptions_eq_enterVector (g : Gekko) (s : PowerPCState) (c : ExceptionClass)
    (v : Nat) (hc : firstPending g s = some c) (hv : vector c = some v) :
    CheckExceptions g s = enterVector g c v s := by
  rw [CheckExceptions_eq_drainEffect, hc]
  cases c <;> simp [vector] at hv <;> subst hv <;> rfl

theorem two_pow_inj {j k : Nat} : 2 ^ j = 2 ^ k ↔ j = k :=
  ⟨fun h => Nat.pow_right_injective (le_refl 2) h, fun h => by rw [h]⟩

theorem testBit_clear_flag (e k j : Nat) (he : e < 2 ^ 32) :
    (e &&& not32 (2 ^ k)).testBit j = (e.testBit j && decide (2 ^ j ≠ 2 ^ k)) := by
  rw [testBit_and_not32 _ _ _ he, Nat.testBit_two_pow]
  by_cases h : k = j
  · subst h; simp
  · have h2 : ¬ (2 ^ j = 2 ^ k) := fun hh => h (two_pow_inj.mp hh).symm
    simp [h, h2]

theorem clear_flag_and_self (e k : Nat) (he : e < 2 ^ 32) :
    (e &&& not32 (2 ^ k)) &&& 2 ^ k = 0 := by
  by_contra h
  have h1 := (and_two_pow_ne_zero _ _).mp h
  rw [testBit_clear_flag _ _ _ he] at h1
  simp at h1

theorem clear_flag_and_other (e k j : Nat) (he : e < 2 ^ 32) (hjk : j ≠ k) :
    ((e &&& not32 (2 ^ k)) &&& 2 ^ j != 0) = (e &&& 2 ^ j != 0) := by
  have h2 : ¬ (2 ^ j = 2 ^ k) := fun hh => hjk (two_pow_inj.mp hh)
  have h := testBit_clear_flag e k j he
  simp only [h2, ne_eq, not_false_eq_true, decide_True, Bool.and_true] at h
  rw [Bool.eq_iff_iff]
  simp only [bne_iff_ne]
  rw [and_two_pow_ne_zero, and_two_pow_ne_zero, h]

/-! ## Cause flags -/

theorem gekko_distinctCauseBits : gekko.DistinctCauseBits := by
  constructor
  · intro c; cases c <;> decide
  · intro c d h; cases c <;> cases d <;> first | exact absurd rfl h | decide

theorem flag_bits_ne (g : Gekko) (hg : g.DistinctCauseBits) (c d : ExceptionClass)
    (hcd : d ≠ c) : ∃ k j, g.flag c = 2 ^ k ∧ g.flag d = 2 ^ j ∧ j ≠ k := by
  obtain ⟨k, _, hk⟩ := hg.1 c
  obtain ⟨j, _, hj⟩ := hg.1 d
  refine ⟨k, j, hk, hj, ?_⟩
  rintro rfl
  exact hg.2 d c hcd (hj.trans hk.symm)

theorem flag_clear_self (g : Gekko) (hg : g.DistinctCauseBits) (c : ExceptionClass)
    (e : Nat) (he : e < 2 ^ 32) : (e &&& not32 (g.flag c)) &&& g.flag c = 0 := by
  obtain ⟨k, _, hk⟩ := hg.1 c
  rw [hk]
  exact clear_flag_and_self _ _ he

theorem flag_clear_other (g : Gekko) (hg : g.DistinctCauseBits) (c d : ExceptionClass)
    (hdc : d ≠ c) (e : Nat) (he : e < 2 ^ 32) :
    ((e &&& not32 (g.flag c)) &&& g.flag d != 0) = (e &&& g.flag d != 0) := by
  obtain ⟨k, j, hk, hj, hjk⟩ := flag_bits_ne g hg c d hdc
  rw [hk, hj]
  exact clear_flag_and_other _ _ _ he hjk

theorem and_not32_lt (e m : Nat) (he : e < 2 ^ 32) : e &&& not32 m < 2 ^ 32 :=
  lt_of_le_of_lt Nat.and_le_left he

theorem firstPending_is_first (g : Gekko) (s : PowerPCState) (c : ExceptionClass)
    (hc : firstPending g s = some c) :
    pending g s c = true ∧ (∀ d, priorityRank d < priorityRank c → pending g s d = false) ∧
      (c ∈ externalOrder → s.msr.EE = true) := by
  rw [firstPending_eq_chain] at hc
  by_cases h1 : pending g s .ISI = true
  · rw [if_pos h1] at hc
    cases hc
    refine ⟨h1, fun d hd => ?_, fun h => absurd h (by decide)⟩
    cases d <;> first | assumption | exact absurd hd (by decide)
  rw [if_neg h1] at hc
  replace h1 := eq_false_of_ne_true h1
  by_cases h2 : pending g s .PROGRAM = true
  · rw [if_pos h2] at hc
    cases hc
    refine ⟨h2, fun d hd => ?_, fun h => absurd h (by decide)⟩
    cases d <;> first | assumption | exact absurd hd (by decide)
  rw [if_neg h2] at hc
  replace h2 := eq_false_of_ne_true h2
  by_cases h3 : pending g s .SYSCALL = true
  · rw [if_pos h3] at hc
    cases hc
    refine ⟨h3, fun d hd => ?_, fun h => absurd h (by decide)⟩
    cases d <;> first | assumption | exact absurd hd (by decide)
  rw [if_neg h3] at hc
  replace h3 := eq_false_of_ne_true h3
  by_cases h4 : pending g s .FPU_UNAVAILABLE = true
  · rw [if_pos h4] at hc
    cases hc
    refine ⟨h4, fun d hd => ?_, fun h => absurd h (by decide)⟩
    cases d <;> first | assumption | exact absurd hd (by decide)
  rw [if_neg h4] at hc
  replace h4 := eq_false_of_ne_true h4
  by_cases h5 : pending g s .FAKE_MEMCHECK_HIT = true
  · rw [if_pos h5] at hc
    cases hc
    refine ⟨h5, fun d hd => ?_, fun h => absurd h (by decide)⟩
    cases d <;> first | assumption | exact absurd hd (by decide)
  rw [if_neg h5] at hc
  replace h5 := eq_false_of_ne_true h5
  by_cases h6 : pending g s .DSI = true
  · rw [if_pos h6] at hc
    cases hc
    refine ⟨h6, fun d hd => ?_, fun h => absurd h (by decide)⟩
    cases d <;> first | assumption | exact absurd hd (by decide)
  rw [if_neg h6] at hc
  replace h6 := eq_false_of_ne_true h6
  by_cases h7 : pending g s .ALIGNMENT = true
  · rw [if_pos h7] at hc
    cases hc
    refine ⟨h7, fun d hd => ?_, fun h => absurd h (by decide)⟩
    cases d <;> first | assumption | exact absurd hd (by decide)
  rw [if_neg h7] at hc
  replace h7 := eq_false_of_ne_true h7
  by_cases hee : s.msr.EE = true
  swap
  · rw [if_neg hee] at hc
    cases hc
  rw [if_pos hee] at hc
  by_cases h8 : pending g s .EXTERNAL_INT = true
  · rw [if_pos h8] at hc
    cases hc
    refine ⟨h8, fun d hd => ?_, fun _ => hee⟩
    cases d <;> first | assumption | exact absurd hd (by decide)
  rw [if_neg h8] at hc
  replace h8 := eq_false_of_ne_true h8
  by_cases h9 : pending g s .PERFORMANCE_MONITOR = true
  · rw [if_pos h9] at hc
    cases hc
    refine ⟨h9, fun d hd => ?_, fun _ => hee⟩
    cases d <;> first | assumption | exact absurd hd (by decide)
  rw [if_neg h9] at hc
  replace h9 := eq_false_of_ne_true h9
  by_cases h10 : pending g s .DECREMENTER = true
  · rw [if_pos h10] at hc
    cases hc
    refine ⟨h10, fun d hd => ?_, fun _ => hee⟩
    cases d <;> first | assumption | exact absurd hd (by decide)
  rw [if_neg h10] at hc
  replace h10 := eq_false_of_ne_true h10
  cases hc

/-! ## Exception entry -/

theorem drainEffect_eq_enterVector (g : Gekko) (s : PowerPCState) (c : ExceptionClass)
    (hf : c ≠ .FAKE_MEMCHECK_HIT) :
    drainEffect g s (some c) = enterVector g c ((vector c).getD 0) s := by
  cases c <;> first | rfl | exact absurd rfl hf

theorem fake_clear_self (g : Gekko) (hg : g.DistinctCauseBits) (e : Nat) (he : e < 2 ^ 32) :
    e &&& (not32 g.EXCEPTION_DSI &&& not32 g.EXCEPTION_FAKE_MEMCHECK_HIT)
      &&& g.EXCEPTION_FAKE_MEMCHECK_HIT = 0 := by
  rw [← Nat.and_assoc]
  exact flag_clear_self g hg .FAKE_MEMCHECK_HIT _ (and_not32_lt _ _ he)

theorem fake_clear_other (g : Gekko) (hg : g.DistinctCauseBits) (d : ExceptionClass)
    (h1 : d ≠ .FAKE_MEMCHECK_HIT) (h2 : d ≠ .DSI) (e : Nat) (he : e < 2 ^ 32) :
    (e &&& (not32 g.EXCEPTION_DSI &&& not32 g.EXCEPTION_FAKE_MEMCHECK_HIT) &&& g.flag d != 0)
      = (e &&& g.flag d != 0) := by
  rw [← Nat.and_assoc]
  have h := flag_clear_other g hg .FAKE_MEMCHECK_HIT d h1 _ (and_not32_lt _ g.EXCEPTION_DSI he)
  simp only [Gekko.flag] at h ⊢
  rw [h]
  exact flag_clear_other g hg .DSI d h2 e he

theorem SRR1_enterVector (g : Gekko) (s : PowerPCState) (c : ExceptionClass) (v : Nat) :
    SRR1 g (enterVector g c v s)
      = savedMachineState g c (setSpr g.SPR_SRR0 (returnAddress c s) s) := by
  show Function.update (Function.update s.spr g.SPR_SRR0 (returnAddress c s)) g.SPR_SRR1 _
      g.SPR_SRR1 = _
  rw [Function.update_same]

theorem and_not32_and_self (x m : Nat) (hx : x < 2 ^ 32) : (x &&& not32 m) &&& m = 0 := by
  apply Nat.eq_of_testBit_eq
  intro j
  rw [Nat.testBit_and, testBit_and_not32 _ _ _ hx, Nat.zero_testBit]
  cases m.testBit j <;> simp

theorem setLE_lt (h : Nat) (b : Bool) (hh : h < 2 ^ 32) :
    (h &&& not32 1) ||| b.toNat < 2 ^ 32 := by
  apply Nat.or_lt_two_pow (and_not32_lt _ _ hh)
  cases b <;> decide

theorem testBit_adjusted_MSR (h : Nat) (b : Bool) (hh : h < 2 ^ 32) (j : Nat) :
    (((h &&& not32 1) ||| b.toNat) &&& not32 0x04EF36).testBit j
      = (((h.testBit j && decide (j ≠ 0)) || (decide (j = 0) && b))
          && !(0x04EF36 : Nat).testBit j) := by
  rw [testBit_and_not32 _ _ _ (setLE_lt h b hh), Nat.testBit_or, testBit_and_not32 _ _ _ hh,
    Nat.testBit_bool_to_nat]
  have h1 : (1 : Nat).testBit j = decide (j = 0) := by
    have := @Nat.testBit_two_pow 0 j
    simp only [pow_zero] at this
    rw [this]
    by_cases hj : j = 0
    · subst hj; rfl
    · have hj2 : ¬ (0 = j) := fun h => hj h.symm
      simp [hj, hj2]
  rw [h1]
  by_cases hj : j = 0 <;> simp [hj]

/-- Claim C1: whenever `CheckExceptions` (or, through its fallthrough,
`CheckExternalExceptions`) vectors class `c`, afterwards `pc = npc` = the fixed
vector of `c`, and `Exceptions` is the old mask with exactly the bit of `c`
cleared: every other bit, and so every other cause flag, is untouched. -/
theorem CheckExceptions_vector_and_cause_bit (g : Gekko) (hg : g.DistinctCauseBits)
    (s : PowerPCState) (hs : s.Exceptions < 2 ^ 32) (c : ExceptionClass) (v : Nat)
    (hc : firstPending g s = some c) (hv : vector c = some v) :
    (CheckExceptions g s).pc = v ∧ (CheckExceptions g s).npc = v ∧
    (CheckExceptions g s).Exceptions = s.Exceptions &&& not32 (g.flag c) ∧
    (∀ j, (CheckExceptions g s).Exceptions.testBit j
        = (s.Exceptions.testBit j && decide (2 ^ j ≠ g.flag c))) ∧
    pending g (CheckExceptions g s) c = false ∧
    ∀ d, d ≠ c → pending g (CheckExceptions g s) d = pending g s d := by
  rw [CheckExceptions_eq_enterVector g s c v hc hv]
  refine ⟨rfl, rfl, rfl, ?_, ?_, ?_⟩
  · intro j
    obtain ⟨k, _, hk⟩ := hg.1 c
    show (s.Exceptions &&& not32 (g.flag c)).testBit j = _
    rw [hk]
    exact testBit_clear_flag _ _ _ hs
  · show (s.Exceptions &&& not32 (g.flag c) &&& g.flag c != 0) = false
    rw [flag_clear_self g hg c _ hs]
    rfl
  · intro d hd
    exact flag_clear_other g hg c d hd s.Exceptions hs

theorem CheckExceptions_vector_and_cause_bit_witness :
    (CheckExceptions gekko (sampleState 0x90 0x8000 0)).pc = 0x400 ∧
    (CheckExceptions gekko (sampleState 0x90 0x8000 0)).npc = 0x400 ∧
    (CheckExceptions gekko (sampleState 0x90 0x8000 0)).Exceptions
      = (sampleState 0x90 0x8000 0).Exceptions &&& not32 (gekko.flag .ISI) ∧
    (∀ j, (CheckExceptions gekko (sampleState 0x90 0x8000 0)).Exceptions.testBit j
        = ((sampleState 0x90 0x8000 0).Exceptions.testBit j
            && decide (2 ^ j ≠ gekko.flag .ISI))) ∧
    pending gekko (CheckExceptions gekko (sampleState 0x90 0x8000 0)) .ISI = false ∧
    ∀ d, d ≠ .ISI → pending gekko (CheckExceptions gekko (sampleState 0x90 0x8000 0)) d
      = pending gekko (sampleState 0x90 0x8000 0) d :=
  CheckExceptions_vector_and_cause_bit gekko gekko_distinctCauseBits
    (sampleState 0x90 0x8000 0) (by decide) .ISI 0x400 (by decide) rfl

/-- Claim C2: one call services exactly the first pending class of the order
ISI, PROGRAM, SYSCALL, FPU_UNAVAILABLE, FAKE_MEMCHECK_HIT, DSI, ALIGNMENT and,
only when none of these is pending and `MSR.EE` is set, EXTERNAL_INT,
PERFORMANCE_MONITOR, DECREMENTER.  No class ranked before the serviced one is
pending, the serviced flag is cleared, its vector (if it has one) is entered,
and every other pending flag stays pending (the marker `FAKE_MEMCHECK_HIT`
also drops DSI, without vectoring); with nothing to service the state is
unchanged. -/
theorem CheckExceptions_services_first_pending (g : Gekko) (hg : g.DistinctCauseBits)
    (s : PowerPCState) (hs : s.Exceptions < 2 ^ 32) :
    (firstPending g s = none → CheckExceptions g s = s) ∧
    ∀ c, firstPending g s = some c →
      (pending g s c = true ∧ ∀ d, priorityRank d < priorityRank c → pending g s d = false) ∧
      (c ∈ externalOrder → s.msr.EE = true) ∧
      pending g (CheckExceptions g s) c = false ∧
      (∀ v, vector c = some v →
        (CheckExceptions g s).pc = v ∧ (CheckExceptions g s).npc = v) ∧
      (vector c = none →
        (CheckExceptions g s).pc = s.pc ∧ (CheckExceptions g s).npc = s.npc ∧
        (CheckExceptions g s).spr = s.spr ∧ (CheckExceptions g s).msr = s.msr) ∧
      ∀ d, d ≠ c → (c = .FAKE_MEMCHECK_HIT → d ≠ .DSI) →
        pending g (CheckExceptions g s) d = pending g s d := by
  constructor
  · intro hn
    rw [CheckExceptions_eq_drainEffect, hn]
    rfl
  intro c hc
  have hfirst := firstPending_is_first g s c hc
  refine ⟨⟨hfirst.1, hfirst.2.1⟩, hfirst.2.2, ?_⟩
  rw [CheckExceptions_eq_drainEffect, hc]
  by_cases hf : c = .FAKE_MEMCHECK_HIT
  · subst hf
    refine ⟨?_, fun v hv => ?_, fun _ => ⟨rfl, rfl, rfl, rfl⟩, fun d hd hdsi => ?_⟩
    · show (_ &&& _ != 0) = false
      have h := fake_clear_self g hg s.Exceptions hs
      simp only [drainEffect, Gekko.flag]
      rw [h]
      rfl
    · cases hv
    · exact fake_clear_other g hg d hd (hdsi rfl) s.Exceptions hs
  · rw [drainEffect_eq_enterVector g s c hf]
    refine ⟨?_, fun v hv => ?_, fun hv => ?_, fun d hd _ => ?_⟩
    · show (s.Exceptions &&& not32 (g.flag c) &&& g.flag c != 0) = false
      rw [flag_clear_self g hg c _ hs]
      rfl
    · rw [hv]
      exact ⟨rfl, rfl⟩
    · cases c <;> first | exact absurd rfl hf | cases hv
    · exact flag_clear_other g hg c d hd s.Exceptions hs

theorem CheckExceptions_services_first_pending_witness :
    firstPending gekko (sampleState 0xA1 0x8000 0) = some .PROGRAM ∧
    pending gekko (CheckExceptions gekko (sampleState 0xA1 0x8000 0)) .PROGRAM = false ∧
    (CheckExceptions gekko (sampleState 0xA1 0x8000 0)).pc = 0x700 ∧
    pending gekko (CheckExceptions gekko (sampleState 0xA1 0x8000 0)) .ALIGNMENT = true ∧
    pending gekko (CheckExceptions gekko (sampleState 0xA1 0x8000 0)) .DECREMENTER = true :=
  have h := (CheckExceptions_services_first_pending gekko gekko_distinctCauseBits
    (sampleState 0xA1 0x8000 0) (by decide)).2 .PROGRAM (by decide)
  ⟨by decide, h.2.2.1, (h.2.2.2.1 0x700 rfl).1,
    (h.2.2.2.2.2 .ALIGNMENT (by decide) (by decide)).trans (by decide),
    (h.2.2.2.2.2 .DECREMENTER (by decide) (by decide)).trans (by decide)⟩

/-- Claim C3: after a vectoring branch SRR0 holds the pre-call `pc` for PROGRAM,
FPU_UNAVAILABLE, DSI and ALIGNMENT, and the pre-call `npc` for ISI, SYSCALL,
EXTERNAL_INT, PERFORMANCE_MONITOR and DECREMENTER. -/
theorem CheckExceptions_saves_return_address (g : Gekko) (hne : g.SPR_SRR0 ≠ g.SPR_SRR1)
    (s : PowerPCState) (c : ExceptionClass) (hc : firstPending g s = some c) :
    (c ∈ [ExceptionClass.PROGRAM, .FPU_UNAVAILABLE, .DSI, .ALIGNMENT] →
      SRR0 g (CheckExceptions g s) = s.pc) ∧
    (c ∈ [ExceptionClass.ISI, .SYSCALL, .EXTERNAL_INT, .PERFORMANCE_MONITOR, .DECREMENTER] →
      SRR0 g (CheckExceptions g s) = s.npc) := by
  have key : ∀ v, vector c = some v → SRR0 g (CheckExceptions g s) = returnAddress c s := by
    intro v hv
    rw [CheckExceptions_eq_enterVector g s c v hc hv]
    show Function.update (Function.update s.spr g.SPR_SRR0 (returnAddress c s)) g.SPR_SRR1 _
      g.SPR_SRR0 = _
    rw [Function.update_noteq hne, Function.update_same]
  constructor
  · intro hmem
    cases c <;> first | exact key _ rfl | exact absurd hmem (by decide)
  · intro hmem
    cases c <;> first | exact key _ rfl | exact absurd hmem (by decide)

theorem CheckExceptions_saves_return_address_witness :
    SRR0 gekko (CheckExceptions gekko (sampleState 0x08 0 0)) = 0x80003100 ∧
    SRR0 gekko (CheckExceptions gekko (sampleState 0x02 0 0)) = 0x80003104 :=
  ⟨(CheckExceptions_saves_return_address gekko (by decide) (sampleState 0x08 0 0) .DSI
      (by decide)).1 (by decide),
    (CheckExceptions_saves_return_address gekko (by decide) (sampleState 0x02 0 0) .SYSCALL
      (by decide)).2 (by decide)⟩

/-- Claim C4 as stated fails: after the ISI entry SRR1 also holds bit 30, and
after the PROGRAM entry it keeps the bits it held before the call, so in
neither case does SRR1 equal the machine state masked with 0x87C0FFFF. -/
theorem SRR1_differs_from_masked_MSR :
    (firstPending gekko (sampleState 0x10 0 0) = some .ISI ∧
      SRR1 gekko (CheckExceptions gekko (sampleState 0x10 0 0))
        ≠ (sampleState 0x10 0 0).msr.Hex &&& 0x87C0FFFF) ∧
    (firstPending gekko (sampleState 0x80 0 0x00080000) = some .PROGRAM ∧
      SRR1 gekko (CheckExceptions gekko (sampleState 0x80 0 0x00080000))
        ≠ (sampleState 0x80 0 0x00080000).msr.Hex &&& 0x87C0FFFF) := by
  decide

/-- Claim C4, amended: for SYSCALL, FPU_UNAVAILABLE, DSI, ALIGNMENT, EXTERNAL_INT,
PERFORMANCE_MONITOR and DECREMENTER, SRR1 after the call equals the pre-call MSR
masked with 0x87C0FFFF whatever SRR1 held before; for ISI it is that value
with bit 30 (0x40000000) set; for PROGRAM it is the pre-call SRR1 OR-ed with
that value. -/
theorem CheckExceptions_saves_machine_state (g : Gekko) (hne : g.SPR_SRR0 ≠ g.SPR_SRR1)
    (s : PowerPCState) (c : ExceptionClass) (hc : firstPending g s = some c) :
    (c ∈ [ExceptionClass.SYSCALL, .FPU_UNAVAILABLE, .DSI, .ALIGNMENT, .EXTERNAL_INT,
        .PERFORMANCE_MONITOR, .DECREMENTER] →
      SRR1 g (CheckExceptions g s) = s.msr.Hex &&& 0x87C0FFFF) ∧
    (c = .ISI → SRR1 g (CheckExceptions g s) = (s.msr.Hex &&& 0x87C0FFFF) ||| 0x40000000) ∧
    (c = .PROGRAM →
      SRR1 g (CheckExceptions g s) = SRR1 g s ||| (s.msr.Hex &&& 0x87C0FFFF)) := by
  refine ⟨fun hmem => ?_, fun h => ?_, fun h => ?_⟩
  · cases c <;>
      first
      | exact absurd hmem (by decide)
      | (rw [CheckExceptions_eq_enterVector g s _ _ hc rfl, SRR1_enterVector]; rfl)
  · subst h
    rw [CheckExceptions_eq_enterVector g s _ _ hc rfl, SRR1_enterVector]
    rfl
  · subst h
    rw [CheckExceptions_eq_enterVector g s _ _ hc rfl, SRR1_enterVector]
    show Function.update s.spr g.SPR_SRR0 _ g.SPR_SRR1 ||| _ = _
    rw [Function.update_noteq hne.symm]
    rfl

theorem CheckExceptions_saves_machine_state_witness :
    SRR1 gekko (CheckExceptions gekko (sampleState 0x01 0xFFFFFFFF 0x12345678)) = 0x87C0FFFF ∧
    SRR1 gekko (CheckExceptions gekko (sampleState 0x10 0x8000 0x12345678)) = 0x40008000 ∧
    SRR1 gekko (CheckExceptions gekko (sampleState 0x80 0x8000 0x00080000)) = 0x00088000 :=
  ⟨(CheckExceptions_saves_machine_state gekko (by decide)
      (sampleState 0x01 0xFFFFFFFF 0x12345678) .DECREMENTER (by decide)).1 (by decide),
    (CheckExceptions_saves_machine_state gekko (by decide)
      (sampleState 0x10 0x8000 0x12345678) .ISI (by decide)).2.1 rfl,
    (CheckExceptions_saves_machine_state gekko (by decide)
      (sampleState 0x80 0x8000 0x00080000) .PROGRAM (by decide)).2.2 rfl⟩

/-- Claim C5: after a vectoring branch the MSR is the pre-call MSR with LE
replaced by the pre-call ILE and then AND-ed with the complement of 0x04EF36:
every bit of 0x04EF36 is clear (EE and PR among them), LE equals the old ILE,
and every remaining bit is unchanged. -/
theorem CheckExceptions_adjusts_MSR (g : Gekko) (s : PowerPCState)
    (hm : s.msr.Hex < 2 ^ 32) (c : ExceptionClass) (v : Nat)
    (hc : firstPending g s = some c) (hv : vector c = some v) :
    (CheckExceptions g s).msr.Hex
      = ((s.msr.Hex &&& not32 1) ||| s.msr.ILE.toNat) &&& not32 0x04EF36 ∧
    (CheckExceptions g s).msr.Hex &&& 0x04EF36 = 0 ∧
    (CheckExceptions g s).msr.EE = false ∧
    (CheckExceptions g s).msr.Hex.testBit 14 = false ∧
    (CheckExceptions g s).msr.LE = s.msr.ILE ∧
    ∀ j, j ≠ 0 → (0x04EF36 : Nat).testBit j = false →
      (CheckExceptions g s).msr.Hex.testBit j = s.msr.Hex.testBit j := by
  rw [CheckExceptions_eq_enterVector g s c v hc hv]
  have hbit := testBit_adjusted_MSR s.msr.Hex (s.msr.Hex.testBit 16) hm
  refine ⟨rfl, and_not32_and_self _ _ (setLE_lt _ _ hm), ?_, ?_, ?_, ?_⟩
  · show (((s.msr.Hex &&& not32 1) ||| (s.msr.Hex.testBit 16).toNat) &&&
      not32 0x04EF36).testBit 15 = false
    rw [hbit]
    have : (0x04EF36 : Nat).testBit 15 = true := by decide
    rw [this]
    simp
  · show (((s.msr.Hex &&& not32 1) ||| (s.msr.Hex.testBit 16).toNat) &&&
      not32 0x04EF36).testBit 14 = false
    rw [hbit]
    have : (0x04EF36 : Nat).testBit 14 = true := by decide
    rw [this]
    simp
  · show (((s.msr.Hex &&& not32 1) ||| (s.msr.Hex.testBit 16).toNat) &&&
      not32 0x04EF36).testBit 0 = s.msr.Hex.testBit 16
    rw [hbit]
    have : (0x04EF36 : Nat).testBit 0 = false := by decide
    rw [this]
    simp
  · intro j hj hmask
    show (((s.msr.Hex &&& not32 1) ||| (s.msr.Hex.testBit 16).toNat) &&&
      not32 0x04EF36).testBit j = _
    rw [hbit, hmask]
    simp [hj]

theorem CheckExceptions_adjusts_MSR_witness :
    (CheckExceptions gekko (sampleState 0x40 0x0001F032 0)).msr.Hex = 0x00011001 ∧
    (CheckExceptions gekko (sampleState 0x40 0x0001F032 0)).msr.EE = false ∧
    (CheckExceptions gekko (sampleState 0x40 0x0001F032 0)).msr.LE = true :=
  have h := CheckExceptions_adjusts_MSR gekko (sampleState 0x40 0x0001F032 0) (by decide)
    .FPU_UNAVAILABLE 0x800 (by decide) rfl
  ⟨h.1.trans (by decide), h.2.2.1, h.2.2.2.2.1.trans (by decide)⟩

/-- Claim C6 as stated fails: a state with the reservation flag set at address
0x1000 and ISI pending vectors to 0x400 and still has the flag set and the
address 0x1000. -/
theorem reservation_survives_exception_entry :
    (sampleState 0x10 0 0).reserve = true ∧
    firstPending gekko (sampleState 0x10 0 0) = some .ISI ∧
    (CheckExceptions gekko (sampleState 0x10 0 0)).pc = 0x400 ∧
    (CheckExceptions gekko (sampleState 0x10 0 0)).reserve ≠ false ∧
    (CheckExceptions gekko (sampleState 0x10 0 0)).reserve_address ≠ 0 := by
  decide

/-- Claim C6, amended: `CheckExceptions` never touches the reservation; whether
or not it vectors, the reservation flag and the reservation address are what
they were before the call. -/
theorem CheckExceptions_keeps_reservation (g : Gekko) (s : PowerPCState) :
    (CheckExceptions g s).reserve = s.reserve ∧
    (CheckExceptions g s).reserve_address = s.reserve_address := by
  rw [CheckExceptions_eq_drainEffect]
  cases firstPending g s with
  | none => exact ⟨rfl, rfl⟩
  | some c => cases c <;> exact ⟨rfl, rfl⟩

/-! ## Branches that do not vector -/

theorem firstPending_fake (g : Gekko) (s : PowerPCState)
    (h1 : pending g s .ISI = false) (h2 : pending g s .PROGRAM = false)
    (h3 : pending g s .SYSCALL = false) (h4 : pending g s .FPU_UNAVAILABLE = false)
    (h5 : pending g s .FAKE_MEMCHECK_HIT = true) :
    firstPending g s = some .FAKE_MEMCHECK_HIT := by
  rw [firstPending_eq_chain, if_neg (ne_true_of_eq_false h1), if_neg (ne_true_of_eq_false h2),
    if_neg (ne_true_of_eq_false h3), if_neg (ne_true_of_eq_false h4), if_pos h5]

theorem firstPending_none (g : Gekko) (s : PowerPCState)
    (hsync : ∀ c ∈ synchronousOrder, pending g s c = false)
    (hext : s.msr.EE = false ∨ ∀ c ∈ externalOrder, pending g s c = false) :
    firstPending g s = none := by
  have n : ∀ c, c ∈ synchronousOrder → ¬ pending g s c = true :=
    fun c hc => ne_true_of_eq_false (hsync c hc)
  rw [firstPending_eq_chain, if_neg (n .ISI (by decide)), if_neg (n .PROGRAM (by decide)),
    if_neg (n .SYSCALL (by decide)), if_neg (n .FPU_UNAVAILABLE (by decide)),
    if_neg (n .FAKE_MEMCHECK_HIT (by decide)), if_neg (n .DSI (by decide)),
    if_neg (n .ALIGNMENT (by decide))]
  rcases hext with hee | hnone
  · rw [if_neg (ne_true_of_eq_false hee)]
  · have m : ∀ c, c ∈ externalOrder → ¬ pending g s c = true :=
      fun c hc => ne_true_of_eq_false (hnone c hc)
    rw [if_neg (m .EXTERNAL_INT (by decide)), if_neg (m .PERFORMANCE_MONITOR (by decide)),
      if_neg (m .DECREMENTER (by decide)), ite_self]

/-- Claim C7: when FAKE_MEMCHECK_HIT is pending and none of ISI, PROGRAM,
SYSCALL, FPU_UNAVAILABLE is, the call clears exactly the FAKE_MEMCHECK_HIT and
DSI bits of `Exceptions` and changes nothing else: no vectoring, `pc`, `npc`,
SRR0, SRR1, MSR and every other cause bit are as before. -/
theorem CheckExceptions_fake_memcheck_hit (g : Gekko) (hg : g.DistinctCauseBits)
    (s : PowerPCState) (hs : s.Exceptions < 2 ^ 32)
    (h1 : pending g s .ISI = false) (h2 : pending g s .PROGRAM = false)
    (h3 : pending g s .SYSCALL = false) (h4 : pending g s .FPU_UNAVAILABLE = false)
    (h5 : pending g s .FAKE_MEMCHECK_HIT = true) :
    CheckExceptions g s = { s with Exceptions :=
      s.Exceptions &&& (not32 g.EXCEPTION_DSI &&& not32 g.EXCEPTION_FAKE_MEMCHECK_HIT) } ∧
    (∀ j, (CheckExceptions g s).Exceptions.testBit j
      = (s.Exceptions.testBit j && decide (2 ^ j ≠ g.EXCEPTION_DSI)
          && decide (2 ^ j ≠ g.EXCEPTION_FAKE_MEMCHECK_HIT))) ∧
    pending g (CheckExceptions g s) .FAKE_MEMCHECK_HIT = false ∧
    pending g (CheckExceptions g s) .DSI = false ∧
    (∀ d, d ≠ .FAKE_MEMCHECK_HIT → d ≠ .DSI →
      pending g (CheckExceptions g s) d = pending g s d) ∧
    (CheckExceptions g s).pc = s.pc ∧ (CheckExceptions g s).npc = s.npc ∧
    SRR0 g (CheckExceptions g s) = SRR0 g s ∧ SRR1 g (CheckExceptions g s) = SRR1 g s ∧
    (CheckExceptions g s).msr = s.msr := by
  rw [CheckExceptions_eq_drainEffect, firstPending_fake g s h1 h2 h3 h4 h5]
  refine ⟨rfl, ?_, ?_, ?_, ?_, rfl, rfl, rfl, rfl, rfl⟩
  · intro j
    obtain ⟨k, _, hk⟩ := hg.1 .DSI
    obtain ⟨l, _, hl⟩ := hg.1 .FAKE_MEMCHECK_HIT
    simp only [Gekko.flag] at hk hl
    show (s.Exceptions &&& (not32 g.EXCEPTION_DSI &&& not32 g.EXCEPTION_FAKE_MEMCHECK_HIT)).testBit
      j = _
    rw [← Nat.and_assoc, hk, hl, testBit_clear_flag _ _ _ (and_not32_lt _ _ hs),
      testBit_clear_flag _ _ _ hs]
  · show (_ &&& g.EXCEPTION_FAKE_MEMCHECK_HIT != 0) = false
    rw [show (drainEffect g s (some .FAKE_MEMCHECK_HIT)).Exceptions = s.Exceptions &&&
      (not32 g.EXCEPTION_DSI &&& not32 g.EXCEPTION_FAKE_MEMCHECK_HIT) from rfl,
      fake_clear_self g hg _ hs]
    rfl
  · show (s.Exceptions &&& (not32 g.EXCEPTION_DSI &&& not32 g.EXCEPTION_FAKE_MEMCHECK_HIT)
      &&& g.EXCEPTION_DSI != 0) = false
    rw [Nat.and_comm (not32 g.EXCEPTION_DSI), ← Nat.and_assoc]
    have h := flag_clear_self g hg .DSI _ (and_not32_lt s.Exceptions g.EXCEPTION_FAKE_MEMCHECK_HIT hs)
    simp only [Gekko.flag] at h
    rw [h]
    rfl
  · intro d hd1 hd2
    exact fake_clear_other g hg d hd1 hd2 s.Exceptions hs

theorem CheckExceptions_fake_memcheck_hit_witness :
    (CheckExceptions gekko (sampleState 0x229 0x8000 0)).Exceptions = 0x021 ∧
    (CheckExceptions gekko (sampleState 0x229 0x8000 0)).pc = 0x80003100 ∧
    (CheckExceptions gekko (sampleState 0x229 0x8000 0)).npc = 0x80003104 ∧
    (CheckExceptions gekko (sampleState 0x229 0x8000 0)).msr = ⟨0x8000⟩ :=
  have h := CheckExceptions_fake_memcheck_hit gekko gekko_distinctCauseBits
    (sampleState 0x229 0x8000 0) (by decide) (by decide) (by decide) (by decide) (by decide)
    (by decide)
  ⟨(congrArg PowerPCState.Exceptions h.1).trans (by decide), h.2.2.2.2.2.1, h.2.2.2.2.2.2.1,
    h.2.2.2.2.2.2.2.2.2⟩

/-- Claim C8: when none of the seven synchronous flags is pending and either
`MSR.EE` is clear or none of EXTERNAL_INT, PERFORMANCE_MONITOR, DECREMENTER is
pending, the call leaves the whole state unchanged, however often it is
repeated; external flags therefore stay pending while `MSR.EE` is clear, and
a cause bit outside the ten flags never alters the state. -/
theorem CheckExceptions_unchanged (g : Gekko) (s : PowerPCState)
    (hsync : ∀ c ∈ synchronousOrder, pending g s c = false)
    (hext : s.msr.EE = false ∨ ∀ c ∈ externalOrder, pending g s c = false) :
    CheckExceptions g s = s ∧ ∀ n, (CheckExceptions g)^[n] s = s := by
  have h : CheckExceptions g s = s := by
    rw [CheckExceptions_eq_drainEffect, firstPending_none g s hsync hext]
    rfl
  exact ⟨h, fun n => Function.iterate_fixed h n⟩

theorem CheckExceptions_unchanged_witness :
    CheckExceptions gekko (sampleState 0x105 0x4000 0) = sampleState 0x105 0x4000 0 ∧
    CheckExceptions gekko (sampleState 0x400 0x8000 0) = sampleState 0x400 0x8000 0 :=
  ⟨(CheckExceptions_unchanged gekko (sampleState 0x105 0x4000 0) (by decide)
      (Or.inl (by decide))).1,
    (CheckExceptions_unchanged gekko (sampleState 0x400 0x8000 0) (by decide)
      (Or.inr (by decide))).1⟩

/-! ## Draining two pending flags -/

theorem two_pow_or_lt (a b : Nat) (ha : a < 32) (hb : b < 32) : 2 ^ a ||| 2 ^ b < 2 ^ 32 :=
  Nat.or_lt_two_pow (Nat.pow_lt_pow_right (by norm_num) ha)
    (Nat.pow_lt_pow_right (by norm_num) hb)

theorem pending_of_two_flags (a b k : Nat) :
    ((2 ^ a ||| 2 ^ b) &&& 2 ^ k != 0) = (decide (a = k) || decide (b = k)) := by
  rw [Bool.eq_iff_iff]
  simp only [bne_iff_ne]
  rw [and_two_pow_ne_zero, Nat.testBit_or, Nat.testBit_two_pow, Nat.testBit_two_pow]

theorem pending_of_one_flag (b k : Nat) : (2 ^ b &&& 2 ^ k != 0) = decide (b = k) := by
  rw [Bool.eq_iff_iff]
  simp only [bne_iff_ne]
  rw [and_two_pow_ne_zero, Nat.testBit_two_pow]

theorem two_flags_clear_first (a b : Nat) (ha : a < 32) (hb : b < 32) (hab : a ≠ b) :
    (2 ^ a ||| 2 ^ b) &&& not32 (2 ^ a) = 2 ^ b := by
  apply Nat.eq_of_testBit_eq
  intro j
  rw [testBit_clear_flag _ _ _ (two_pow_or_lt a b ha hb), Nat.testBit_or, Nat.testBit_two_pow,
    Nat.testBit_two_pow]
  by_cases h1 : a = j
  · subst h1
    simp [hab, hab.symm]
  · have h2 : ¬ (2 ^ j = 2 ^ a) := fun h => h1 (two_pow_inj.mp h).symm
    simp [h1, h2]

theorem one_flag_clear (b : Nat) (hb : b < 32) : 2 ^ b &&& not32 (2 ^ b) = 0 := by
  apply Nat.eq_of_testBit_eq
  intro j
  rw [testBit_clear_flag _ _ _ (Nat.pow_lt_pow_right (by norm_num) hb), Nat.testBit_two_pow,
    Nat.zero_testBit]
  by_cases h1 : b = j
  · subst h1
    simp
  · simp [h1]

/-- Claim C9: with exactly PROGRAM and ALIGNMENT pending, the first call enters
the PROGRAM vector 0x700 and leaves exactly ALIGNMENT pending; the second call
enters the ALIGNMENT vector 0x600 and leaves `Exceptions = 0`. -/
theorem CheckExceptions_program_then_alignment (g : Gekko) (hg : g.DistinctCauseBits)
    (s : PowerPCState)
    (he : s.Exceptions = g.EXCEPTION_PROGRAM ||| g.EXCEPTION_ALIGNMENT) :
    (CheckExceptions g s).pc = 0x700 ∧ (CheckExceptions g s).npc = 0x700 ∧
    (CheckExceptions g s).Exceptions = g.EXCEPTION_ALIGNMENT ∧
    (CheckExceptions g (CheckExceptions g s)).pc = 0x600 ∧
    (CheckExceptions g (CheckExceptions g s)).npc = 0x600 ∧
    (CheckExceptions g (CheckExceptions g s)).Exceptions = 0 := by
  obtain ⟨a, ha, hpa⟩ := hg.1 .PROGRAM
  obtain ⟨b, hb, hpb⟩ := hg.1 .ALIGNMENT
  have hab : a ≠ b := by
    rintro rfl
    exact hg.2 .PROGRAM .ALIGNMENT (by decide) (hpa.trans hpb.symm)
  have others : ∀ d, d ≠ .PROGRAM → d ≠ .ALIGNMENT →
      ∃ k, g.flag d = 2 ^ k ∧ a ≠ k ∧ b ≠ k := by
    intro d h1 h2
    obtain ⟨k, _, hk⟩ := hg.1 d
    refine ⟨k, hk, ?_, ?_⟩
    · rintro rfl
      exact hg.2 d .PROGRAM h1 (hk.trans hpa.symm)
    · rintro rfl
      exact hg.2 d .ALIGNMENT h2 (hk.trans hpb.symm)
  have pend1 : ∀ d, d ≠ .PROGRAM → d ≠ .ALIGNMENT → pending g s d = false := by
    intro d h1 h2
    obtain ⟨k, hk, hak, hbk⟩ := others d h1 h2
    show (s.Exceptions &&& g.flag d != 0) = false
    rw [he, hk]
    simp only [Gekko.flag] at hpa hpb
    rw [hpa, hpb, pending_of_two_flags]
    simp [hak, hbk]
  have pendP : pending g s .PROGRAM = true := by
    show (s.Exceptions &&& g.EXCEPTION_PROGRAM != 0) = true
    simp only [Gekko.flag] at hpa hpb
    rw [he, hpa, hpb, pending_of_two_flags]
    simp
  have hfirst : firstPending g s = some .PROGRAM := by
    rw [firstPending_eq_chain, if_neg (ne_true_of_eq_false (pend1 .ISI (by decide) (by decide))),
      if_pos pendP]
  have hstep := CheckExceptions_eq_enterVector g s .PROGRAM 0x700 hfirst rfl
  have hexc : (CheckExceptions g s).Exceptions = g.EXCEPTION_ALIGNMENT := by
    rw [hstep]
    show s.Exceptions &&& not32 g.EXCEPTION_PROGRAM = g.EXCEPTION_ALIGNMENT
    simp only [Gekko.flag] at hpa hpb
    rw [he, hpa, hpb]
    exact two_flags_clear_first a b ha hb hab
  have pend2 : ∀ d, d ≠ .ALIGNMENT → pending g (CheckExceptions g s) d = false := by
    intro d h2
    obtain ⟨k, _, hk⟩ := hg.1 d
    have hbk : b ≠ k := by
      rintro rfl
      exact hg.2 d .ALIGNMENT h2 (hk.trans hpb.symm)
    show ((CheckExceptions g s).Exceptions &&& g.flag d != 0) = false
    simp only [Gekko.flag] at hpb
    rw [hexc, hk, hpb, pending_of_one_flag]
    simp [hbk]
  have pendA : pending g (CheckExceptions g s) .ALIGNMENT = true := by
    show ((CheckExceptions g s).Exceptions &&& g.EXCEPTION_ALIGNMENT != 0) = true
    simp only [Gekko.flag] at hpb
    rw [hexc, hpb, pending_of_one_flag]
    simp
  have hsecond : firstPending g (CheckExceptions g s) = some .ALIGNMENT := by
    rw [firstPending_eq_chain, if_neg (ne_true_of_eq_false (pend2 .ISI (by decide))),
      if_neg (ne_true_of_eq_false (pend2 .PROGRAM (by decide))),
      if_neg (ne_true_of_eq_false (pend2 .SYSCALL (by decide))),
      if_neg (ne_true_of_eq_false (pend2 .FPU_UNAVAILABLE (by decide))),
      if_neg (ne_true_of_eq_false (pend2 .FAKE_MEMCHECK_HIT (by decide))),
      if_neg (ne_true_of_eq_false (pend2 .DSI (by decide))), if_pos pendA]
  have hstep2 := CheckExceptions_eq_enterVector g (CheckExceptions g s) .ALIGNMENT 0x600
    hsecond rfl
  refine ⟨?_, ?_, hexc, ?_, ?_, ?_⟩
  · rw [hstep]; rfl
  · rw [hstep]; rfl
  · rw [hstep2]; rfl
  · rw [hstep2]; rfl
  · rw [hstep2]
    show (CheckExceptions g s).Exceptions &&& not32 g.EXCEPTION_ALIGNMENT = 0
    simp only [Gekko.flag] at hpb
    rw [hexc, hpb]
    exact one_flag_clear b hb

theorem CheckExceptions_program_then_alignment_witness :
    (CheckExceptions gekko (sampleState 0xA0 0 0)).pc = 0x700 ∧
    (CheckExceptions gekko (sampleState 0xA0 0 0)).npc = 0x700 ∧
    (CheckExceptions gekko (sampleState 0xA0 0 0)).Exceptions = gekko.EXCEPTION_ALIGNMENT ∧
    (CheckExceptions gekko (CheckExceptions gekko (sampleState 0xA0 0 0))).pc = 0x600 ∧
    (CheckExceptions gekko (CheckExceptions gekko (sampleState 0xA0 0 0))).npc = 0x600 ∧
    (CheckExceptions gekko (CheckExceptions gekko (sampleState 0xA0 0 0))).Exceptions = 0 :=
  CheckExceptions_program_then_alignment gekko gekko_distinctCauseBits (sampleState 0xA0 0 0)
    (by decide)

/-! ## Register reset -/

theorem gekko_distinctResetIndices : gekko.DistinctResetIndices := by
  unfold Gekko.DistinctResetIndices
  decide

theorem resetIndices_ne (g : Gekko) (hg : g.DistinctResetIndices) :
    (g.SPR_PVR ≠ g.SPR_HID1 ∧ g.SPR_PVR ≠ g.SPR_ECID_U ∧ g.SPR_PVR ≠ g.SPR_ECID_M ∧
      g.SPR_PVR ≠ g.SPR_ECID_L ∧ g.SPR_PVR ≠ g.SPR_TL ∧ g.SPR_PVR ≠ g.SPR_TU ∧
      g.SPR_PVR ≠ g.SPR_DEC) ∧
    (g.SPR_HID1 ≠ g.SPR_ECID_U ∧ g.SPR_HID1 ≠ g.SPR_ECID_M ∧ g.SPR_HID1 ≠ g.SPR_ECID_L ∧
      g.SPR_HID1 ≠ g.SPR_TL ∧ g.SPR_HID1 ≠ g.SPR_TU ∧ g.SPR_HID1 ≠ g.SPR_DEC) ∧
    (g.SPR_ECID_U ≠ g.SPR_ECID_M ∧ g.SPR_ECID_U ≠ g.SPR_ECID_L ∧ g.SPR_ECID_U ≠ g.SPR_TL ∧
      g.SPR_ECID_U ≠ g.SPR_TU ∧ g.SPR_ECID_U ≠ g.SPR_DEC) ∧
    (g.SPR_ECID_M ≠ g.SPR_ECID_L ∧ g.SPR_ECID_M ≠ g.SPR_TL ∧ g.SPR_ECID_M ≠ g.SPR_TU ∧
      g.SPR_ECID_M ≠ g.SPR_DEC) ∧
    (g.SPR_ECID_L ≠ g.SPR_TL ∧ g.SPR_ECID_L ≠ g.SPR_TU ∧ g.SPR_ECID_L ≠ g.SPR_DEC) ∧
    (g.SPR_TL ≠ g.SPR_TU ∧ g.SPR_TL ≠ g.SPR_DEC) ∧ g.SPR_TU ≠ g.SPR_DEC := by
  unfold Gekko.DistinctResetIndices at hg
  simp only [List.nodup_cons, List.mem_cons, List.mem_singleton, not_or, List.not_mem_nil,
    not_false_eq_true, List.nodup_nil, and_true] at hg
  exact hg

theorem ResetRegisters_spr (g : Gekko) (b : Bool) (s : PowerPCState) :
    (ResetRegisters g b s).spr =
      Function.update (Function.update (Function.update (Function.update (Function.update
        (Function.update (Function.update (Function.update (fun _ => 0)
          g.SPR_PVR (if b then 0x00087102 else 0x00083214))
          g.SPR_HID1 0x80000000) g.SPR_ECID_U 0x0d96e200) g.SPR_ECID_M 0x1840c00d)
          g.SPR_ECID_L 0x82bb08e8) g.SPR_TL 0) g.SPR_TU 0) g.SPR_DEC 0xFFFFFFFF := by
  cases b <;> rfl

/-- Claim C10: after `ResetRegisters` with the Wii flag false SPR_PVR is
0x00083214 (not 0x00087102) and SPR_DEC is 0xFFFFFFFF; with the flag true
SPR_PVR is 0x00087102 and SPR_DEC is again 0xFFFFFFFF.  HID1, ECID_U, ECID_M
and ECID_L hold 0x80000000, 0x0d96e200, 0x1840c00d and 0x82bb08e8 for both
variants, and the two reset states differ in SPR_PVR only. -/
theorem ResetRegisters_identification (g : Gekko) (hg : g.DistinctResetIndices)
    (s : PowerPCState) :
    (ResetRegisters g false s).spr g.SPR_PVR = 0x00083214 ∧
    (ResetRegisters g false s).spr g.SPR_PVR ≠ 0x00087102 ∧
    (ResetRegisters g false s).spr g.SPR_DEC = 0xFFFFFFFF ∧
    (ResetRegisters g true s).spr g.SPR_PVR = 0x00087102 ∧
    (ResetRegisters g true s).spr g.SPR_DEC = 0xFFFFFFFF ∧
    (∀ b, (ResetRegisters g b s).spr g.SPR_HID1 = 0x80000000 ∧
      (ResetRegisters g b s).spr g.SPR_ECID_U = 0x0d96e200 ∧
      (ResetRegisters g b s).spr g.SPR_ECID_M = 0x1840c00d ∧
      (ResetRegisters g b s).spr g.SPR_ECID_L = 0x82bb08e8) ∧
    (∀ i, i ≠ g.SPR_PVR → (ResetRegisters g true s).spr i = (ResetRegisters g false s).spr i) ∧
    ResetRegisters g true s = { ResetRegisters g false s with
      spr := Function.update (ResetRegisters g false s).spr g.SPR_PVR 0x00087102 } := by
  obtain ⟨⟨p1, p2, p3, p4, p5, p6, p7⟩, ⟨q1, q2, q3, q4, q5, q6⟩, ⟨r1, r2, r3, r4, r5⟩,
    ⟨t1, t2, t3, t4⟩, ⟨u1, u2, u3⟩, ⟨w1, w2⟩, x1⟩ := resetIndices_ne g hg
  have hPVR : ∀ b, (ResetRegisters g b s).spr g.SPR_PVR
      = if b then 0x00087102 else 0x00083214 := by
    intro b
    rw [ResetRegisters_spr, Function.update_noteq p7, Function.update_noteq p6,
      Function.update_noteq p5, Function.update_noteq p4, Function.update_noteq p3,
      Function.update_noteq p2, Function.update_noteq p1, Function.update_same]
  have hother : ∀ i, i ≠ g.SPR_PVR →
      (ResetRegisters g true s).spr i = (ResetRegisters g false s).spr i := by
    intro i hi
    rw [ResetRegisters_spr, ResetRegisters_spr]
    simp only [Function.update_apply, hi, if_false]
  refine ⟨?_, ?_, ?_, ?_, ?_, ?_, hother, ?_⟩
  · rw [hPVR]; rfl
  · rw [hPVR]; decide
  · rw [ResetRegisters_spr, Function.update_same]
  · rw [hPVR]; rfl
  · rw [ResetRegisters_spr, Function.update_same]
  · intro b
    refine ⟨?_, ?_, ?_, ?_⟩
    · rw [ResetRegisters_spr, Function.update_noteq q6, Function.update_noteq q5,
        Function.update_noteq q4, Function.update_noteq q3, Function.update_noteq q2,
        Function.update_noteq q1, Function.update_same]
    · rw [ResetRegisters_spr, Function.update_noteq r5, Function.update_noteq r4,
        Function.update_noteq r3, Function.update_noteq r2, Function.update_noteq r1,
        Function.update_same]
    · rw [ResetRegisters_spr, Function.update_noteq t4, Function.update_noteq t3,
        Function.update_noteq t2, Function.update_noteq t1, Function.update_same]
    · rw [ResetRegisters_spr, Function.update_noteq u3, Function.update_noteq u2,
        Function.update_noteq u1, Function.update_same]
  · have hspr : (ResetRegisters g true s).spr
        = Function.update (ResetRegisters g false s).spr g.SPR_PVR 0x00087102 := by
      funext i
      by_cases hi : i = g.SPR_PVR
      · subst hi
        rw [Function.update_same, hPVR]
        rfl
      · rw [Function.update_noteq hi, hother i hi]
    rw [← hspr]
    rfl

theorem ResetRegisters_identification_witness :
    (ResetRegisters gekko false (sampleState 0x10 0x8000 7)).spr 287 = 0x00083214 ∧
    (ResetRegisters gekko false (sampleState 0x10 0x8000 7)).spr 22 = 0xFFFFFFFF ∧
    (ResetRegisters gekko true (sampleState 0x10 0x8000 7)).spr 287 = 0x00087102 ∧
    (ResetRegisters gekko true (sampleState 0x10 0x8000 7)).spr 22 = 0xFFFFFFFF :=
  have h := ResetRegisters_identification gekko gekko_distinctResetIndices
    (sampleState 0x10 0x8000 7)
  ⟨h.1, h.2.2.1, h.2.2.2.1, h.2.2.2.2.1⟩

/-! ## Power-on defaults -/

/-- Claim C11: after `ResetRegisters`, for either value of the Wii flag, every
general-purpose register is 0 and every special-purpose register is 0 except
PVR, HID1, ECID_U, ECID_M, ECID_L and DEC; in particular TL and TU are 0. -/
theorem ResetRegisters_zeroes_registers (g : Gekko) (hg : g.DistinctResetIndices)
    (bWii : Bool) (s : PowerPCState) :
    (∀ i, (ResetRegisters g bWii s).gpr i = 0) ∧
    (∀ i, i ∉ [g.SPR_PVR, g.SPR_HID1, g.SPR_ECID_U, g.SPR_ECID_M, g.SPR_ECID_L, g.SPR_DEC] →
      (ResetRegisters g bWii s).spr i = 0) ∧
    (ResetRegisters g bWii s).spr g.SPR_TL = 0 ∧
    (ResetRegisters g bWii s).spr g.SPR_TU = 0 := by
  obtain ⟨⟨_, _, _, _, p5, p6, _⟩, ⟨_, _, _, q4, q5, _⟩, ⟨_, _, r3, r4, _⟩,
    ⟨_, t2, t3, _⟩, ⟨u1, u2, _⟩, ⟨w1, w2⟩, x1⟩ := resetIndices_ne g hg
  refine ⟨fun i => by cases bWii <;> rfl, ?_, ?_, ?_⟩
  · intro i hi
    simp only [List.mem_cons, List.mem_singleton, List.not_mem_nil, or_false, not_or] at hi
    obtain ⟨h1, h2, h3, h4, h5, h6⟩ := hi
    rw [ResetRegisters_spr]
    simp only [Function.update_apply, h1, h2, h3, h4, h5, h6, if_false, ite_self]
  · rw [ResetRegisters_spr, Function.update_noteq w2, Function.update_noteq w1,
      Function.update_same]
  · rw [ResetRegisters_spr, Function.update_noteq x1, Function.update_same]

theorem ResetRegisters_zeroes_registers_witness :
    (∀ i, (ResetRegisters gekko true (sampleState 0x10 0x8000 7)).gpr i = 0) ∧
    (∀ i, i ∉ [gekko.SPR_PVR, gekko.SPR_HID1, gekko.SPR_ECID_U, gekko.SPR_ECID_M,
        gekko.SPR_ECID_L, gekko.SPR_DEC] →
      (ResetRegisters gekko true (sampleState 0x10 0x8000 7)).spr i = 0) ∧
    (ResetRegisters gekko true (sampleState 0x10 0x8000 7)).spr gekko.SPR_TL = 0 ∧
    (ResetRegisters gekko true (sampleState 0x10 0x8000 7)).spr gekko.SPR_TU = 0 :=
  ResetRegisters_zeroes_registers gekko gekko_distinctResetIndices true
    (sampleState 0x10 0x8000 7)

/-- Claim C12: after `ResetRegisters` each condition-register field holds the
non-zero sentinel 0x8000000000000001, while FPSCR, the cause mask, MSR, `pc`,
`npc`, the reservation flag and the reservation address are zero or false. -/
theorem ResetRegisters_flags_and_condition_fields (g : Gekko) (bWii : Bool)
    (s : PowerPCState) :
    (∀ i, (ResetRegisters g bWii s).cr.fields i = 0x8000000000000001) ∧
    (0x8000000000000001 : Nat) ≠ 0 ∧
    (ResetRegisters g bWii s).fpscr.Hex = 0 ∧
    (ResetRegisters g bWii s).Exceptions = 0 ∧
    (ResetRegisters g bWii s).msr.Hex = 0 ∧
    (ResetRegisters g bWii s).pc = 0 ∧
    (ResetRegisters g bWii s).npc = 0 ∧
    (ResetRegisters g bWii s).reserve = false ∧
    (ResetRegisters g bWii s).reserve_address = 0 := by
  cases bWii <;>
    exact ⟨fun _ => rfl, by decide, rfl, rfl, rfl, rfl, rfl, rfl, rfl⟩

theorem Reset_eq (g : Gekko) (k : CacheModels) (bWii : Bool) (s : PowerPCState) :
    Reset g k bWii s =
      { ResetRegisters g bWii s with
        pagetable_base := 0
        pagetable_hashmask := 0
        tlb := k.emptyTLB
        iCache := k.iCacheReset s.iCache
        dCache := k.dCacheReset s.dCache } := by
  cases bWii <;> rfl

theorem ResetRegisters_congr (g : Gekko) (bWii : Bool) (s t : PowerPCState)
    (h1 : s.downcount = t.downcount) (h2 : s.tlb = t.tlb)
    (h3 : s.pagetable_base = t.pagetable_base)
    (h4 : s.pagetable_hashmask = t.pagetable_hashmask) (h5 : s.iCache = t.iCache)
    (h6 : s.dCache = t.dCache) (h7 : s.m_enable_dcache = t.m_enable_dcache) :
    ResetRegisters g bWii s = ResetRegisters g bWii t := by
  cases s
  cases t
  simp only at h1 h2 h3 h4 h5 h6 h7
  subst h1 h2 h3 h4 h5 h6 h7
  cases bWii <;> rfl

/-- Claim C13: `Reset` is idempotent for a fixed Wii flag.  Every field other
than the two cache models agrees after one and after two resets whatever the
cache models do; with cache models whose own reset is idempotent the two
states are equal on every field. -/
theorem Reset_idempotent (g : Gekko) (k : CacheModels) (bWii : Bool) (s : PowerPCState) :
    (∀ i d, ({ Reset g k bWii (Reset g k bWii s) with iCache := i, dCache := d } : PowerPCState)
      = { Reset g k bWii s with iCache := i, dCache := d }) ∧
    ((∀ c, k.iCacheReset (k.iCacheReset c) = k.iCacheReset c) →
      (∀ c, k.dCacheReset (k.dCacheReset c) = k.dCacheReset c) →
      Reset g k bWii (Reset g k bWii s) = Reset g k bWii s) := by
  have h : ResetRegisters g bWii
      { ResetRegisters g bWii s with
        pagetable_base := 0
        pagetable_hashmask := 0
        tlb := k.emptyTLB
        iCache := k.iCacheReset s.iCache
        dCache := k.dCacheReset s.dCache }
      = ResetRegisters g bWii
        { s with
          pagetable_base := 0
          pagetable_hashmask := 0
          tlb := k.emptyTLB
          iCache := k.iCacheReset s.iCache
          dCache := k.dCacheReset s.dCache } := by
    apply ResetRegisters_congr <;> cases bWii <;> rfl
  constructor
  · intro i d
    rw [Reset_eq g k bWii (Reset g k bWii s), Reset_eq g k bWii s, h]
    cases bWii <;> rfl
  · intro hi hd
    rw [Reset_eq g k bWii (Reset g k bWii s), Reset_eq g k bWii s, h]
    show ({ ResetRegisters g bWii _ with
          pagetable_base := 0
          pagetable_hashmask := 0
          tlb := k.emptyTLB
          iCache := k.iCacheReset (k.iCacheReset s.iCache)
          dCache := k.dCacheReset (k.dCacheReset s.dCache) } : PowerPCState) = _
    rw [hi, hd]
    cases bWii <;> rfl

theorem Reset_idempotent_witness :
    Reset gekko clearingCaches false (Reset gekko clearingCaches false (sampleState 0x10 0x8000 7))
      = Reset gekko clearingCaches false (sampleState 0x10 0x8000 7) :=
  (Reset_idempotent gekko clearingCaches false (sampleState 0x10 0x8000 7)).2
    (fun _ => rfl) (fun _ => rfl)

/-- Claim C14 as stated fails: `Reset` does not write `downcount`, so two prior
states that differ in `downcount` still differ in it after a reset. -/
theorem Reset_downcount_survives :
    (Reset gekko clearingCaches false zeroState).downcount
      ≠ (Reset gekko clearingCaches false { zeroState with downcount := 5 }).downcount := by
  decide

/-- Claim C14, amended: for any two prior states and the same Wii flag the
states after `Reset` agree on gpr, pc, npc, cr, msr, fpscr, Exceptions, the
XER parts, ps, sr, spr, tlb, pagetable_base, pagetable_hashmask, reserve and
reserve_address; `downcount` is not written and keeps its prior value. -/
theorem Reset_forgets_prior_registers (g : Gekko) (k : CacheModels) (bWii : Bool)
    (s1 s2 : PowerPCState) :
    (Reset g k bWii s1).gpr = (Reset g k bWii s2).gpr ∧
    (Reset g k bWii s1).pc = (Reset g k bWii s2).pc ∧
    (Reset g k bWii s1).npc = (Reset g k bWii s2).npc ∧
    (Reset g k bWii s1).cr = (Reset g k bWii s2).cr ∧
    (Reset g k bWii s1).msr = (Reset g k bWii s2).msr ∧
    (Reset g k bWii s1).fpscr = (Reset g k bWii s2).fpscr ∧
    (Reset g k bWii s1).Exceptions = (Reset g k bWii s2).Exceptions ∧
    (Reset g k bWii s1).xer_ca = (Reset g k bWii s2).xer_ca ∧
    (Reset g k bWii s1).xer_so_ov = (Reset g k bWii s2).xer_so_ov ∧
    (Reset g k bWii s1).xer_stringctrl = (Reset g k bWii s2).xer_stringctrl ∧
    (Reset g k bWii s1).ps = (Reset g k bWii s2).ps ∧
    (Reset g k bWii s1).sr = (Reset g k bWii s2).sr ∧
    (Reset g k bWii s1).spr = (Reset g k bWii s2).spr ∧
    (Reset g k bWii s1).tlb = (Reset g k bWii s2).tlb ∧
    (Reset g k bWii s1).pagetable_base = (Reset g k bWii s2).pagetable_base ∧
    (Reset g k bWii s1).pagetable_hashmask = (Reset g k bWii s2).pagetable_hashmask ∧
    (Reset g k bWii s1).reserve = (Reset g k bWii s2).reserve ∧
    (Reset g k bWii s1).reserve_address = (Reset g k bWii s2).reserve_address ∧
    (Reset g k bWii s1).downcount = s1.downcount ∧
    (Reset g k bWii s2).downcount = s2.downcount := by
  rw [Reset_eq g k bWii s1, Reset_eq g k bWii s2]
  cases bWii <;>
    exact ⟨rfl, rfl, rfl, rfl, rfl, rfl, rfl, rfl, rfl, rfl, rfl, rfl, rfl, rfl, rfl, rfl, rfl,
      rfl, rfl, rfl⟩

/-! ## Mode controller -/

theorem InitializeCPUCore_mode (k : Backends) (hk : ∀ c, k.InitJitCore c ≠ k.s_interpreter)
    (c : CPUCore) (m : CoreSelection) :
    (InitializeCPUCore k c m).s_mode = (if c = .Interpreter then .Interpreter else .JIT) ∧
    (InitializeCPUCore k c m).s_cpu_core_base_is_injected = m.s_cpu_core_base_is_injected := by
  have hjit : ∀ c', c' ≠ CPUCore.Interpreter →
      (InitializeCPUCore k c' m).s_mode = .JIT ∧
      (InitializeCPUCore k c' m).s_cpu_core_base_is_injected
        = m.s_cpu_core_base_is_injected := by
    intro c' hc'
    have hbase : (InitializeCPUCore k c' m).s_cpu_core_base ≠ k.s_interpreter := by
      cases c' with
      | Interpreter => exact absurd rfl hc'
      | JIT64 | JITARM64 | CachedInterpreter | Other v =>
        simp only [InitializeCPUCore]
        split_ifs
        · exact hk _
        · exact hk _
    constructor
    · have : (InitializeCPUCore k c' m).s_mode =
          if (InitializeCPUCore k c' m).s_cpu_core_base = k.s_interpreter then .Interpreter
          else .JIT := by
        cases c' <;> rfl
      rw [this, if_neg hbase]
    · cases c' <;> simp only [InitializeCPUCore] <;> split_ifs <;> rfl
  by_cases hc : c = .Interpreter
  · subst hc
    simp [InitializeCPUCore]
  · rw [if_neg hc]
    exact hjit c hc

theorem SetMode_mode (k : Backends) (md : CoreMode) (m : CoreSelection) :
    (SetMode k md m).s_mode = md ∧
    (SetMode k md m).s_cpu_core_base_is_injected = m.s_cpu_core_base_is_injected := by
  unfold SetMode
  by_cases h : md = m.s_mode
  · rw [if_pos h]
    exact ⟨h.symm, rfl⟩
  · rw [if_neg h]
    cases hinj : m.s_cpu_core_base_is_injected
    · cases md <;> simp only [ApplyMode, hinj] <;> split_ifs <;> simp_all
    · simp [hinj]

theorem ApplyMode_frame (k : Backends) (m : CoreSelection) :
    (ApplyMode k m).s_mode = m.s_mode ∧
    (ApplyMode k m).s_cpu_core_base_is_injected = m.s_cpu_core_base_is_injected ∧
    (ApplyMode k m).s_cpu_core_base = dictatedBackend k m.s_mode := by
  unfold ApplyMode dictatedBackend
  cases hm : m.s_mode
  · simp [hm]
  · by_cases hg : k.GetCore = nullptr
    · simp [hg, hm]
    · simp [hg, hm]

theorem InjectExternalCPUCore_mode (k : Backends) (p : Nat) (m : CoreSelection) :
    (InjectExternalCPUCore k p m).s_mode = m.s_mode ∧
    (InjectExternalCPUCore k p m).s_cpu_core_base_is_injected = decide (p ≠ nullptr) := by
  unfold InjectExternalCPUCore
  by_cases hp : p = nullptr
  · rw [if_pos hp]
    cases hinj : m.s_cpu_core_base_is_injected
    · simp [hp, hinj]
    · simp only [if_true]
      have h := ApplyMode_frame k { m with s_cpu_core_base_is_injected := false }
      exact ⟨h.1, by rw [h.2.1]; simp [hp]⟩
  · rw [if_neg hp]
    simp [hp]

theorem runCalls_tracks (k : Backends) (hk : ∀ c, k.InitJitCore c ≠ k.s_interpreter)
    (calls : List ControlCall) (m : CoreSelection) :
    (runCalls k calls m).s_mode = requestedMode m.s_mode calls ∧
    (runCalls k calls m).s_cpu_core_base_is_injected
      = externalInjected m.s_cpu_core_base_is_injected calls := by
  induction calls generalizing m with
  | nil => exact ⟨rfl, rfl⟩
  | cons call rest ih =>
    have step : (ControlCall.run k m call).s_mode = requestedMode m.s_mode [call] ∧
        (ControlCall.run k m call).s_cpu_core_base_is_injected
          = externalInjected m.s_cpu_core_base_is_injected [call] := by
      cases call with
      | Init c => exact InitializeCPUCore_mode k hk c m
      | SetMode md => exact SetMode_mode k md m
      | InjectExternalCPUCore p => exact InjectExternalCPUCore_mode k p m
    have h := ih (ControlCall.run k m call)
    rw [step.1, step.2] at h
    exact h

/-- Claim C15: in every state reached from the static initial state through
`Init`, `SetMode` and `InjectExternalCPUCore`, `GetMode` returns the requested
mode (Interpreter or JIT as `Init` established it, thereafter the argument of
the most recent `SetMode`) when no external core is injected, and Interpreter
when one is, whatever was requested. -/
theorem GetMode_reports_requested_mode (k : Backends)
    (hk : ∀ c, k.InitJitCore c ≠ k.s_interpreter) (calls : List ControlCall) :
    (GetMode (runCalls k calls staticSelection) =
      if externalInjected false calls then .Interpreter
      else requestedMode .Interpreter calls) ∧
    (runCalls k calls staticSelection).s_mode = requestedMode .Interpreter calls ∧
    (runCalls k calls staticSelection).s_cpu_core_base_is_injected
      = externalInjected false calls := by
  have h := runCalls_tracks k hk calls staticSelection
  refine ⟨?_, h.1, h.2⟩
  unfold GetMode
  rw [h.1, h.2]
  show (if (!externalInjected false calls) = true then requestedMode .Interpreter calls
    else .Interpreter) = _
  cases externalInjected false calls <;> rfl

theorem desktopBackends_jit_ne_interpreter (c : CPUCore) :
    desktopBackends.InitJitCore c ≠ desktopBackends.s_interpreter := by
  cases c <;> first | decide | (show (0 : Nat) ≠ 0x1000; decide)

theorem GetMode_reports_requested_mode_witness :
    GetMode (runCalls desktopBackends
        [.Init .JIT64, .SetMode .Interpreter, .SetMode .JIT] staticSelection) = .JIT ∧
    GetMode (runCalls desktopBackends
        [.Init .Interpreter, .InjectExternalCPUCore 0x5000, .SetMode .JIT] staticSelection)
      = .Interpreter :=
  ⟨(GetMode_reports_requested_mode desktopBackends desktopBackends_jit_ne_interpreter
      [.Init .JIT64, .SetMode .Interpreter, .SetMode .JIT]).1.trans (by decide),
    (GetMode_reports_requested_mode desktopBackends desktopBackends_jit_ne_interpreter
      [.Init .Interpreter, .InjectExternalCPUCore 0x5000, .SetMode .JIT]).1.trans (by decide)⟩

theorem ApplyMode_eq (k : Backends) (m : CoreSelection) :
    ApplyMode k m = { m with s_cpu_core_base := dictatedBackend k m.s_mode } := by
  obtain ⟨h1, h2, h3⟩ := ApplyMode_frame k m
  cases h : ApplyMode k m
  rw [h] at h1 h2 h3
  simp only at h1 h2 h3
  subst h1 h2 h3
  rfl

/-- Claim C16: `SetMode` with the mode already recorded leaves the recorded mode,
the active backend pointer and the injected flag exactly as they were. -/
theorem SetMode_same_mode (k : Backends) (m : CoreSelection) (new_mode : CoreMode)
    (h : new_mode = m.s_mode) :
    SetMode k new_mode m = m ∧
    (SetMode k new_mode m).s_mode = m.s_mode ∧
    (SetMode k new_mode m).s_cpu_core_base = m.s_cpu_core_base ∧
    (SetMode k new_mode m).s_cpu_core_base_is_injected = m.s_cpu_core_base_is_injected := by
  have e : SetMode k new_mode m = m := by
    unfold SetMode
    rw [if_pos h]
  rw [e]
  exact ⟨rfl, rfl, rfl, rfl⟩

theorem SetMode_same_mode_witness :
    SetMode desktopBackends .JIT
        { s_cpu_core_base := 0x3000, s_cpu_core_base_is_injected := false, s_mode := .JIT }
      = { s_cpu_core_base := 0x3000, s_cpu_core_base_is_injected := false, s_mode := .JIT } :=
  (SetMode_same_mode desktopBackends
    { s_cpu_core_base := 0x3000, s_cpu_core_base_is_injected := false, s_mode := .JIT }
    .JIT rfl).1

theorem SetMode_eq (k : Backends) (md : CoreMode) (m : CoreSelection)
    (hinj : m.s_cpu_core_base_is_injected = false) (hne : md ≠ m.s_mode) :
    SetMode k md m = { m with s_mode := md, s_cpu_core_base := dictatedBackend k md } := by
  unfold SetMode
  rw [if_neg hne]
  simp only [hinj, Bool.false_eq_true, if_false]
  rw [ApplyMode_eq]

/-- Claim C17: from the state left by `Init` with no external core injected,
`SetMode(JIT); SetMode(Interpreter); SetMode(JIT)` ends in the same state as a
single `SetMode(JIT)`, given that the JIT backend `GetCore` returns is the one
`Init` installed whenever `Init` left the JIT mode. -/
theorem SetMode_toggle_round_trip (k : Backends) (c : CPUCore) (m : CoreSelection)
    (hinj : m.s_cpu_core_base_is_injected = false)
    (hsame : (InitializeCPUCore k c m).s_mode = .JIT →
      k.GetCore = (InitializeCPUCore k c m).s_cpu_core_base ∧ k.GetCore ≠ nullptr) :
    SetMode k .JIT (SetMode k .Interpreter (SetMode k .JIT (InitializeCPUCore k c m)))
      = SetMode k .JIT (InitializeCPUCore k c m) := by
  have hinj0 : (InitializeCPUCore k c m).s_cpu_core_base_is_injected = false := by
    rw [← hinj]
    cases c <;> simp only [InitializeCPUCore] <;> split_ifs <;> rfl
  generalize InitializeCPUCore k c m = s0 at hsame hinj0
  cases hmode : s0.s_mode
  · -- Init left the interpreter mode
    have h1 : SetMode k .JIT s0
        = { s0 with s_mode := .JIT, s_cpu_core_base := dictatedBackend k .JIT } :=
      SetMode_eq k .JIT s0 hinj0 (by rw [hmode]; decide)
    have h2 : SetMode k .Interpreter
          { s0 with s_mode := .JIT, s_cpu_core_base := dictatedBackend k .JIT }
        = { s0 with s_mode := .Interpreter, s_cpu_core_base := dictatedBackend k .Interpreter } :=
      SetMode_eq k .Interpreter _ hinj0
        (by show CoreMode.Interpreter ≠ CoreMode.JIT; decide)
    have h3 : SetMode k .JIT
          { s0 with s_mode := .Interpreter, s_cpu_core_base := dictatedBackend k .Interpreter }
        = { s0 with s_mode := .JIT, s_cpu_core_base := dictatedBackend k .JIT } :=
      SetMode_eq k .JIT _ hinj0 (by show CoreMode.JIT ≠ CoreMode.Interpreter; decide)
    rw [h1, h2, h3]
  · -- Init left the JIT mode: the single SetMode(JIT) changes nothing
    obtain ⟨hget, hnn⟩ := hsame hmode
    have h1 : SetMode k .JIT s0 = s0 := by
      unfold SetMode
      rw [if_pos hmode.symm]
    have h2 : SetMode k .Interpreter s0
        = { s0 with s_mode := .Interpreter, s_cpu_core_base := dictatedBackend k .Interpreter } :=
      SetMode_eq k .Interpreter s0 hinj0 (by rw [hmode]; decide)
    have h3 : SetMode k .JIT
          { s0 with s_mode := .Interpreter, s_cpu_core_base := dictatedBackend k .Interpreter }
        = { s0 with s_mode := .JIT, s_cpu_core_base := dictatedBackend k .JIT } :=
      SetMode_eq k .JIT _ hinj0 (by show CoreMode.JIT ≠ CoreMode.Interpreter; decide)
    rw [h1, h2, h3]
    have hd : dictatedBackend k .JIT = s0.s_cpu_core_base := by
      unfold dictatedBackend
      rw [if_neg hnn, hget]
    rw [hd, ← hmode]

theorem SetMode_toggle_round_trip_witness :
    SetMode desktopBackends .JIT (SetMode desktopBackends .Interpreter
        (SetMode desktopBackends .JIT
          (InitializeCPUCore desktopBackends .JIT64 staticSelection)))
      = SetMode desktopBackends .JIT
          (InitializeCPUCore desktopBackends .JIT64 staticSelection) :=
  SetMode_toggle_round_trip desktopBackends .JIT64 staticSelection rfl
    (fun _ => ⟨rfl, by decide⟩)

/-- Claim C18: with no JIT backend (`GetCore` returns null) and no external core,
`SetMode(JIT)` from the Interpreter mode records the request, so `GetMode`
reports JIT, while the active backend is the interpreter and `GetCPUName` is
the interpreter's name. -/
theorem SetMode_JIT_without_JIT_backend (k : Backends) (m : CoreSelection)
    (hint : k.s_interpreter ≠ nullptr) (hget : k.GetCore = nullptr)
    (hinj : m.s_cpu_core_base_is_injected = false) (hmode : m.s_mode = .Interpreter) :
    GetMode (SetMode k .JIT m) = .JIT ∧
    (SetMode k .JIT m).s_cpu_core_base = k.s_interpreter ∧
    GetCPUName k (SetMode k .JIT m) = some (k.GetName k.s_interpreter) := by
  rw [SetMode_eq k .JIT m hinj (by rw [hmode]; decide)]
  have hd : dictatedBackend k .JIT = k.s_interpreter := by
    unfold dictatedBackend
    rw [if_pos hget]
  refine ⟨?_, hd, ?_⟩
  · unfold GetMode
    simp [hinj]
  · unfold GetCPUName
    simp only [hd]
    rw [if_neg hint]

theorem SetMode_JIT_without_JIT_backend_witness :
    GetMode (SetMode interpreterOnlyBackends .JIT
      (InitializeCPUCore interpreterOnlyBackends .Interpreter staticSelection)) = .JIT ∧
    (SetMode interpreterOnlyBackends .JIT
      (InitializeCPUCore interpreterOnlyBackends .Interpreter staticSelection)).s_cpu_core_base
      = 0x1000 ∧
    GetCPUName interpreterOnlyBackends (SetMode interpreterOnlyBackends .JIT
      (InitializeCPUCore interpreterOnlyBackends .Interpreter staticSelection))
      = some "Interpreter" :=
  SetMode_JIT_without_JIT_backend interpreterOnlyBackends
    (InitializeCPUCore interpreterOnlyBackends .Interpreter staticSelection)
    (by decide) rfl rfl rfl

theorem default_core_available (a : Architecture) :
    DefaultCPUCore a ∈ AvailableCPUCores a ∧ DefaultCPUCore a ≠ .Interpreter := by
  cases a <;> decide

/-- Claim C19: `InitializeCPUCore` leaves a non-null active backend for every
requested core: the interpreter for Interpreter; otherwise the backend created
for the requested core when there is one; otherwise the backend created for
`DefaultCPUCore()`, which is always among `AvailableCPUCores()`. -/
theorem InitializeCPUCore_backend (k : Backends) (hint : k.s_interpreter ≠ nullptr)
    (hdef : k.InitJitCore (DefaultCPUCore k.arch) ≠ nullptr) (c : CPUCore)
    (m : CoreSelection) :
    (InitializeCPUCore k c m).s_cpu_core_base ≠ nullptr ∧
    (c = .Interpreter → (InitializeCPUCore k c m).s_cpu_core_base = k.s_interpreter) ∧
    (c ≠ .Interpreter → k.InitJitCore c ≠ nullptr →
      (InitializeCPUCore k c m).s_cpu_core_base = k.InitJitCore c) ∧
    (c ≠ .Interpreter → k.InitJitCore c = nullptr →
      (InitializeCPUCore k c m).s_cpu_core_base = k.InitJitCore (DefaultCPUCore k.arch)) ∧
    DefaultCPUCore k.arch ∈ AvailableCPUCores k.arch ∧
    DefaultCPUCore k.arch ≠ .Interpreter := by
  have hbase : ∀ c', c' ≠ CPUCore.Interpreter → (InitializeCPUCore k c' m).s_cpu_core_base =
      if k.InitJitCore c' = nullptr then k.InitJitCore (DefaultCPUCore k.arch)
      else k.InitJitCore c' := by
    intro c' hc'
    cases c' with
    | Interpreter => exact absurd rfl hc'
    | JIT64 | JITARM64 | CachedInterpreter | Other v =>
      simp only [InitializeCPUCore]
      split_ifs <;> rfl
  refine ⟨?_, ?_, ?_, ?_, default_core_available k.arch⟩
  · by_cases hc : c = .Interpreter
    · subst hc
      exact hint
    · rw [hbase c hc]
      split_ifs with h
      · exact hdef
      · exact h
  · intro hc
    subst hc
    rfl
  · intro hc hav
    rw [hbase c hc, if_neg hav]
  · intro hc hun
    rw [hbase c hc, if_pos hun]

theorem InitializeCPUCore_backend_witness :
    (InitializeCPUCore desktopBackends .JITARM64 staticSelection).s_cpu_core_base = 0x2000 ∧
    (InitializeCPUCore desktopBackends .CachedInterpreter staticSelection).s_cpu_core_base
      = 0x3000 ∧
    (InitializeCPUCore desktopBackends .Interpreter staticSelection).s_cpu_core_base = 0x1000 :=
  ⟨(InitializeCPUCore_backend desktopBackends (by decide) (by decide) .JITARM64
      staticSelection).2.2.2.1 (by decide) rfl,
    (InitializeCPUCore_backend desktopBackends (by decide) (by decide) .CachedInterpreter
      staticSelection).2.2.1 (by decide) (by decide),
    (InitializeCPUCore_backend desktopBackends (by decide) (by decide) .Interpreter
      staticSelection).2.1 rfl⟩

theorem SetMode_injected (k : Backends) (md : CoreMode) (m : CoreSelection)
    (hinj : m.s_cpu_core_base_is_injected = true) :
    SetMode k md m = { m with s_mode := md } := by
  unfold SetMode
  by_cases h : md = m.s_mode
  · rw [if_pos h, h]
  · rw [if_neg h]
    simp only [hinj, if_true]

theorem runCalls_SetMode_injected (k : Backends) (modes : List CoreMode) (m : CoreSelection)
    (hinj : m.s_cpu_core_base_is_injected = true) :
    runCalls k (modes.map .SetMode) m
      = { m with s_mode := requestedMode m.s_mode (modes.map .SetMode) } := by
  induction modes generalizing m with
  | nil => rfl
  | cons md rest ih =>
    show runCalls k (rest.map .SetMode) (SetMode k md m) = _
    rw [SetMode_injected k md m hinj, ih { m with s_mode := md } hinj]
    rfl

/-- Claim C20: after `InjectExternalCPUCore(x)` with `x` non-null, `SetMode`
calls change only the recorded mode and leave `x` active; removing the
override with `InjectExternalCPUCore(nullptr)` clears the flag and installs the
backend the recorded mode dictates at that time.  With no override installed
`InjectExternalCPUCore(nullptr)` changes nothing. -/
theorem InjectExternalCPUCore_removal (k : Backends) (m : CoreSelection) (x : Nat)
    (hx : x ≠ nullptr) (modes : List CoreMode) :
    (runCalls k (modes.map .SetMode) (InjectExternalCPUCore k x m)).s_cpu_core_base = x ∧
    (runCalls k (modes.map .SetMode) (InjectExternalCPUCore k x m)).s_cpu_core_base_is_injected
      = true ∧
    (runCalls k (modes.map .SetMode) (InjectExternalCPUCore k x m)).s_mode
      = requestedMode m.s_mode (modes.map .SetMode) ∧
    (InjectExternalCPUCore k nullptr
      (runCalls k (modes.map .SetMode) (InjectExternalCPUCore k x m))).s_cpu_core_base_is_injected
      = false ∧
    (InjectExternalCPUCore k nullptr
      (runCalls k (modes.map .SetMode) (InjectExternalCPUCore k x m))).s_mode
      = requestedMode m.s_mode (modes.map .SetMode) ∧
    (InjectExternalCPUCore k nullptr
      (runCalls k (modes.map .SetMode) (InjectExternalCPUCore k x m))).s_cpu_core_base
      = dictatedBackend k (requestedMode m.s_mode (modes.map .SetMode)) ∧
    (∀ a : CoreSelection, a.s_cpu_core_base_is_injected = true →
      InjectExternalCPUCore k nullptr a
        = { a with s_cpu_core_base_is_injected := false,
                   s_cpu_core_base := dictatedBackend k a.s_mode }) ∧
    (m.s_cpu_core_base_is_injected = false → InjectExternalCPUCore k nullptr m = m) := by
  have hinst : InjectExternalCPUCore k x m
      = { m with s_cpu_core_base := x, s_cpu_core_base_is_injected := true } := by
    unfold InjectExternalCPUCore
    rw [if_neg hx]
  have hrun := runCalls_SetMode_injected k modes
    { m with s_cpu_core_base := x, s_cpu_core_base_is_injected := true } rfl
  rw [hinst, hrun]
  have hrem : InjectExternalCPUCore k nullptr
      { s_cpu_core_base := x, s_cpu_core_base_is_injected := true,
        s_mode := requestedMode m.s_mode (modes.map .SetMode) }
      = { s_cpu_core_base := dictatedBackend k (requestedMode m.s_mode (modes.map .SetMode)),
          s_cpu_core_base_is_injected := false,
          s_mode := requestedMode m.s_mode (modes.map .SetMode) } := by
    unfold InjectExternalCPUCore
    rw [if_pos rfl]
    simp only [if_true]
    rw [ApplyMode_eq]
  refine ⟨rfl, rfl, rfl, ?_, ?_, ?_, ?_, ?_⟩
  · exact congrArg CoreSelection.s_cpu_core_base_is_injected hrem
  · exact congrArg CoreSelection.s_mode hrem
  · exact congrArg CoreSelection.s_cpu_core_base hrem
  · intro a ha
    unfold InjectExternalCPUCore
    rw [if_pos rfl]
    simp only [ha, if_true]
    rw [ApplyMode_eq]
  · intro hno
    unfold InjectExternalCPUCore
    rw [if_pos rfl]
    simp only [hno, Bool.false_eq_true, if_false]

theorem InjectExternalCPUCore_removal_witness :
    (runCalls desktopBackends ([CoreMode.Interpreter, .JIT].map .SetMode)
      (InjectExternalCPUCore desktopBackends 0x5000
        (InitializeCPUCore desktopBackends .Interpreter staticSelection))).s_cpu_core_base
      = 0x5000 ∧
    (InjectExternalCPUCore desktopBackends nullptr
      (runCalls desktopBackends ([CoreMode.Interpreter, .JIT].map .SetMode)
        (InjectExternalCPUCore desktopBackends 0x5000
          (InitializeCPUCore desktopBackends .Interpreter staticSelection)))).s_cpu_core_base
      = 0x2000 :=
  have h := InjectExternalCPUCore_removal desktopBackends
    (InitializeCPUCore desktopBackends .Interpreter staticSelection) 0x5000 (by decide)
    [CoreMode.Interpreter, .JIT]
  ⟨h.1, h.2.2.2.2.2.1.trans (by decide)⟩

/-! ## Performance monitor -/

theorem UpdatePerformanceMonitor_eq_steps (g : Gekko) (f : MonitorControl)
    (cycles num_load_stores num_fp_inst : Nat) (s : PowerPCState) :
    UpdatePerformanceMonitor g f cycles num_load_stores num_fp_inst s
      = raiseMonitorInterrupt g f (updateCounters g f cycles num_load_stores num_fp_inst s) :=
  rfl

theorem setSpr_self (i : Nat) (s : PowerPCState) : setSpr i (s.spr i) s = s := by
  unfold setSpr
  rw [Function.update_eq_self]

theorem updatePMC1_eq (g : Gekko) (f : MonitorControl) (cycles : Nat) (s : PowerPCState) :
    updatePMC1 g f cycles s =
      setSpr g.SPR_PMC1 (if f.PMC1SELECT (s.spr g.SPR_MMCR0) = 1 then
        (s.spr g.SPR_PMC1 + cycles) % 2 ^ 32 else s.spr g.SPR_PMC1) s := by
  unfold updatePMC1
  split
  · rename_i h; rw [if_neg (by rw [h]; decide), setSpr_self]
  · rename_i h; rw [if_pos h]
  · rename_i h0 h1; rw [if_neg h1, setSpr_self]

theorem updatePMC2_eq (g : Gekko) (f : MonitorControl) (cycles num_load_stores : Nat)
    (s : PowerPCState) :
    updatePMC2 g f cycles num_load_stores s =
      setSpr g.SPR_PMC2 (if f.PMC2SELECT (s.spr g.SPR_MMCR0) = 1 then
          (s.spr g.SPR_PMC2 + cycles) % 2 ^ 32
        else if f.PMC2SELECT (s.spr g.SPR_MMCR0) = 11 then
          (s.spr g.SPR_PMC2 + num_load_stores) % 2 ^ 32
        else s.spr g.SPR_PMC2) s := by
  unfold updatePMC2
  split
  · rename_i h; rw [if_neg (by rw [h]; decide), if_neg (by rw [h]; decide), setSpr_self]
  · rename_i h; rw [if_pos h]
  · rename_i h; rw [if_neg (by rw [h]; decide), if_pos h]
  · rename_i h0 h1 h11; rw [if_neg h1, if_neg h11, setSpr_self]

theorem updatePMC3_eq (g : Gekko) (f : MonitorControl) (cycles num_fp_inst : Nat)
    (s : PowerPCState) :
    updatePMC3 g f cycles num_fp_inst s =
      setSpr g.SPR_PMC3 (if f.PMC3SELECT (s.spr g.SPR_MMCR1) = 1 then
          (s.spr g.SPR_PMC3 + cycles) % 2 ^ 32
        else if f.PMC3SELECT (s.spr g.SPR_MMCR1) = 11 then
          (s.spr g.SPR_PMC3 + num_fp_inst) % 2 ^ 32
        else s.spr g.SPR_PMC3) s := by
  unfold updatePMC3
  split
  · rename_i h; rw [if_neg (by rw [h]; decide), if_neg (by rw [h]; decide), setSpr_self]
  · rename_i h; rw [if_pos h]
  · rename_i h; rw [if_neg (by rw [h]; decide), if_pos h]
  · rename_i h0 h1 h11; rw [if_neg h1, if_neg h11, setSpr_self]

theorem updatePMC4_eq (g : Gekko) (f : MonitorControl) (cycles : Nat) (s : PowerPCState) :
    updatePMC4 g f cycles s =
      setSpr g.SPR_PMC4 (if f.PMC4SELECT (s.spr g.SPR_MMCR1) = 1 then
        (s.spr g.SPR_PMC4 + cycles) % 2 ^ 32 else s.spr g.SPR_PMC4) s := by
  unfold updatePMC4
  split
  · rename_i h; rw [if_neg (by rw [h]; decide), setSpr_self]
  · rename_i h; rw [if_pos h]
  · rename_i h0 h1; rw [if_neg h1, setSpr_self]

theorem monitorIndices_ne (g : Gekko) (hg : g.DistinctMonitorIndices) :
    (g.SPR_PMC1 ≠ g.SPR_PMC2 ∧ g.SPR_PMC1 ≠ g.SPR_PMC3 ∧ g.SPR_PMC1 ≠ g.SPR_PMC4 ∧
      g.SPR_PMC1 ≠ g.SPR_MMCR0 ∧ g.SPR_PMC1 ≠ g.SPR_MMCR1) ∧
    (g.SPR_PMC2 ≠ g.SPR_PMC3 ∧ g.SPR_PMC2 ≠ g.SPR_PMC4 ∧ g.SPR_PMC2 ≠ g.SPR_MMCR0 ∧
      g.SPR_PMC2 ≠ g.SPR_MMCR1) ∧
    (g.SPR_PMC3 ≠ g.SPR_PMC4 ∧ g.SPR_PMC3 ≠ g.SPR_MMCR0 ∧ g.SPR_PMC3 ≠ g.SPR_MMCR1) ∧
    (g.SPR_PMC4 ≠ g.SPR_MMCR0 ∧ g.SPR_PMC4 ≠ g.SPR_MMCR1) ∧ g.SPR_MMCR0 ≠ g.SPR_MMCR1 := by
  unfold Gekko.DistinctMonitorIndices at hg
  simp only [List.nodup_cons, List.mem_cons, List.mem_singleton, not_or, List.not_mem_nil,
    not_false_eq_true, List.nodup_nil, and_true] at hg
  exact hg

theorem updateCounters_eq (g : Gekko) (hg : g.DistinctMonitorIndices) (f : MonitorControl)
    (cycles num_load_stores num_fp_inst : Nat) (s : PowerPCState) :
    updateCounters g f cycles num_load_stores num_fp_inst s =
      { s with spr :=
          (Function.update (Function.update (Function.update (Function.update s.spr
            g.SPR_PMC1 (counterAfter g f cycles num_load_stores num_fp_inst s Counter.PMC1))
            g.SPR_PMC2 (counterAfter g f cycles num_load_stores num_fp_inst s Counter.PMC2))
            g.SPR_PMC3 (counterAfter g f cycles num_load_stores num_fp_inst s Counter.PMC3))
            g.SPR_PMC4 (counterAfter g f cycles num_load_stores num_fp_inst s Counter.PMC4)) } := by
  obtain ⟨⟨a2, a3, a4, a5, a6⟩, ⟨b3, b4, b5, b6⟩, ⟨c4, c5, c6⟩, ⟨d5, d6⟩, _⟩ :=
    monitorIndices_ne g hg
  unfold updateCounters
  rw [updatePMC1_eq, updatePMC2_eq, updatePMC3_eq, updatePMC4_eq]
  simp only [setSpr, counterAfter]
  simp only [Function.update_noteq a5.symm, Function.update_noteq a2.symm,
    Function.update_noteq b6.symm, Function.update_noteq a6.symm,
    Function.update_noteq b3.symm, Function.update_noteq a3.symm,
    Function.update_noteq c6.symm, Function.update_noteq c4.symm,
    Function.update_noteq b4.symm, Function.update_noteq a4.symm]


theorem top_bit_test (x : Nat) : x &&& 0x80000000 ≠ 0 ↔ x.testBit 31 = true := by
  have h : (0x80000000 : Nat) = 2 ^ 31 := by norm_num
  rw [h]
  exact and_two_pow_ne_zero x 31

theorem monitorInterruptDue_iff (g : Gekko) (f : MonitorControl) (s : PowerPCState) :
    ((f.PMC1INTCONTROL (s.spr g.SPR_MMCR0) = true ∧ s.spr g.SPR_PMC1 &&& 0x80000000 ≠ 0) ∨
      (f.PMCINTCONTROL (s.spr g.SPR_MMCR0) = true ∧ s.spr g.SPR_PMC2 &&& 0x80000000 ≠ 0) ∨
      (f.PMCINTCONTROL (s.spr g.SPR_MMCR0) = true ∧ s.spr g.SPR_PMC3 &&& 0x80000000 ≠ 0) ∨
      (f.PMCINTCONTROL (s.spr g.SPR_MMCR0) = true ∧ s.spr g.SPR_PMC4 &&& 0x80000000 ≠ 0))
    ↔ monitorInterruptDue g f s = true := by
  rw [top_bit_test, top_bit_test, top_bit_test, top_bit_test]
  unfold monitorInterruptDue
  generalize f.PMC1INTCONTROL (s.spr g.SPR_MMCR0) = e1
  generalize f.PMCINTCONTROL (s.spr g.SPR_MMCR0) = e
  generalize (s.spr g.SPR_PMC1).testBit 31 = b1
  generalize (s.spr g.SPR_PMC2).testBit 31 = b2
  generalize (s.spr g.SPR_PMC3).testBit 31 = b3
  generalize (s.spr g.SPR_PMC4).testBit 31 = b4
  cases e1 <;> cases e <;> cases b1 <;> cases b2 <;> cases b3 <;> cases b4 <;> decide

theorem raiseMonitorInterrupt_eq (g : Gekko) (f : MonitorControl) (s : PowerPCState) :
    raiseMonitorInterrupt g f s =
      { s with Exceptions :=
          if monitorInterruptDue g f s then s.Exceptions ||| g.EXCEPTION_PERFORMANCE_MONITOR
          else s.Exceptions } := by
  unfold raiseMonitorInterrupt
  by_cases h : monitorInterruptDue g f s = true
  · rw [if_pos ((monitorInterruptDue_iff g f s).mpr h), if_pos h]
  · rw [if_neg (fun hc => h ((monitorInterruptDue_iff g f s).mp hc)), if_neg h]

theorem updateCounters_frame (g : Gekko) (f : MonitorControl)
    (cycles num_load_stores num_fp_inst : Nat) (s : PowerPCState) :
    ∃ σ, updateCounters g f cycles num_load_stores num_fp_inst s = { s with spr := σ } := by
  unfold updateCounters
  rw [updatePMC1_eq, updatePMC2_eq, updatePMC3_eq, updatePMC4_eq]
  exact ⟨_, rfl⟩

/-- Claim C21: `UpdatePerformanceMonitor` updates each counter by its own
selector with 32-bit wrap-around: PMC1 and PMC4 add `cycles` when their
selector is 1; PMC2 adds `cycles` for selector 1 and `num_load_stores` for 11;
PMC3 adds `cycles` for selector 1 and `num_fp_inst` for 11; any other selector
leaves the counter unchanged.  No register other than PMC1..PMC4 and no field
other than `spr` and `Exceptions` is modified. -/
theorem UpdatePerformanceMonitor_counters (g : Gekko) (hg : g.DistinctMonitorIndices)
    (f : MonitorControl) (cycles num_load_stores num_fp_inst : Nat) (s : PowerPCState) :
    (UpdatePerformanceMonitor g f cycles num_load_stores num_fp_inst s).spr g.SPR_PMC1
      = (if f.PMC1SELECT (s.spr g.SPR_MMCR0) = 1 then (s.spr g.SPR_PMC1 + cycles) % 2 ^ 32
        else s.spr g.SPR_PMC1) ∧
    (UpdatePerformanceMonitor g f cycles num_load_stores num_fp_inst s).spr g.SPR_PMC2
      = (if f.PMC2SELECT (s.spr g.SPR_MMCR0) = 1 then (s.spr g.SPR_PMC2 + cycles) % 2 ^ 32
        else if f.PMC2SELECT (s.spr g.SPR_MMCR0) = 11 then
          (s.spr g.SPR_PMC2 + num_load_stores) % 2 ^ 32
        else s.spr g.SPR_PMC2) ∧
    (UpdatePerformanceMonitor g f cycles num_load_stores num_fp_inst s).spr g.SPR_PMC3
      = (if f.PMC3SELECT (s.spr g.SPR_MMCR1) = 1 then (s.spr g.SPR_PMC3 + cycles) % 2 ^ 32
        else if f.PMC3SELECT (s.spr g.SPR_MMCR1) = 11 then
          (s.spr g.SPR_PMC3 + num_fp_inst) % 2 ^ 32
        else s.spr g.SPR_PMC3) ∧
    (UpdatePerformanceMonitor g f cycles num_load_stores num_fp_inst s).spr g.SPR_PMC4
      = (if f.PMC4SELECT (s.spr g.SPR_MMCR1) = 1 then (s.spr g.SPR_PMC4 + cycles) % 2 ^ 32
        else s.spr g.SPR_PMC4) ∧
    (∀ i, i ∉ [g.SPR_PMC1, g.SPR_PMC2, g.SPR_PMC3, g.SPR_PMC4] →
      (UpdatePerformanceMonitor g f cycles num_load_stores num_fp_inst s).spr i = s.spr i) ∧
    ({ UpdatePerformanceMonitor g f cycles num_load_stores num_fp_inst s with
        spr := s.spr, Exceptions := s.Exceptions } : PowerPCState) = s := by
  obtain ⟨⟨a2, a3, a4, _, _⟩, ⟨b3, b4, _, _⟩, ⟨c4, _, _⟩, _, _⟩ := monitorIndices_ne g hg
  have hspr : (UpdatePerformanceMonitor g f cycles num_load_stores num_fp_inst s).spr
      = (updateCounters g f cycles num_load_stores num_fp_inst s).spr := by
    rw [UpdatePerformanceMonitor_eq_steps, raiseMonitorInterrupt_eq]
  rw [hspr, updateCounters_eq g hg]
  refine ⟨?_, ?_, ?_, ?_, ?_, ?_⟩
  · show Function.update _ _ _ _ = _
    rw [Function.update_noteq a4, Function.update_noteq a3, Function.update_noteq a2,
      Function.update_same]
    rfl
  · show Function.update _ _ _ _ = _
    rw [Function.update_noteq b4, Function.update_noteq b3, Function.update_same]
    rfl
  · show Function.update _ _ _ _ = _
    rw [Function.update_noteq c4, Function.update_same]
    rfl
  · show Function.update _ _ _ _ = _
    rw [Function.update_same]
    rfl
  · intro i hi
    simp only [List.mem_cons, List.mem_singleton, List.not_mem_nil, or_false, not_or] at hi
    obtain ⟨h1, h2, h3, h4⟩ := hi
    show Function.update _ _ _ _ = _
    rw [Function.update_noteq h4, Function.update_noteq h3, Function.update_noteq h2,
      Function.update_noteq h1]
  · rw [UpdatePerformanceMonitor_eq_steps, raiseMonitorInterrupt_eq]
    obtain ⟨σ, hσ⟩ := updateCounters_frame g f cycles num_load_stores num_fp_inst s
    rw [hσ]

theorem UpdatePerformanceMonitor_exceptions (g : Gekko) (f : MonitorControl)
    (cycles num_load_stores num_fp_inst : Nat) (s : PowerPCState) :
    (UpdatePerformanceMonitor g f cycles num_load_stores num_fp_inst s).Exceptions
      = (if monitorInterruptDue g f
            (UpdatePerformanceMonitor g f cycles num_load_stores num_fp_inst s) then
          s.Exceptions ||| g.EXCEPTION_PERFORMANCE_MONITOR
        else s.Exceptions) := by
  have hexc : (updateCounters g f cycles num_load_stores num_fp_inst s).Exceptions
      = s.Exceptions := by
    obtain ⟨σ, hσ⟩ := updateCounters_frame g f cycles num_load_stores num_fp_inst s
    rw [hσ]
  have hdue : monitorInterruptDue g f
      (UpdatePerformanceMonitor g f cycles num_load_stores num_fp_inst s)
      = monitorInterruptDue g f (updateCounters g f cycles num_load_stores num_fp_inst s) := by
    rw [UpdatePerformanceMonitor_eq_steps, raiseMonitorInterrupt_eq]
    rfl
  rw [hdue, UpdatePerformanceMonitor_eq_steps, raiseMonitorInterrupt_eq]
  show (if _ then _ else _) = _
  rw [hexc]

/-- Claim C22: after the counters are updated the cause mask becomes the old
mask OR-ed with `EXCEPTION_PERFORMANCE_MONITOR` exactly when (PMC1INTCONTROL is
set and bit 31 of PMC1 is set) or (PMCINTCONTROL is set and bit 31 of PMC2,
PMC3 or PMC4 is set); otherwise it is unchanged, and no cause bit is ever
cleared. -/
theorem UpdatePerformanceMonitor_raises_cause (g : Gekko) (f : MonitorControl)
    (cycles num_load_stores num_fp_inst : Nat) (s : PowerPCState) :
    (UpdatePerformanceMonitor g f cycles num_load_stores num_fp_inst s).Exceptions
      = (if monitorInterruptDue g f
            (UpdatePerformanceMonitor g f cycles num_load_stores num_fp_inst s) then
          s.Exceptions ||| g.EXCEPTION_PERFORMANCE_MONITOR
        else s.Exceptions) ∧
    ∀ j, s.Exceptions.testBit j = true →
      (UpdatePerformanceMonitor g f cycles num_load_stores num_fp_inst s).Exceptions.testBit j
        = true := by
  have hval := UpdatePerformanceMonitor_exceptions g f cycles num_load_stores num_fp_inst s
  refine ⟨hval, ?_⟩
  intro j hj
  rw [hval]
  split
  · rw [Nat.testBit_or, hj]
    rfl
  · exact hj

theorem runMonitor_append (g : Gekko) (f : MonitorControl) (p : List MonitorCall)
    (c : MonitorCall) (s : PowerPCState) :
    runMonitor g f (p ++ [c]) s
      = UpdatePerformanceMonitor g f c.cycles c.num_load_stores c.num_fp_inst
          (runMonitor g f p s) := by
  unfold runMonitor
  rw [List.foldl_append]
  rfl

theorem UpdatePerformanceMonitor_spr (g : Gekko) (hg : g.DistinctMonitorIndices)
    (f : MonitorControl) (cycles num_load_stores num_fp_inst : Nat) (s : PowerPCState) :
    (UpdatePerformanceMonitor g f cycles num_load_stores num_fp_inst s).spr =
      Function.update (Function.update (Function.update (Function.update s.spr
        g.SPR_PMC1 (counterAfter g f cycles num_load_stores num_fp_inst s Counter.PMC1))
        g.SPR_PMC2 (counterAfter g f cycles num_load_stores num_fp_inst s Counter.PMC2))
        g.SPR_PMC3 (counterAfter g f cycles num_load_stores num_fp_inst s Counter.PMC3))
        g.SPR_PMC4 (counterAfter g f cycles num_load_stores num_fp_inst s Counter.PMC4) := by
  rw [UpdatePerformanceMonitor_eq_steps, raiseMonitorInterrupt_eq]
  show (updateCounters g f cycles num_load_stores num_fp_inst s).spr = _
  rw [updateCounters_eq g hg]

theorem UpdatePerformanceMonitor_control (g : Gekko) (hg : g.DistinctMonitorIndices)
    (f : MonitorControl) (cycles num_load_stores num_fp_inst : Nat) (s : PowerPCState) :
    (UpdatePerformanceMonitor g f cycles num_load_stores num_fp_inst s).spr g.SPR_MMCR0
      = s.spr g.SPR_MMCR0 ∧
    (UpdatePerformanceMonitor g f cycles num_load_stores num_fp_inst s).spr g.SPR_MMCR1
      = s.spr g.SPR_MMCR1 := by
  obtain ⟨⟨_, _, _, a5, a6⟩, ⟨_, _, b5, b6⟩, ⟨_, c5, c6⟩, ⟨d5, d6⟩, _⟩ := monitorIndices_ne g hg
  rw [UpdatePerformanceMonitor_spr g hg]
  constructor
  · rw [Function.update_noteq d5.symm, Function.update_noteq c5.symm,
      Function.update_noteq b5.symm, Function.update_noteq a5.symm]
  · rw [Function.update_noteq d6.symm, Function.update_noteq c6.symm,
      Function.update_noteq b6.symm, Function.update_noteq a6.symm]

theorem UpdatePerformanceMonitor_counter (g : Gekko) (hg : g.DistinctMonitorIndices)
    (f : MonitorControl) (cycles num_load_stores num_fp_inst : Nat) (s : PowerPCState)
    (n : Counter) :
    (UpdatePerformanceMonitor g f cycles num_load_stores num_fp_inst s).spr (g.counterIndex n)
      = counterAfter g f cycles num_load_stores num_fp_inst s n := by
  obtain ⟨⟨a2, a3, a4, _, _⟩, ⟨b3, b4, _, _⟩, ⟨c4, _, _⟩, _, _⟩ := monitorIndices_ne g hg
  rw [UpdatePerformanceMonitor_spr g hg]
  cases n
  · show Function.update _ _ _ g.SPR_PMC1 = _
    rw [Function.update_noteq a4, Function.update_noteq a3, Function.update_noteq a2,
      Function.update_same]
  · show Function.update _ _ _ g.SPR_PMC2 = _
    rw [Function.update_noteq b4, Function.update_noteq b3, Function.update_same]
  · show Function.update _ _ _ g.SPR_PMC3 = _
    rw [Function.update_noteq c4, Function.update_same]
  · show Function.update _ _ _ g.SPR_PMC4 = _
    rw [Function.update_same]

theorem UpdatePerformanceMonitor_cycle_counter (g : Gekko) (hg : g.DistinctMonitorIndices)
    (f : MonitorControl) (n : Counter) (cycles num_load_stores num_fp_inst : Nat)
    (s : PowerPCState) (hsel : counterSelect g f s n = 1) :
    (UpdatePerformanceMonitor g f cycles num_load_stores num_fp_inst s).spr (g.counterIndex n)
      = (s.spr (g.counterIndex n) + cycles) % 2 ^ 32 ∧
    counterSelect g f (UpdatePerformanceMonitor g f cycles num_load_stores num_fp_inst s) n = 1 ∧
    counterInterruptEnabled g f
        (UpdatePerformanceMonitor g f cycles num_load_stores num_fp_inst s) n
      = counterInterruptEnabled g f s n := by
  obtain ⟨c0, c1⟩ :=
    UpdatePerformanceMonitor_control g hg f cycles num_load_stores num_fp_inst s
  refine ⟨?_, ?_, ?_⟩
  · rw [UpdatePerformanceMonitor_counter g hg]
    cases n <;> simp only [counterSelect] at hsel <;> simp only [counterAfter, Gekko.counterIndex] <;>
      rw [if_pos hsel]
  · cases n <;> simp only [counterSelect] at hsel ⊢ <;> first | (rw [c0]; exact hsel) | (rw [c1]; exact hsel)
  · cases n <;> simp only [counterInterruptEnabled] <;> rw [c0]

theorem totalCycles_append (p : List MonitorCall) (c : MonitorCall) :
    totalCycles (p ++ [c]) = totalCycles p + c.cycles := by
  unfold totalCycles
  simp

theorem runMonitor_cycle_counter (g : Gekko) (hg : g.DistinctMonitorIndices)
    (f : MonitorControl) (n : Counter) (s : PowerPCState)
    (hsel : counterSelect g f s n = 1) (hv : s.spr (g.counterIndex n) < 2 ^ 32)
    (calls : List MonitorCall) :
    (runMonitor g f calls s).spr (g.counterIndex n)
      = (s.spr (g.counterIndex n) + totalCycles calls) % 2 ^ 32 ∧
    counterSelect g f (runMonitor g f calls s) n = 1 ∧
    counterInterruptEnabled g f (runMonitor g f calls s) n
      = counterInterruptEnabled g f s n := by
  induction calls using List.reverseRecOn with
  | nil =>
    refine ⟨?_, hsel, rfl⟩
    show s.spr (g.counterIndex n) = (s.spr (g.counterIndex n) + 0) % 2 ^ 32
    rw [Nat.add_zero, Nat.mod_eq_of_lt hv]
  | append_singleton p c ih =>
    obtain ⟨i1, i2, i3⟩ := ih
    obtain ⟨k1, k2, k3⟩ := UpdatePerformanceMonitor_cycle_counter g hg f n c.cycles
      c.num_load_stores c.num_fp_inst (runMonitor g f p s) i2
    rw [runMonitor_append]
    refine ⟨?_, k2, k3.trans i3⟩
    rw [k1, i1, totalCycles_append, Nat.mod_add_mod, Nat.add_assoc]


theorem testBit_31_of_ge (x : Nat) (h1 : 0x80000000 ≤ x) (h2 : x < 2 ^ 32) :
    x.testBit 31 = true := by
  by_contra hb
  have hf : x.testBit 31 = false := by
    cases h : x.testBit 31
    · rfl
    · exact absurd h hb
  have hlt : x < 2 ^ 31 := by
    apply Nat.lt_pow_two_of_testBit
    intro i hi
    by_cases h31 : i = 31
    · rw [h31]; exact hf
    · apply Nat.testBit_lt_two_pow
      exact lt_of_lt_of_le h2 (Nat.pow_le_pow_right (by norm_num) (by omega))
  have : (2 : Nat) ^ 31 = 0x80000000 := by norm_num
  omega

theorem testBit_31_of_lt (x : Nat) (h : x < 0x80000000) : x.testBit 31 = false := by
  apply Nat.testBit_lt_two_pow
  have : (2 : Nat) ^ 31 = 0x80000000 := by norm_num
  omega

theorem monitorInterruptDue_false (g : Gekko) (f : MonitorControl) (t : PowerPCState)
    (h : ∀ m, t.spr (g.counterIndex m) < 0x80000000) : monitorInterruptDue g f t = false := by
  unfold monitorInterruptDue
  have h1 : (t.spr g.SPR_PMC1).testBit 31 = false := testBit_31_of_lt _ (h .PMC1)
  have h2 : (t.spr g.SPR_PMC2).testBit 31 = false := testBit_31_of_lt _ (h .PMC2)
  have h3 : (t.spr g.SPR_PMC3).testBit 31 = false := testBit_31_of_lt _ (h .PMC3)
  have h4 : (t.spr g.SPR_PMC4).testBit 31 = false := testBit_31_of_lt _ (h .PMC4)
  rw [h1, h2, h3, h4]
  simp

theorem monitorInterruptDue_true (g : Gekko) (f : MonitorControl) (t : PowerPCState)
    (n : Counter) (hen : counterInterruptEnabled g f t n = true)
    (hb : (t.spr (g.counterIndex n)).testBit 31 = true) : monitorInterruptDue g f t = true := by
  unfold monitorInterruptDue
  cases n <;> simp only [counterInterruptEnabled, Gekko.counterIndex] at hen hb <;>
    rw [hen, hb] <;> simp

theorem or_and_self_ne_zero (e p : Nat) (hp : p ≠ 0) : (e ||| p) &&& p ≠ 0 := by
  obtain ⟨i, hi⟩ := Nat.ne_zero_implies_bit_true hp
  intro h0
  have : ((e ||| p) &&& p).testBit i = true := by
    rw [Nat.testBit_and, Nat.testBit_or, hi]
    simp
  rw [h0, Nat.zero_testBit] at this
  exact absurd this (by decide)

/-- Claim C23: a counter that accumulates cycles with its interrupt enable
set, pre-loaded with 0x7FFFFFFF, the cause flag clear and no other counter's
top bit set: every call that leaves the counter below 0x80000000 leaves the
flag clear, and the call that takes the counter to 0x80000000 or above raises
it. -/
theorem monitor_cause_raised_on_crossing (g : Gekko) (hg : g.DistinctMonitorIndices)
    (hpm : g.EXCEPTION_PERFORMANCE_MONITOR ≠ 0) (f : MonitorControl) (n : Counter)
    (s : PowerPCState) (before : List MonitorCall) (last : MonitorCall)
    (hsel : counterSelect g f s n = 1) (hen : counterInterruptEnabled g f s n = true)
    (hload : s.spr (g.counterIndex n) = 0x7FFFFFFF)
    (hclear : s.Exceptions &&& g.EXCEPTION_PERFORMANCE_MONITOR = 0)
    (hothers : ∀ p q, before ++ [last] = p ++ q → ∀ m, m ≠ n →
      (runMonitor g f p s).spr (g.counterIndex m) < 0x80000000)
    (hbelow : ∀ p q, before = p ++ q → (0x7FFFFFFF + totalCycles p) % 2 ^ 32 < 0x80000000)
    (hcross : 0x80000000 ≤ (0x7FFFFFFF + totalCycles (before ++ [last])) % 2 ^ 32) :
    (∀ p q, before = p ++ q →
      (runMonitor g f p s).Exceptions &&& g.EXCEPTION_PERFORMANCE_MONITOR = 0 ∧
      (runMonitor g f p s).spr (g.counterIndex n) = (0x7FFFFFFF + totalCycles p) % 2 ^ 32) ∧
    (runMonitor g f (before ++ [last]) s).Exceptions &&& g.EXCEPTION_PERFORMANCE_MONITOR ≠ 0 ∧
    (runMonitor g f (before ++ [last]) s).spr (g.counterIndex n)
      = (0x7FFFFFFF + totalCycles (before ++ [last])) % 2 ^ 32 := by
  have hv : s.spr (g.counterIndex n) < 2 ^ 32 := by rw [hload]; norm_num
  have hcount : ∀ calls, (runMonitor g f calls s).spr (g.counterIndex n)
      = (0x7FFFFFFF + totalCycles calls) % 2 ^ 32 := by
    intro calls
    rw [(runMonitor_cycle_counter g hg f n s hsel hv calls).1, hload]
  have hquiet : ∀ p, (∀ p' q', p = p' ++ q' → ∀ m,
      (runMonitor g f p' s).spr (g.counterIndex m) < 0x80000000) →
      (runMonitor g f p s).Exceptions &&& g.EXCEPTION_PERFORMANCE_MONITOR = 0 := by
    intro p
    induction p using List.reverseRecOn with
    | nil => intro _; exact hclear
    | append_singleton p0 c ih =>
      intro hall
      have hprev := ih (fun p' q' hp => hall p' (q' ++ [c]) (by rw [hp, List.append_assoc]))
      have hdue := monitorInterruptDue_false g f (runMonitor g f (p0 ++ [c]) s)
        (hall (p0 ++ [c]) [] (List.append_nil _).symm)
      rw [runMonitor_append] at hdue ⊢
      rw [UpdatePerformanceMonitor_exceptions, hdue]
      exact hprev
  have hall : ∀ p q, before = p ++ q → ∀ m,
      (runMonitor g f p s).spr (g.counterIndex m) < 0x80000000 := by
    intro p q hpq m
    by_cases hm : m = n
    · rw [hm, hcount]
      exact hbelow p q hpq
    · exact hothers p (q ++ [last]) (by rw [hpq, List.append_assoc]) m hm
  refine ⟨?_, ?_, hcount _⟩
  · intro p q hpq
    refine ⟨hquiet p ?_, hcount p⟩
    intro p' q' hp
    exact hall p' (q' ++ q) (by rw [hpq, hp, List.append_assoc])
  · have hbit : ((runMonitor g f (before ++ [last]) s).spr (g.counterIndex n)).testBit 31
        = true := by
      rw [hcount]
      exact testBit_31_of_ge _ hcross (Nat.mod_lt _ (by norm_num))
    have hen' : counterInterruptEnabled g f (runMonitor g f (before ++ [last]) s) n = true := by
      rw [(runMonitor_cycle_counter g hg f n s hsel hv (before ++ [last])).2.2]
      exact hen
    have hdue := monitorInterruptDue_true g f _ n hen' hbit
    rw [runMonitor_append] at hdue ⊢
    rw [UpdatePerformanceMonitor_exceptions, hdue]
    exact or_and_self_ne_zero _ _ hpm

theorem gekko_distinctMonitorIndices : gekko.DistinctMonitorIndices := by
  unfold Gekko.DistinctMonitorIndices
  decide

theorem UpdatePerformanceMonitor_counters_witness :
    (UpdatePerformanceMonitor gekko gekkoMonitor 1 2 3
      (monitorState 0x8040 0 0xFFFFFFFF)).spr gekko.SPR_PMC1 = 0 :=
  (UpdatePerformanceMonitor_counters gekko gekko_distinctMonitorIndices gekkoMonitor 1 2 3
    (monitorState 0x8040 0 0xFFFFFFFF)).1.trans (by decide)

theorem split_singleton {α : Type} (c : α) (p q : List α) (h : [] ++ [c] = p ++ q) :
    p = [] ∨ p = [c] := by
  rcases p with _ | ⟨a, r⟩
  · exact Or.inl rfl
  · right
    simp only [List.nil_append, List.cons_append, List.cons.injEq] at h
    obtain ⟨h1, h2⟩ := h
    have hr : r = [] := (List.append_eq_nil.mp h2.symm).1
    rw [← h1, hr]

theorem monitor_cause_raised_on_crossing_witness :
    (runMonitor gekko gekkoMonitor [] (monitorState 0x8040 0 0x7FFFFFFF)).Exceptions
      &&& gekko.EXCEPTION_PERFORMANCE_MONITOR = 0 ∧
    (runMonitor gekko gekkoMonitor ([] ++ [⟨1, 0, 0⟩])
      (monitorState 0x8040 0 0x7FFFFFFF)).Exceptions
      &&& gekko.EXCEPTION_PERFORMANCE_MONITOR ≠ 0 :=
  have h := monitor_cause_raised_on_crossing gekko gekko_distinctMonitorIndices (by decide)
    gekkoMonitor .PMC1 (monitorState 0x8040 0 0x7FFFFFFF) [] ⟨1, 0, 0⟩ (by decide) (by decide)
    (by decide) (by decide)
    (fun p q hpq m hm => by
      rcases split_singleton _ p q hpq with hp | hp <;> subst hp <;> cases m <;>
        first | exact absurd rfl hm | decide)
    (fun p q hpq => by
      have hp : p = [] := (List.append_eq_nil.mp hpq.symm).1
      subst hp
      decide)
    (by decide)
  ⟨(h.1 [] [] rfl).1, h.2.1⟩

/-! ## Drain invariants -/

theorem CheckExternalExceptions_disabled (g : Gekko) (t : PowerPCState)
    (h : t.msr.EE = false) : CheckExternalExceptions g t = t := by
  unfold CheckExternalExceptions
  rw [if_neg]
  intro hc
  rw [h] at hc
  exact absurd hc.2 (by decide)

theorem enterVector_EE (g : Gekko) (c : ExceptionClass) (v : Nat) (s : PowerPCState) :
    (enterVector g c v s).msr.EE = false := by
  show (((s.msr.Hex &&& not32 1) ||| (s.msr.Hex.testBit 16).toNat) &&& not32 0x04EF36).testBit 15
    = false
  rw [Nat.testBit_and]
  have h : (not32 0x04EF36).testBit 15 = false := by decide
  rw [h, Bool.and_false]

/-- Claim C29: after a `CheckExceptions` call that vectors an exception of any
of the nine classes `MSR.EE` is clear, so an immediately following
`CheckExternalExceptions` leaves the state unchanged, whatever cause flags are
pending at that moment. -/
theorem no_nested_external_interrupt (g : Gekko) (s : PowerPCState) (c : ExceptionClass)
    (v : Nat) (hc : firstPending g s = some c) (hv : vector c = some v) :
    (CheckExceptions g s).msr.EE = false ∧
    CheckExternalExceptions g (CheckExceptions g s) = CheckExceptions g s ∧
    ∀ e, CheckExternalExceptions g { CheckExceptions g s with Exceptions := e }
      = { CheckExceptions g s with Exceptions := e } := by
  have hee : (CheckExceptions g s).msr.EE = false := by
    rw [CheckExceptions_eq_enterVector g s c v hc hv]
    exact enterVector_EE g c v s
  exact ⟨hee, CheckExternalExceptions_disabled g _ hee,
    fun e => CheckExternalExceptions_disabled g _ hee⟩

theorem no_nested_external_interrupt_witness :
    (CheckExceptions gekko (sampleState 0x107 0x8000 0)).msr.EE = false ∧
    (CheckExceptions gekko (sampleState 0x107 0x8000 0)).Exceptions = 0x105 ∧
    CheckExternalExceptions gekko (CheckExceptions gekko (sampleState 0x107 0x8000 0))
      = CheckExceptions gekko (sampleState 0x107 0x8000 0) :=
  have h := no_nested_external_interrupt gekko (sampleState 0x107 0x8000 0) .SYSCALL 0xC00
    (by decide) rfl
  ⟨h.1, by decide, h.2.1⟩

theorem drain_subset (g : Gekko) (s : PowerPCState) (j : Nat)
    (h : (CheckExceptions g s).Exceptions.testBit j = true) : s.Exceptions.testBit j = true := by
  rw [CheckExceptions_eq_drainEffect] at h
  cases hfp : firstPending g s with
  | none => rw [hfp] at h; exact h
  | some c =>
    rw [hfp] at h
    by_cases hf : c = .FAKE_MEMCHECK_HIT
    · subst hf
      have h2 : (s.Exceptions &&& (not32 g.EXCEPTION_DSI &&&
          not32 g.EXCEPTION_FAKE_MEMCHECK_HIT)).testBit j = true := h
      rw [Nat.testBit_and] at h2
      exact (Bool.and_eq_true _ _ ▸ h2).1
    · rw [drainEffect_eq_enterVector g s c hf] at h
      have h2 : (s.Exceptions &&& not32 (g.flag c)).testBit j = true := h
      rw [Nat.testBit_and] at h2
      exact (Bool.and_eq_true _ _ ▸ h2).1

theorem drain_lt (g : Gekko) (s : PowerPCState) (hs : s.Exceptions < 2 ^ 32) :
    (CheckExceptions g s).Exceptions < 2 ^ 32 := by
  apply Nat.lt_pow_two_of_testBit
  intro i hi
  cases h : (CheckExceptions g s).Exceptions.testBit i
  · rfl
  · have h2 := drain_subset g s i h
    have h3 : s.Exceptions.testBit i = false :=
      Nat.testBit_lt_two_pow (lt_of_lt_of_le hs (Nat.pow_le_pow_right (by norm_num) hi))
    rw [h3] at h2
    exact absurd h2 (by decide)

theorem pending_after_drain (g : Gekko) (hg : g.DistinctCauseBits) (s : PowerPCState)
    (hs : s.Exceptions < 2 ^ 32) (c : ExceptionClass) (hc : firstPending g s = some c) :
    pending g (CheckExceptions g s) c = false ∧
    (c = .FAKE_MEMCHECK_HIT → pending g (CheckExceptions g s) .DSI = false) ∧
    ∀ d, d ≠ c → (c = .FAKE_MEMCHECK_HIT → d ≠ .DSI) →
      pending g (CheckExceptions g s) d = pending g s d := by
  rw [CheckExceptions_eq_drainEffect, hc]
  by_cases hf : c = .FAKE_MEMCHECK_HIT
  · subst hf
    refine ⟨?_, fun _ => ?_, fun d hd hdsi => ?_⟩
    · show (_ &&& _ != 0) = false
      have h := fake_clear_self g hg s.Exceptions hs
      simp only [drainEffect, Gekko.flag]
      rw [h]
      rfl
    · show (s.Exceptions &&& (not32 g.EXCEPTION_DSI &&& not32 g.EXCEPTION_FAKE_MEMCHECK_HIT)
        &&& g.EXCEPTION_DSI != 0) = false
      rw [Nat.and_comm (not32 g.EXCEPTION_DSI), ← Nat.and_assoc]
      have h := flag_clear_self g hg .DSI _
        (and_not32_lt s.Exceptions g.EXCEPTION_FAKE_MEMCHECK_HIT hs)
      simp only [Gekko.flag] at h
      rw [h]
      rfl
    · exact fake_clear_other g hg d hd (hdsi rfl) s.Exceptions hs
  · rw [drainEffect_eq_enterVector g s c hf]
    refine ⟨?_, fun h => absurd h hf, fun d hd _ => ?_⟩
    · show (s.Exceptions &&& not32 (g.flag c) &&& g.flag c != 0) = false
      rw [flag_clear_self g hg c _ hs]
      rfl
    · exact flag_clear_other g hg c d hd s.Exceptions hs


theorem pending_mono (g : Gekko) (s : PowerPCState) (d : ExceptionClass)
    (h : pending g (CheckExceptions g s) d = true) : pending g s d = true := by
  unfold pending at h ⊢
  rw [bne_iff_ne] at h ⊢
  obtain ⟨j, hj⟩ := Nat.ne_zero_implies_bit_true h
  rw [Nat.testBit_and, Bool.and_eq_true] at hj
  intro h0
  have h1 : (s.Exceptions &&& g.flag d).testBit j = true := by
    rw [Nat.testBit_and, drain_subset g s j hj.1, hj.2]
    rfl
  rw [h0, Nat.zero_testBit] at h1
  exact absurd h1 (by decide)

theorem pending_toNat_le (g : Gekko) (s : PowerPCState) (d : ExceptionClass) :
    (pending g (CheckExceptions g s) d).toNat ≤ (pending g s d).toNat := by
  cases h : pending g (CheckExceptions g s) d
  · exact Nat.zero_le _
  · rw [pending_mono g s d h]

theorem firstPending_of_synchronous (g : Gekko) (s : PowerPCState) (d : ExceptionClass)
    (hd : d ∈ synchronousOrder) (hp : pending g s d = true) :
    ∃ c, c ∈ synchronousOrder ∧ firstPending g s = some c := by
  cases hfind : synchronousOrder.find? (pending g s) with
  | some c =>
    refine ⟨c, List.mem_of_find?_eq_some hfind, ?_⟩
    unfold firstPending
    rw [hfind]
  | none =>
    have := List.find?_eq_none.mp hfind d hd
    exact absurd hp this

theorem pendingSynchronous_eq (g : Gekko) (s : PowerPCState) :
    pendingSynchronous g s =
      (pending g s .ISI).toNat + (pending g s .PROGRAM).toNat + (pending g s .SYSCALL).toNat +
      (pending g s .FPU_UNAVAILABLE).toNat + (pending g s .FAKE_MEMCHECK_HIT).toNat +
      (pending g s .DSI).toNat + (pending g s .ALIGNMENT).toNat := by
  unfold pendingSynchronous synchronousOrder
  simp only [List.map, List.sum_cons, List.sum_nil]
  omega

theorem pendingSynchronous_drain (g : Gekko) (hg : g.DistinctCauseBits) (s : PowerPCState)
    (hs : s.Exceptions < 2 ^ 32) :
    pendingSynchronous g (CheckExceptions g s) ≤ pendingSynchronous g s - 1 := by
  rw [pendingSynchronous_eq, pendingSynchronous_eq]
  have m1 := pending_toNat_le g s .ISI
  have m2 := pending_toNat_le g s .PROGRAM
  have m3 := pending_toNat_le g s .SYSCALL
  have m4 := pending_toNat_le g s .FPU_UNAVAILABLE
  have m5 := pending_toNat_le g s .FAKE_MEMCHECK_HIT
  have m6 := pending_toNat_le g s .DSI
  have m7 := pending_toNat_le g s .ALIGNMENT
  by_cases hany : ∃ d, d ∈ synchronousOrder ∧ pending g s d = true
  · obtain ⟨d, hd, hp⟩ := hany
    obtain ⟨c, hcm, hc⟩ := firstPending_of_synchronous g s d hd hp
    have hbefore := (firstPending_is_first g s c hc).1
    have hafter := (pending_after_drain g hg s hs c hc).1
    have hstrict : (pending g (CheckExceptions g s) c).toNat + 1 ≤ (pending g s c).toNat := by
      rw [hbefore, hafter]
      decide
    simp only [synchronousOrder, List.mem_cons, List.mem_singleton, List.not_mem_nil,
      or_false] at hcm
    rcases hcm with h | h | h | h | h | h | h <;> subst h <;> omega
  · have z : ∀ d, d ∈ synchronousOrder → (pending g s d).toNat = 0 := by
      intro d hd
      cases h : pending g s d
      · rfl
      · exact absurd ⟨d, hd, h⟩ hany
    have z1 := z .ISI (by decide)
    have z2 := z .PROGRAM (by decide)
    have z3 := z .SYSCALL (by decide)
    have z4 := z .FPU_UNAVAILABLE (by decide)
    have z5 := z .FAKE_MEMCHECK_HIT (by decide)
    have z6 := z .DSI (by decide)
    have z7 := z .ALIGNMENT (by decide)
    omega

theorem pendingSynchronous_le (g : Gekko) (s : PowerPCState) : pendingSynchronous g s ≤ 7 := by
  rw [pendingSynchronous_eq]
  have b : ∀ x : Bool, x.toNat ≤ 1 := fun x => by cases x <;> decide
  have b1 := b (pending g s .ISI)
  have b2 := b (pending g s .PROGRAM)
  have b3 := b (pending g s .SYSCALL)
  have b4 := b (pending g s .FPU_UNAVAILABLE)
  have b5 := b (pending g s .FAKE_MEMCHECK_HIT)
  have b6 := b (pending g s .DSI)
  have b7 := b (pending g s .ALIGNMENT)
  omega

theorem drain_iterate (g : Gekko) (hg : g.DistinctCauseBits) (s : PowerPCState)
    (hs : s.Exceptions < 2 ^ 32) (n : Nat) :
    ((CheckExceptions g)^[n] s).Exceptions < 2 ^ 32 ∧
    pendingSynchronous g ((CheckExceptions g)^[n] s) ≤ 7 - n := by
  induction n with
  | zero => exact ⟨hs, pendingSynchronous_le g s⟩
  | succ k ih =>
    rw [Function.iterate_succ_apply']
    refine ⟨drain_lt g _ ih.1, ?_⟩
    have h := pendingSynchronous_drain g hg _ ih.1
    omega

/-- Claim C30: the drain never raises a cause: every bit of `Exceptions` set
after `CheckExceptions` was set before; when a synchronous flag is pending
some bit that was set is cleared; and after seven or more successive calls no
synchronous flag is pending. -/
theorem drain_never_raises (g : Gekko) (hg : g.DistinctCauseBits) (s : PowerPCState)
    (hs : s.Exceptions < 2 ^ 32) :
    (∀ j, (CheckExceptions g s).Exceptions.testBit j = true → s.Exceptions.testBit j = true) ∧
    ((∃ c, c ∈ synchronousOrder ∧ pending g s c = true) →
      ∃ j, s.Exceptions.testBit j = true ∧ (CheckExceptions g s).Exceptions.testBit j = false) ∧
    (∀ n, 7 ≤ n → ∀ c, c ∈ synchronousOrder →
      pending g ((CheckExceptions g)^[n] s) c = false) := by
  refine ⟨drain_subset g s, ?_, ?_⟩
  · rintro ⟨d, hd, hp⟩
    obtain ⟨c, _, hc⟩ := firstPending_of_synchronous g s d hd hp
    obtain ⟨k, _, hk⟩ := hg.1 c
    have hbefore := (firstPending_is_first g s c hc).1
    have hafter := (pending_after_drain g hg s hs c hc).1
    refine ⟨k, ?_, ?_⟩
    · unfold pending at hbefore
      rw [bne_iff_ne, hk] at hbefore
      exact (and_two_pow_ne_zero _ _).mp hbefore
    · unfold pending at hafter
      rw [hk] at hafter
      cases hb : (CheckExceptions g s).Exceptions.testBit k
      · rfl
      · have := (and_two_pow_ne_zero _ _).mpr hb
        rw [← bne_iff_ne, hafter] at this
        exact absurd this (by decide)
  · intro n hn c hc
    have h := (drain_iterate g hg s hs n).2
    have hz : pendingSynchronous g ((CheckExceptions g)^[n] s) = 0 := by omega
    rw [pendingSynchronous_eq] at hz
    simp only [synchronousOrder, List.mem_cons, List.mem_singleton, List.not_mem_nil,
      or_false] at hc
    have z : ∀ x : Bool, x.toNat = 0 → x = false := fun x => by cases x <;> decide
    rcases hc with h | h | h | h | h | h | h <;> subst h <;> apply z <;> omega

theorem drain_never_raises_witness :
    gekko.DistinctCauseBits ∧ (sampleState 0x3FF 0x8000 0).Exceptions < 2 ^ 32 ∧
    pending gekko ((CheckExceptions gekko)^[7] (sampleState 0x3FF 0x8000 0))
      ExceptionClass.DSI = false ∧
    pending gekko ((CheckExceptions gekko)^[7] (sampleState 0x3FF 0x8000 0))
      ExceptionClass.ALIGNMENT = false :=
  ⟨gekko_distinctCauseBits, by decide,
   (drain_never_raises gekko gekko_distinctCauseBits (sampleState 0x3FF 0x8000 0)
     (by decide)).2.2 7 (le_refl 7) ExceptionClass.DSI (by simp [synchronousOrder]),
   (drain_never_raises gekko gekko_distinctCauseBits (sampleState 0x3FF 0x8000 0)
     (by decide)).2.2 7 (le_refl 7) ExceptionClass.ALIGNMENT (by simp [synchronousOrder])⟩

/-! ## Breakpoints -/

/-- Claim C24: `CheckBreakPoints` does nothing - no callback, no break, no log
line, no removal, the breakpoint set unchanged - when there is no breakpoint at
the current `pc`, or the breakpoint there is disabled, or its condition
evaluates false; so a temporary breakpoint in that situation stays in the set. -/
theorem CheckBreakPoints_no_hit (g : Gekko) (evaluate : Expression → Bool) (gdbActive : Bool)
    (s : PowerPCState) (b : BreakPoints)
    (h : b.GetBreakpoint s.pc = none ∨
      ∃ bp, b.GetBreakpoint s.pc = some bp ∧
        (bp.is_enabled = false ∨ EvaluateCondition evaluate bp.condition = false)) :
    (CheckBreakPoints g evaluate gdbActive s b).1 = [] ∧
    (CheckBreakPoints g evaluate gdbActive s b).2 = b ∧
    (CheckBreakPoints g evaluate gdbActive s b).2.lookup s.pc = b.lookup s.pc := by
  have e : CheckBreakPoints g evaluate gdbActive s b = ([], b) := by
    unfold CheckBreakPoints
    rcases h with h | ⟨bp, hbp, hoff⟩
    · rw [h]
    · rw [hbp]
      show (if (!bp.is_enabled || !EvaluateCondition evaluate bp.condition) = true then _
        else _) = _
      rw [if_pos]
      rcases hoff with h1 | h1 <;> rw [h1] <;> simp
  rw [e]
  exact ⟨rfl, rfl, rfl⟩

theorem CheckBreakPoints_no_hit_witness :
    (CheckBreakPoints gekko (fun _ => true) false (sampleState 0 0 0)
      (singleBreakpoint (breakpointAt 0x80003100 false true))).1 = [] ∧
    (CheckBreakPoints gekko (fun _ => true) false (sampleState 0 0 0)
      (singleBreakpoint (breakpointAt 0x80003100 false true))).2.lookup 0x80003100
      = some (breakpointAt 0x80003100 false true) :=
  have h := CheckBreakPoints_no_hit gekko (fun _ => true) false (sampleState 0 0 0)
    (singleBreakpoint (breakpointAt 0x80003100 false true))
    (Or.inr ⟨breakpointAt 0x80003100 false true, rfl, Or.inl rfl⟩)
  ⟨h.1, h.2.2.trans rfl⟩

theorem CheckBreakPoints_hit (g : Gekko) (evaluate : Expression → Bool) (gdbActive : Bool)
    (s : PowerPCState) (b : BreakPoints) (bp : TBreakPoint)
    (hbp : b.lookup s.pc = some bp) (hen : bp.is_enabled = true)
    (hcond : EvaluateCondition evaluate bp.condition = true) :
    CheckBreakPoints g evaluate gdbActive s b =
      ([DebugEvent.InstructionHitCallbacks s.pc]
        ++ (if bp.break_on_hit then
            [DebugEvent.Break] ++ (if gdbActive then [DebugEvent.GDBTakeControl] else [])
          else [])
        ++ (if bp.log_on_hit then
            [DebugEvent.LogLine s.pc
              [s.gpr 3, s.gpr 4, s.gpr 5, s.gpr 6, s.gpr 7, s.gpr 8, s.gpr 9, s.gpr 10,
                s.gpr 11, s.gpr 12] (s.spr g.SPR_LR)]
          else []),
       if bp.is_temporary then b.Remove s.pc else b) := by
  unfold CheckBreakPoints BreakPoints.GetBreakpoint BreakPoints.IsTempBreakPoint
  rw [hbp]
  simp only [hen, hcond, Bool.not_true, Bool.or_self, Bool.false_eq_true, if_false]
  cases bp.break_on_hit <;> cases gdbActive <;> cases bp.log_on_hit <;> rfl

/-- Claim C25: when an enabled breakpoint with break-on-hit set exists at `A` and
its condition holds, `CheckBreakPoints` with `pc = A` requests the CPU break.
If the breakpoint is temporary, no breakpoint remains at `A` afterwards, the
other addresses are untouched, and a second `CheckBreakPoints` with `pc = A`
does nothing; if it is not temporary, the set is unchanged. -/
theorem CheckBreakPoints_temporary_removed (g : Gekko) (evaluate : Expression → Bool)
    (gdbActive : Bool) (s s2 : PowerPCState) (b : BreakPoints) (bp : TBreakPoint) (A : Nat)
    (hpc : s.pc = A) (hpc2 : s2.pc = A) (hbp : b.lookup A = some bp)
    (hen : bp.is_enabled = true) (hbreak : bp.break_on_hit = true)
    (hcond : EvaluateCondition evaluate bp.condition = true) :
    DebugEvent.Break ∈ (CheckBreakPoints g evaluate gdbActive s b).1 ∧
    (bp.is_temporary = true →
      (CheckBreakPoints g evaluate gdbActive s b).2.lookup A = none ∧
      (∀ a, a ≠ A → (CheckBreakPoints g evaluate gdbActive s b).2.lookup a = b.lookup a) ∧
      CheckBreakPoints g evaluate gdbActive s2 (CheckBreakPoints g evaluate gdbActive s b).2
        = ([], (CheckBreakPoints g evaluate gdbActive s b).2)) ∧
    (bp.is_temporary = false → (CheckBreakPoints g evaluate gdbActive s b).2 = b) := by
  subst hpc
  rw [CheckBreakPoints_hit g evaluate gdbActive s b bp hbp hen hcond]
  refine ⟨?_, ?_, ?_⟩
  · rw [hbreak]
    simp
  · intro htemp
    simp only [htemp, if_true]
    refine ⟨?_, ?_, ?_⟩
    · show Function.update b.lookup s.pc none s.pc = none
      rw [Function.update_same]
    · intro a ha
      show Function.update b.lookup s.pc none a = b.lookup a
      rw [Function.update_noteq ha]
    · unfold CheckBreakPoints BreakPoints.GetBreakpoint
      rw [hpc2]
      show (match Function.update b.lookup s.pc none s.pc with
        | none => _
        | some bp => _) = _
      rw [Function.update_same]
  · intro htemp
    simp only [htemp, Bool.false_eq_true, if_false]

theorem CheckBreakPoints_temporary_removed_witness :
    DebugEvent.Break ∈
      (CheckBreakPoints gekko (fun _ => true) false (sampleState 0 0 0) twoBreakpoints).1 ∧
    (CheckBreakPoints gekko (fun _ => true) false (sampleState 0 0 0)
      twoBreakpoints).2.lookup 0x80003100 = none ∧
    (CheckBreakPoints gekko (fun _ => true) false (sampleState 0 0 0)
      twoBreakpoints).2.lookup 0x80004000 = some (breakpointAt 0x80004000 true false) :=
  have h := CheckBreakPoints_temporary_removed gekko (fun _ => true) false
    (sampleState 0 0 0) (sampleState 0 0 0) twoBreakpoints (breakpointAt 0x80003100 true true)
    0x80003100 rfl rfl rfl rfl rfl rfl
  ⟨h.1, (h.2.1 rfl).1, ((h.2.1 rfl).2.1 0x80004000 (by decide)).trans rfl⟩

/-! ## Start-up -/

theorem Init_breakpoints (g : Gekko) (k : CacheModels) (c : CacheSetup) (bk : Backends)
    (cfg : Settings) (bWii : Bool) (cpu_core : CPUCore) (m : Machine) :
    (Init g k c bk cfg bWii cpu_core m).breakpoints =
      if cfg.MAIN_ENABLE_DEBUGGING then m.breakpoints.ClearAllTemporary else m.breakpoints := by
  unfold Init
  cases cfg.MAIN_ENABLE_DEBUGGING <;> rfl

/-- Claim C26 as stated fails: with debugging off `Init` leaves the temporary
breakpoint at 0x80003100 in the set, and with debugging on it removes it. -/
theorem Init_keeps_temporary_when_debugging_off :
    ((Init gekko clearingCaches plainCacheSetup desktopBackends
        { MAIN_ACCURATE_CPU_CACHE := false, MAIN_ENABLE_DEBUGGING := false } false .JIT64
        (machineWith twoBreakpoints)).breakpoints.lookup 0x80003100
      = some (breakpointAt 0x80003100 true true)) ∧
    ((Init gekko clearingCaches plainCacheSetup desktopBackends
        { MAIN_ACCURATE_CPU_CACHE := false, MAIN_ENABLE_DEBUGGING := true } false .JIT64
        (machineWith twoBreakpoints)).breakpoints.lookup 0x80003100 = none) := by
  constructor
  · rw [Init_breakpoints]
    rfl
  · rw [Init_breakpoints]
    rfl

/-- Claim C26, amended: `Init` clears the temporary breakpoints exactly when
debugging mode is on: after `Init` with debugging enabled no temporary
breakpoint remains, after `Init` with debugging disabled the breakpoint set is
as it was, and in both cases every non-temporary breakpoint persists. -/
theorem Init_clears_temporary_when_debugging_on (g : Gekko) (k : CacheModels)
    (c : CacheSetup) (bk : Backends) (cfg : Settings) (bWii : Bool) (cpu_core : CPUCore)
    (m : Machine) :
    (cfg.MAIN_ENABLE_DEBUGGING = true →
      ∀ a bp, (Init g k c bk cfg bWii cpu_core m).breakpoints.lookup a = some bp →
        bp.is_temporary = false) ∧
    (cfg.MAIN_ENABLE_DEBUGGING = false →
      (Init g k c bk cfg bWii cpu_core m).breakpoints = m.breakpoints) ∧
    (∀ a bp, m.breakpoints.lookup a = some bp → bp.is_temporary = false →
      (Init g k c bk cfg bWii cpu_core m).breakpoints.lookup a = some bp) := by
  rw [Init_breakpoints]
  refine ⟨?_, ?_, ?_⟩
  · intro hd a bp hbp
    rw [hd] at hbp
    simp only [if_true, BreakPoints.ClearAllTemporary] at hbp
    cases hl : m.breakpoints.lookup a with
    | none => rw [hl] at hbp; cases hbp
    | some bp' =>
      rw [hl] at hbp
      cases ht : bp'.is_temporary with
      | true => simp [ht] at hbp
      | false =>
        simp [ht] at hbp
        rw [← hbp]
        exact ht
  · intro hd
    rw [hd]
    rfl
  · intro a bp hbp hnt
    cases cfg.MAIN_ENABLE_DEBUGGING
    · exact hbp
    · show (match m.breakpoints.lookup a with
        | some bp => if bp.is_temporary then none else some bp
        | none => none) = some bp
      rw [hbp]
      simp [hnt]

theorem Init_clears_temporary_when_debugging_on_witness :
    (Init gekko clearingCaches plainCacheSetup desktopBackends
        { MAIN_ACCURATE_CPU_CACHE := false, MAIN_ENABLE_DEBUGGING := true } false .JIT64
        (machineWith twoBreakpoints)).breakpoints.lookup 0x80004000
      = some (breakpointAt 0x80004000 true false) ∧
    (Init gekko clearingCaches plainCacheSetup desktopBackends
        { MAIN_ACCURATE_CPU_CACHE := false, MAIN_ENABLE_DEBUGGING := false } false .JIT64
        (machineWith twoBreakpoints)).breakpoints = (machineWith twoBreakpoints).breakpoints :=
  ⟨(Init_clears_temporary_when_debugging_on gekko clearingCaches plainCacheSetup
      desktopBackends { MAIN_ACCURATE_CPU_CACHE := false, MAIN_ENABLE_DEBUGGING := true } false
      .JIT64 (machineWith twoBreakpoints)).2.2 0x80004000 _ rfl rfl,
    (Init_clears_temporary_when_debugging_on gekko clearingCaches plainCacheSetup
      desktopBackends { MAIN_ACCURATE_CPU_CACHE := false, MAIN_ENABLE_DEBUGGING := false } false
      .JIT64 (machineWith twoBreakpoints)).2.1 rfl⟩

/-! ## Instruction cache invalidation across threads -/

/-- Claim C27 as stated fails: with the CPU not in the Running state a call from
a thread other than the CPU thread schedules nothing and invalidates the
instruction cache directly. -/
theorem direct_invalidation_off_the_CPU_thread :
    (ScheduleInvalidateCacheThreadSafe markInvalidated false false 0x80003100 zeroState []).2
      = [] ∧
    (ScheduleInvalidateCacheThreadSafe markInvalidated false false 0x80003100
      zeroState []).1.iCache.content 0x80003100 = 1 ∧
    zeroState.iCache.content 0x80003100 = 0 := by
  decide

/-- Claim C27, amended: `ScheduleInvalidateCacheThreadSafe` schedules the
invalidation (a scheduler event with the address as user data, no direct
invalidation) exactly when the CPU is in the Running state and the caller is
not on the CPU thread; when the CPU is not running or the caller is on the CPU
thread it invalidates directly and schedules nothing.  The scheduled callback
performs the same invalidation. -/
theorem ScheduleInvalidateCacheThreadSafe_paths
    (invalidate : Nat → CacheModel → CacheModel) (running isCPUThread : Bool) (address : Nat)
    (s : PowerPCState) (queue : List TimingEvent) :
    (running = true ∧ isCPUThread = false →
      ScheduleInvalidateCacheThreadSafe invalidate running isCPUThread address s queue
        = (s, queue ++ [{ cycles_into_future := 0, userdata := address,
                          from_non_cpu_thread := true }])) ∧
    (running = false ∨ isCPUThread = true →
      ScheduleInvalidateCacheThreadSafe invalidate running isCPUThread address s queue
        = ({ s with iCache := invalidate (address % 2 ^ 32) s.iCache }, queue)) ∧
    (isCPUThread = true →
      (ScheduleInvalidateCacheThreadSafe invalidate running isCPUThread address s queue).2
        = queue) ∧
    InvalidateCacheThreadSafe invalidate address s
      = { s with iCache := invalidate (address % 2 ^ 32) s.iCache } := by
  unfold ScheduleInvalidateCacheThreadSafe
  refine ⟨?_, ?_, ?_, rfl⟩
  · rintro ⟨h1, h2⟩
    rw [h1, h2]
    rfl
  · rintro (h | h)
    · rw [h]
      rfl
    · rw [h]
      cases running <;> rfl
  · intro h
    rw [h]
    cases running <;> rfl

theorem ScheduleInvalidateCacheThreadSafe_paths_witness :
    ScheduleInvalidateCacheThreadSafe markInvalidated true false 0x80003100 zeroState []
      = (zeroState, [{ cycles_into_future := 0, userdata := 0x80003100,
                       from_non_cpu_thread := true }]) ∧
    (ScheduleInvalidateCacheThreadSafe markInvalidated true true 0x80003100 zeroState []).2
      = [] :=
  ⟨(ScheduleInvalidateCacheThreadSafe_paths markInvalidated true false 0x80003100 zeroState
      []).1 ⟨rfl, rfl⟩,
    (ScheduleInvalidateCacheThreadSafe_paths markInvalidated true true 0x80003100 zeroState
      []).2.2.1 rfl⟩

/-! ## Save states -/

theorem DoState_eq (e : Extents) (k : CacheModels) (c : Serializers) (p : PointerWrap)
    (s : PowerPCState) :
    DoState e k c p s = DoCaches k c (DoRegisters e (p, s)) := rfl

theorem unsigned_lawful : Primitive.unsigned.Lawful := by
  intro x
  exact ⟨rfl, by simp [Primitive.unsigned]⟩

theorem signed_lawful : Primitive.signed.Lawful := by
  intro x
  exact ⟨rfl, rfl⟩

theorem bool_lawful : Primitive.bool.Lawful := by
  intro x
  refine ⟨rfl, ?_⟩
  cases x <;> rfl

theorem msr_lawful : Primitive.msr.Lawful := by
  intro x
  exact ⟨rfl, by simp [Primitive.msr]⟩

theorem fpscr_lawful : Primitive.fpscr.Lawful := by
  intro x
  exact ⟨rfl, by simp [Primitive.fpscr]⟩

theorem pairedSingle_lawful : Primitive.pairedSingle.Lawful := by
  intro x
  exact ⟨rfl, by simp [Primitive.pairedSingle]⟩

theorem arrayCells_succ {α : Type} (P : Primitive α) (n : Nat) (a : Nat → α) :
    arrayCells P (n + 1) a = arrayCells P n a ++ P.put (a n) := by
  simp [arrayCells, List.range_succ]

theorem arrayCells_length {α : Type} (P : Primitive α) (hP : P.Lawful) (n : Nat) (a : Nat → α) :
    (arrayCells P n a).length = n * P.size := by
  induction n with
  | zero => simp [arrayCells]
  | succ n ih =>
    rw [arrayCells_succ, List.length_append, ih, (hP (a n)).1, Nat.succ_mul]

theorem arrayCells_split {α : Type} (P : Primitive α) (n : Nat) (a : Nat → α) (i : Nat)
    (hi : i < n) : ∃ tl, arrayCells P n a = arrayCells P i a ++ (P.put (a i) ++ tl) := by
  induction n with
  | zero => omega
  | succ n ih =>
    by_cases h : i = n
    · subst h
      exact ⟨[], by rw [arrayCells_succ, List.append_nil]⟩
    · obtain ⟨tl, htl⟩ := ih (by omega)
      exact ⟨tl ++ P.put (a n), by rw [arrayCells_succ, htl]; simp⟩

theorem Do_write {α : Type} (P : Primitive α) (l : List Int) (x : α) :
    PointerWrap.Do ⟨Mode.Write, l⟩ P x = (⟨Mode.Write, l ++ P.put x⟩, x) := rfl

theorem DoArray_write {α : Type} (P : Primitive α) (l : List Int) (n : Nat) (a : Nat → α) :
    PointerWrap.DoArray ⟨Mode.Write, l⟩ P n a = (⟨Mode.Write, l ++ arrayCells P n a⟩, a) := rfl

theorem Do_read {α : Type} (P : Primitive α) (hP : P.Lawful) (rest : List Int) (x y : α) :
    PointerWrap.Do ⟨Mode.Read, P.put x ++ rest⟩ P y = (⟨Mode.Read, rest⟩, x) := by
  have h := hP x
  show (({ mode := Mode.Read, stream := (P.put x ++ rest).drop P.size } : PointerWrap),
    P.get ((P.put x ++ rest).take P.size)) = _
  rw [← h.1, List.drop_left, List.take_left, h.2]

theorem DoArray_read {α : Type} (P : Primitive α) (hP : P.Lawful) (rest : List Int) (n : Nat)
    (a b : Nat → α) :
    PointerWrap.DoArray ⟨Mode.Read, arrayCells P n a ++ rest⟩ P n b
      = (⟨Mode.Read, rest⟩, fun i => if i < n then a i else b i) := by
  show (({ mode := Mode.Read, stream := (arrayCells P n a ++ rest).drop (n * P.size) } :
      PointerWrap),
    fun i => if i < n then P.get (((arrayCells P n a ++ rest).drop (i * P.size)).take P.size)
      else b i) = _
  have h1 : (arrayCells P n a ++ rest).drop (n * P.size) = rest := by
    rw [← arrayCells_length P hP n a, List.drop_left]
  rw [h1]
  congr 1
  funext i
  by_cases hi : i < n
  · rw [if_pos hi, if_pos hi]
    obtain ⟨tl, htl⟩ := arrayCells_split P n a i hi
    rw [htl, List.append_assoc, ← arrayCells_length P hP i a, List.drop_left,
      List.append_assoc, ← (hP (a i)).1, List.take_left, (hP (a i)).2]
  · rw [if_neg hi, if_neg hi]

theorem DoOn_write {α : Type} (P : Primitive α) (get : PowerPCState → α)
    (set : α → PowerPCState → PowerPCState) (l : List Int) (s : PowerPCState) :
    DoOn P get set (⟨Mode.Write, l⟩, s) = (⟨Mode.Write, l ++ P.put (get s)⟩, set (get s) s) :=
  rfl

theorem DoArrayOn_write {α : Type} (P : Primitive α) (n : Nat) (get : PowerPCState → Nat → α)
    (set : (Nat → α) → PowerPCState → PowerPCState) (l : List Int) (s : PowerPCState) :
    DoArrayOn P n get set (⟨Mode.Write, l⟩, s)
      = (⟨Mode.Write, l ++ arrayCells P n (get s)⟩, set (get s) s) :=
  rfl

theorem DoOn_read {α : Type} (P : Primitive α) (hP : P.Lawful) (get : PowerPCState → α)
    (set : α → PowerPCState → PowerPCState) (rest : List Int) (x : α) (t : PowerPCState) :
    DoOn P get set (⟨Mode.Read, P.put x ++ rest⟩, t) = (⟨Mode.Read, rest⟩, set x t) := by
  unfold DoOn
  rw [Do_read P hP]

theorem DoArrayOn_read {α : Type} (P : Primitive α) (hP : P.Lawful) (n : Nat)
    (get : PowerPCState → Nat → α) (set : (Nat → α) → PowerPCState → PowerPCState)
    (rest : List Int) (a : Nat → α) (t : PowerPCState) :
    DoArrayOn P n get set (⟨Mode.Read, arrayCells P n a ++ rest⟩, t)
      = (⟨Mode.Read, rest⟩, set (fun i => if i < n then a i else get t i) t) := by
  unfold DoArrayOn
  rw [DoArray_read P hP]

theorem DoRegisters_write (e : Extents) (l : List Int) (s : PowerPCState) :
    DoRegisters e (⟨Mode.Write, l⟩, s) = (⟨Mode.Write, l ++ registerCells e s⟩, s) := by
  unfold DoRegisters registerCells
  simp only [DoOn_write, DoArrayOn_write, List.append_assoc]

theorem DoRegisters_read (e : Extents) (rest : List Int) (s t : PowerPCState) :
    DoRegisters e (⟨Mode.Read, registerCells e s ++ rest⟩, t)
      = (⟨Mode.Read, rest⟩, loadRegisters e s t) := by
  unfold DoRegisters registerCells
  simp only [List.append_assoc, DoOn_read _ unsigned_lawful, DoOn_read _ signed_lawful,
    DoOn_read _ bool_lawful, DoOn_read _ msr_lawful, DoOn_read _ fpscr_lawful,
    DoArrayOn_read _ unsigned_lawful, DoArrayOn_read _ pairedSingle_lawful]
  rfl

theorem DoCaches_registers (k : CacheModels) (c : Serializers)
    (a : PointerWrap × PowerPCState) :
    ∃ ic dc, (DoCaches k c a).2 = { a.2 with iCache := ic, dCache := dc } := by
  unfold DoCaches
  by_cases h1 : (c.dCacheDoState (c.iCacheDoState a.1 a.2.iCache).1 a.2.dCache).1.IsReadMode = true
  · by_cases h2 : (!a.2.m_enable_dcache) = true
    · exact ⟨_, c.dCacheFlushAll (c.dCacheDoState (c.iCacheDoState a.1 a.2.iCache).1 a.2.dCache).2,
        by simp only [h1, h2, if_true]; rfl⟩
    · exact ⟨_, k.dCacheReset (c.dCacheDoState (c.iCacheDoState a.1 a.2.iCache).1 a.2.dCache).2,
        by simp only [h1, h2, if_true, if_false]; rfl⟩
  · exact ⟨_, _, by simp only [h1, if_false]; rfl⟩

theorem DoCaches_write (k : CacheModels) (c : Serializers) (hc : c.AppendOnly) (l : List Int)
    (s : PowerPCState) : ∃ x, (DoCaches k c (⟨Mode.Write, l⟩, s)).1 = ⟨Mode.Write, l ++ x⟩ := by
  obtain ⟨hi, hd, hj⟩ := hc
  obtain ⟨x1, h1⟩ := hi ⟨Mode.Write, l⟩ s.iCache rfl
  obtain ⟨x2, h2⟩ := hd ⟨Mode.Write, l ++ x1⟩ s.dCache rfl
  obtain ⟨x3, h3⟩ := hj ⟨Mode.Write, l ++ x1 ++ x2⟩ rfl
  refine ⟨x1 ++ (x2 ++ x3), ?_⟩
  unfold DoCaches
  simp only [h1, h2]
  have hr : PointerWrap.IsReadMode ⟨Mode.Write, l ++ x1 ++ x2⟩ = false := rfl
  simp only [hr, Bool.false_eq_true, if_false, h3]
  simp only [List.append_assoc]

theorem loadRegisters_same (e : Extents) (s t : PowerPCState) (ic dc : CacheModel) :
    SameRegisters e { loadRegisters e s t with iCache := ic, dCache := dc } s := by
  refine ⟨?_, rfl, rfl, ?_, rfl, rfl, rfl, rfl, rfl, rfl, rfl, ?_, ?_, ?_, ?_, rfl, rfl, rfl, rfl⟩ <;>
    intro i hi <;> exact if_pos hi

/-- Claim C28: `DoState` round-trips the register file.  For every processor
state `s`, running `DoState` in write mode on `s` produces a stream that starts
with the cells of the register file in the fixed order `gpr`, `pc`, `npc`, the
`cr` fields, `msr`, `fpscr`, `Exceptions`, `downcount`, `xer_ca`, `xer_so_ov`,
`xer_stringctrl`, `ps`, `sr`, `spr`, `tlb`, `pagetable_base`,
`pagetable_hashmask`, `reserve`, `reserve_address`, and running it in read mode
on that stream over any other state `t` restores each of these fields to its
value in `s` (an array inside its extent).  The cache and backend serializers,
which come after the register file, are assumed to write by appending. -/
theorem DoState_round_trip (e : Extents) (k : CacheModels) (c : Serializers)
    (hc : c.AppendOnly) (s t : PowerPCState) :
    (∃ x, (DoState e k c ⟨Mode.Write, []⟩ s).1.stream = registerCells e s ++ x) ∧
    SameRegisters e
      (DoState e k c ⟨Mode.Read, (DoState e k c ⟨Mode.Write, []⟩ s).1.stream⟩ t).2 s := by
  obtain ⟨x, hx⟩ := DoCaches_write k c hc ([] ++ registerCells e s) s
  have hw : (DoState e k c ⟨Mode.Write, []⟩ s).1.stream = registerCells e s ++ x := by
    rw [DoState_eq, DoRegisters_write, hx, List.nil_append]
  refine ⟨⟨x, hw⟩, ?_⟩
  rw [hw, DoState_eq, DoRegisters_read]
  obtain ⟨ic, dc, h⟩ := DoCaches_registers k c (⟨Mode.Read, x⟩, loadRegisters e s t)
  rw [h]
  exact loadRegisters_same e s t ic dc

theorem plainSerializers_appendOnly : plainSerializers.AppendOnly := by
  refine ⟨?_, ?_, ?_⟩
  · intro p cache h
    obtain ⟨m, l⟩ := p
    subst h
    exact ⟨_, rfl⟩
  · intro p cache h
    obtain ⟨m, l⟩ := p
    subst h
    exact ⟨_, rfl⟩
  · intro p h
    exact ⟨[], by simp [plainSerializers]⟩

theorem DoState_round_trip_witness :
    plainSerializers.AppendOnly ∧
    SameRegisters gekkoExtents
      (DoState gekkoExtents clearingCaches plainSerializers
        ⟨Mode.Read, (DoState gekkoExtents clearingCaches plainSerializers ⟨Mode.Write, []⟩
          (sampleState 0x10 0x8000 7)).1.stream⟩ zeroState).2
      (sampleState 0x10 0x8000 7) :=
  ⟨plainSerializers_appendOnly,
   (DoState_round_trip gekkoExtents clearingCaches plainSerializers plainSerializers_appendOnly
     (sampleState 0x10 0x8000 7) zeroState).2⟩

end PowerPC
